import Mathlib

/-!
# libserial: SerialPort.cpp

A shallow embedding of `src/libserial/src/SerialPort.cpp`: the implementation
class `SerialPortImpl`, the facade class `SerialPort`, and the part of the
operating system they talk to (the device surface: `open`, `tcgetattr`,
`tcsetattr`, `fcntl`, `ioctl`, `read`, `write`, `close`).

## The device

The serial device and the kernel are external to the program.  They are
modelled by the record `Device`:

* `attrs` is the attribute block (`termios`) the device currently has;
* `acquired` lists the descriptors that `open` has handed out and `close`
  has not yet released;
* `calls` is the trace of calls made on the device surface, oldest first;
* `script` holds the answers the device is going to give, one per call, in
  the order of the calls.  Every call on the surface except `close` (whose
  return value the program never looks at) consumes the next answer.  A
  statement quantified over all scripts is a statement about every behaviour
  of the device.  When the script is exhausted every further call fails hard
  (`-1`, `errno` different from `EAGAIN`); a run of the program that returns
  consumes finitely many answers, so nothing it can observe is lost.

## Exceptions

C++ exceptions are values of `Exn`; a function returns a `Result`.  The
functions of `SerialPort.cpp` carry dynamic exception specifications
(`throw( ... )`).  An exception that leaves a function whose specification
does not list it calls `std::unexpected()`, which ends the process; this is
the result `Result.terminate`, and `throwSpec` is the check.
-/

namespace LibSerial

/-! ## Exceptions and results -/

/-- The exception classes thrown in `SerialPort.cpp`. -/
inductive Exn where
  | NotOpen
  | AlreadyOpen
  | OpenFailed
  | UnsupportedBaudRate
  | ReadTimeout
  | invalid_argument
  | runtime_error
  deriving DecidableEq, Repr

/-- The way a call ends: it returns a value, it throws, or the process is
ended (`std::unexpected()` after a violated exception specification, or a
failed `assert`). -/
inductive Result (α : Type) where
  | ok (a : α)
  | raise (e : Exn)
  | terminate
  deriving DecidableEq, Repr

/-- The dynamic exception specification `throw( allowed )` of a function,
applied to the way its body ends. -/
def throwSpec {α : Type} (allowed : List Exn) : Result α → Result α
  | Result.raise e => if e ∈ allowed then Result.raise e else Result.terminate
  | r => r

/-- Forget the returned value and keep how the call ended. -/
def Result.status {α : Type} : Result α → Result Unit
  | Result.ok _ => Result.ok ()
  | Result.raise e => Result.raise e
  | Result.terminate => Result.terminate

/-! ## The attribute block and the constants of termios.h -/

/-- The attribute block `struct termios`.  The flag words are `tcflag_t`
(unsigned, 32 bits), the entries of `c_cc` are `cc_t` (unsigned, 8 bits).
Of the array `c_cc` the program touches the entries `VMIN` and `VTIME`; the
other entries are kept together in `c_cc_other`.  The line speed is kept in
the bits `CBAUD` of `c_cflag`; `c_ispeed` and `c_ospeed` are the two speed
fields at the end of the block, which `cfsetispeed` and `cfsetospeed` store
the rate in as well. -/
structure Termios where
  c_iflag : Nat
  c_oflag : Nat
  c_cflag : Nat
  c_lflag : Nat
  c_cc_VMIN : Nat
  c_cc_VTIME : Nat
  c_cc_other : List Nat
  c_ispeed : Nat
  c_ospeed : Nat
  deriving DecidableEq, Repr

/-- A value-initialised `termios` (`mOldPortSettings()` in the constructor). -/
def Termios.zero : Termios :=
  { c_iflag := 0, c_oflag := 0, c_cflag := 0, c_lflag := 0,
    c_cc_VMIN := 0, c_cc_VTIME := 0, c_cc_other := [],
    c_ispeed := 0, c_ospeed := 0 }

/-- Character size mask of `c_cflag` (termios.h, Linux: 0000060). -/
def CSIZE : Nat := 0x30
/-- Five bits per character (termios.h, Linux: 0000000). -/
def CS5 : Nat := 0x00
/-- Six bits per character (termios.h, Linux: 0000020). -/
def CS6 : Nat := 0x10
/-- Seven bits per character (termios.h, Linux: 0000040). -/
def CS7 : Nat := 0x20
/-- Eight bits per character (termios.h, Linux: 0000060). -/
def CS8 : Nat := 0x30
/-- Two stop bits (termios.h, Linux: 0000100). -/
def CSTOPB : Nat := 0x40
/-- Receiver enable (termios.h, Linux: 0000200). -/
def CREAD : Nat := 0x80
/-- Parity enable (termios.h, Linux: 0000400). -/
def PARENB : Nat := 0x100
/-- Odd parity (termios.h, Linux: 0001000). -/
def PARODD : Nat := 0x200
/-- Ignore modem control lines (termios.h, Linux: 0004000). -/
def CLOCAL : Nat := 0x800
/-- Hardware flow control (termios.h, Linux: 020000000000). -/
def CRTSCTS : Nat := 0x80000000

/-- Baud speed mask of `c_cflag` (termios.h, Linux: 0010017). -/
def CBAUD : Nat := 0x100F
/-- Extra baud speed mask, included in `CBAUD` (termios.h, Linux: 0010000). -/
def CBAUDEX : Nat := 0x1000
/-- The rate `B57600` (termios.h, Linux: 0010001). -/
def B57600 : Nat := 0x1001
/-- The highest rate, `__MAX_BAUD`, which is `B4000000` (termios.h, Linux:
0010017). -/
def MAX_BAUD : Nat := 0x100F
/-- The bit of `c_iflag` in which the C library records an input speed of
zero (`IBAUD0`, Linux: 020000000000). -/
def IBAUD0 : Nat := 0x80000000

/-- The operator `~` on a `tcflag_t` (32 bits). -/
def tcflagNot (x : Nat) : Nat := 0xFFFFFFFF ^^^ (x % 2 ^ 32)

/-- Conversion of an integer value to `tcflag_t` (32 bits). -/
def toTcflag (x : Nat) : Nat := x % 2 ^ 32

/-- Conversion of an integer value to `speed_t` (unsigned, 32 bits). -/
def toSpeed (x : Nat) : Nat := x % 2 ^ 32

/-- Conversion of an integer value to `cc_t` or `unsigned char` (8 bits). -/
def toByte (x : Nat) : Nat := x % 256

/-! ## The device surface -/

/-- One answer of the device to a call on its surface: the value the call
returns, whether `errno` is `EAGAIN` after it, and the datum the call stores
through its pointer argument (the byte of a `read`, the count of
`ioctl(FIONREAD)`). -/
structure Answer where
  ret : Int
  eagain : Bool
  out : Nat
  deriving DecidableEq, Repr

/-- The answer of a device whose script is exhausted: a hard failure. -/
def Answer.failure : Answer := { ret := -1, eagain := false, out := 0 }

/-- A call on the device surface, as recorded in the trace. -/
inductive Call where
  | sysOpen (name : String)
  | sysTcgetattr (fd : Int)
  | sysTcsetattr (fd : Int) (settings : Termios)
  | sysFcntlSetown (fd : Int)
  | sysIoctlFionread (fd : Int)
  | sysRead (fd : Int)
  | sysWrite (fd : Int) (data : List Nat)
  | sysClose (fd : Int)
  deriving DecidableEq, Repr

/-- The device and the kernel, as far as the program can observe them. -/
structure Device where
  attrs : Termios
  acquired : List Int
  calls : List Call
  script : List Answer
  deriving DecidableEq, Repr

/-- The answer the device gives to the next call. -/
def Device.answer (d : Device) : Answer := d.script.headD Answer.failure

/-- The device after it has answered the call `c`. -/
def Device.advance (d : Device) (c : Call) : Device :=
  { d with calls := d.calls ++ [c], script := d.script.tail }

/-- The call `open( name, O_RDWR | O_NOCTTY )`: the descriptor, or a negative
value.  A descriptor that is handed out is acquired until it is closed. -/
def sysOpen (name : String) (d : Device) : Int × Device :=
  let a := d.answer
  let d1 := d.advance (Call.sysOpen name)
  if a.ret < 0 then (a.ret, d1)
  else (a.ret, { d1 with acquired := a.ret :: d1.acquired })

/-- The call `tcgetattr( fd, &settings )`: `none` when it returns a negative
value, the attribute block of the device otherwise. -/
def tcgetattr (fd : Int) (d : Device) : Option Termios × Device :=
  let a := d.answer
  let d1 := d.advance (Call.sysTcgetattr fd)
  if a.ret < 0 then (none, d1) else (some d.attrs, d1)

/-- The call `tcsetattr( fd, TCSANOW, &settings )`: `false` when it returns a
negative value and the device keeps its attribute block, `true` when the
device accepts the block. -/
def tcsetattr (fd : Int) (settings : Termios) (d : Device) : Bool × Device :=
  let a := d.answer
  let d1 := d.advance (Call.sysTcsetattr fd settings)
  if a.ret < 0 then (false, d1) else (true, { d1 with attrs := settings })

/-- The call `fcntl( fd, F_SETOWN, getpid() )`: `false` when it returns a
negative value. -/
def fcntlSetown (fd : Int) (d : Device) : Bool × Device :=
  let a := d.answer
  let d1 := d.advance (Call.sysFcntlSetown fd)
  (decide (¬ a.ret < 0), d1)

/-- The call `ioctl( fd, FIONREAD, &n )`: `none` when it returns a negative
value, the count stored in `n` otherwise. -/
def ioctlFionread (fd : Int) (d : Device) : Option Nat × Device :=
  let a := d.answer
  let d1 := d.advance (Call.sysIoctlFionread fd)
  if a.ret < 0 then (none, d1) else (some a.out, d1)

/-- The call `close( fd )`: the descriptor is released.  The program does not
look at the value `close` returns, so no answer is consumed. -/
def sysClose (fd : Int) (d : Device) : Device :=
  { d with calls := d.calls ++ [Call.sysClose fd], acquired := d.acquired.erase fd }

/-- The library call `cfsetispeed( &settings, speed )` (C library, Linux):
`none` when the call returns a negative value, which it does for a `speed`
with a bit outside `CBAUD` that is not one of `B57600` to `__MAX_BAUD`.
Otherwise the rate is stored in `c_ispeed`; a rate of zero sets `IBAUD0` in
`c_iflag` and leaves `c_cflag` alone, any other rate clears `IBAUD0` and
replaces the bits `CBAUD` of `c_cflag` by the rate. -/
def cfsetispeed (settings : Termios) (speed : Nat) : Option Termios :=
  if speed &&& tcflagNot CBAUD ≠ 0 ∧ (speed < B57600 ∨ speed > MAX_BAUD) then none
  else if speed = 0 then
    some { settings with c_ispeed := speed, c_iflag := settings.c_iflag ||| IBAUD0 }
  else
    some { settings with
      c_ispeed := speed,
      c_iflag := settings.c_iflag &&& tcflagNot IBAUD0,
      c_cflag := (settings.c_cflag &&& tcflagNot (CBAUD ||| CBAUDEX)) ||| speed }

/-- The library call `cfsetospeed( &settings, speed )` (C library, Linux):
`none` when the call returns a negative value, under the same test as in
`cfsetispeed`.  Otherwise the rate is stored in `c_ospeed` and replaces the
bits `CBAUD` of `c_cflag`. -/
def cfsetospeed (settings : Termios) (speed : Nat) : Option Termios :=
  if speed &&& tcflagNot CBAUD ≠ 0 ∧ (speed < B57600 ∨ speed > MAX_BAUD) then none
  else
    some { settings with
      c_ospeed := speed,
      c_cflag := (settings.c_cflag &&& tcflagNot (CBAUD ||| CBAUDEX)) ||| speed }

/-- The library call `cfgetispeed( &settings )` (C library, Linux): zero when
`IBAUD0` is set in `c_iflag`, the bits `CBAUD` of `c_cflag` otherwise. -/
def cfgetispeed (settings : Termios) : Nat :=
  if settings.c_iflag &&& IBAUD0 ≠ 0 then 0
  else settings.c_cflag &&& (CBAUD ||| CBAUDEX)

/-- The loop `do { n = read( fd, &next_byte, 1 ) ; } while( (n < 0) && (EAGAIN == errno) )`
run against the answers `script`: the value of the last `read`, the byte it
stored, the answers left and the number of `read` calls made. -/
def readRetryScript : List Answer → Int × Nat × List Answer × Nat
  | [] => (Answer.failure.ret, 0, [], 1)
  | a :: rest =>
    if a.ret < 0 ∧ a.eagain = true then
      let r := readRetryScript rest
      (r.1, r.2.1, r.2.2.1, r.2.2.2 + 1)
    else (a.ret, toByte a.out, rest, 1)

/-- The retry loop around `read( mFileDescriptor, &next_byte, 1 )` on the
device: `num_of_bytes_read`, `next_byte` and the device afterwards. -/
def readRetry (fd : Int) (d : Device) : Int × Nat × Device :=
  let r := readRetryScript d.script
  (r.1, r.2.1,
    { d with calls := d.calls ++ List.replicate r.2.2.2 (Call.sysRead fd),
             script := r.2.2.1 })

/-- The loop `do { n = write( fd, dataBuffer, bufferSize ) ; } while( (n < 0) && (EAGAIN == errno) )`
run against the answers `script`: the value of the last `write`, the answers
left and the number of `write` calls made. -/
def writeRetryScript : List Answer → Int × List Answer × Nat
  | [] => (Answer.failure.ret, [], 1)
  | a :: rest =>
    if a.ret < 0 ∧ a.eagain = true then
      let r := writeRetryScript rest
      (r.1, r.2.1, r.2.2 + 1)
    else (a.ret, rest, 1)

/-- The retry loop around `write( mFileDescriptor, dataBuffer, bufferSize )`
on the device: `num_of_bytes_written` and the device afterwards. -/
def writeRetry (fd : Int) (data : List Nat) (d : Device) : Int × Device :=
  let r := writeRetryScript d.script
  (r.1,
    { d with calls := d.calls ++ List.replicate r.2.2 (Call.sysWrite fd data),
             script := r.2.1 })

/-! ## The parameter types of SerialPort.h -/

/-- Modelled from the spec: the enumeration `SerialPort::Parity` is declared
in `SerialPort.h`, which is not among the sources.  The spec names the values
None, Odd and Even; `other` stands for an object of the enumeration type
holding any other value (the `default:` label of a `switch`). -/
inductive Parity where
  | PARITY_EVEN
  | PARITY_ODD
  | PARITY_NONE
  | other (raw : Nat)
  deriving DecidableEq, Repr

/-- Modelled from the spec: the enumeration `SerialPort::StopBits` is declared
in `SerialPort.h`, which is not among the sources.  The spec names the values
One and Two; `other` stands for any other value. -/
inductive StopBits where
  | STOP_BITS_1
  | STOP_BITS_2
  | other (raw : Nat)
  deriving DecidableEq, Repr

/-- Modelled from the spec: the enumeration `SerialPort::FlowControl` is
declared in `SerialPort.h`, which is not among the sources.  The spec names
the values None and Hardware; `other` stands for any other value. -/
inductive FlowControl where
  | FLOW_CONTROL_HARD
  | FLOW_CONTROL_NONE
  | other (raw : Nat)
  deriving DecidableEq, Repr

/-- Modelled from the spec: the enumeration `SerialPort::CharacterSize` is
declared in `SerialPort.h`, which is not among the sources.  Its values are
or-ed into `c_cflag` as they are, so an object of the type is its integer
value; the four enumerators are the encodings of 5, 6, 7 and 8 bits. -/
abbrev CharacterSize : Type := Nat

/-- Modelled from the spec: the enumerator for 5 bits, the encoding `CS5`. -/
def CHAR_SIZE_5 : CharacterSize := CS5
/-- Modelled from the spec: the enumerator for 6 bits, the encoding `CS6`. -/
def CHAR_SIZE_6 : CharacterSize := CS6
/-- Modelled from the spec: the enumerator for 7 bits, the encoding `CS7`. -/
def CHAR_SIZE_7 : CharacterSize := CS7
/-- Modelled from the spec: the enumerator for 8 bits, the encoding `CS8`. -/
def CHAR_SIZE_8 : CharacterSize := CS8

/-- Modelled from the spec: the enumeration `SerialPort::BaudRate` is declared
in `SerialPort.h`, which is not among the sources.  Its values are handed to
`cfsetispeed` and `cfsetospeed` as they are, as values of `speed_t`. -/
abbrev BaudRate : Type := Nat

/-- The type `SerialPort::DataBuffer`, a vector of `unsigned char`. -/
abbrev DataBuffer : Type := List Nat

/-! ## Return records -/

/-- What a member function that leaves the handle as it is gives back: the
way it ended and the device afterwards. -/
structure Ret (α : Type) where
  result : Result α
  dev : Device
  deriving DecidableEq, Repr

/-- What a member function that may change the handle gives back. -/
structure RetSelf (σ α : Type) where
  result : Result α
  self : σ
  dev : Device
  deriving DecidableEq, Repr

/-- What `Read` gives back: the way it ended, the buffer of the caller (a
reference argument) and the device afterwards. -/
structure RetBuf where
  result : Result Unit
  dataBuffer : DataBuffer
  dev : Device
  deriving DecidableEq, Repr

/-! ## class SerialPortImpl -/

/-- The data members of `class SerialPortImpl`. -/
structure SerialPortImpl where
  mSerialPortName : String
  mIsOpen : Bool
  mFileDescriptor : Int
  mOldPortSettings : Termios
  deriving DecidableEq, Repr

namespace SerialPortImpl

/-- The constructor `SerialPortImpl::SerialPortImpl( serialPortName )`. -/
def new (serialPortName : String) : SerialPortImpl :=
  { mSerialPortName := serialPortName, mIsOpen := false,
    mFileDescriptor := -1, mOldPortSettings := Termios.zero }

/-- The member `SerialPortImpl::IsOpen`. -/
def IsOpen (self : SerialPortImpl) : Bool := self.mIsOpen

/-- The settings `SerialPortImpl::Open` writes to the port: a copy of the old
settings with the input, local and output flags zero, `CREAD | CLOCAL` or-ed
into the control flags, and `VMIN` and `VTIME` zero. -/
def baseline (old : Termios) : Termios :=
  { old with c_iflag := 0, c_lflag := 0, c_oflag := 0,
             c_cflag := old.c_cflag ||| (CREAD ||| CLOCAL),
             c_cc_VMIN := 0, c_cc_VTIME := 0 }

/-- The body of `SerialPortImpl::Open`. -/
def OpenBody (self : SerialPortImpl) (d : Device) : RetSelf SerialPortImpl Unit :=
  if self.IsOpen then ⟨Result.raise Exn.AlreadyOpen, self, d⟩
  else
    let o := sysOpen self.mSerialPortName d
    let self1 := { self with mFileDescriptor := o.1 }
    if self1.mFileDescriptor < 0 then ⟨Result.raise Exn.OpenFailed, self1, o.2⟩
    else
      let g := tcgetattr self1.mFileDescriptor o.2
      match g.1 with
      | none => ⟨Result.raise Exn.OpenFailed, self1, g.2⟩
      | some old =>
        let self2 := { self1 with mOldPortSettings := old }
        let port_settings := baseline self2.mOldPortSettings
        let s := tcsetattr self2.mFileDescriptor port_settings g.2
        if s.1 = false then ⟨Result.raise Exn.OpenFailed, self2, s.2⟩
        else
          let f := fcntlSetown self2.mFileDescriptor s.2
          if f.1 = false then ⟨Result.raise Exn.OpenFailed, self2, f.2⟩
          else ⟨Result.ok (), { self2 with mIsOpen := true }, f.2⟩

/-- The member `SerialPortImpl::Open`,
`throw( SerialPort::OpenFailed, SerialPort::AlreadyOpen )`. -/
def Open (self : SerialPortImpl) (d : Device) : RetSelf SerialPortImpl Unit :=
  let r := OpenBody self d
  { r with result := throwSpec [Exn.OpenFailed, Exn.AlreadyOpen] r.result }

/-- The body of `SerialPortImpl::Close`. -/
def CloseBody (self : SerialPortImpl) (d : Device) : RetSelf SerialPortImpl Unit :=
  if ¬ self.IsOpen then ⟨Result.raise Exn.NotOpen, self, d⟩
  else
    let s := tcsetattr self.mFileDescriptor self.mOldPortSettings d
    let d2 := sysClose self.mFileDescriptor s.2
    ⟨Result.ok (), { self with mIsOpen := false }, d2⟩

/-- The member `SerialPortImpl::Close`, `throw( SerialPort::NotOpen )`. -/
def Close (self : SerialPortImpl) (d : Device) : RetSelf SerialPortImpl Unit :=
  let r := CloseBody self d
  { r with result := throwSpec [Exn.NotOpen] r.result }

/-- The destructor `SerialPortImpl::~SerialPortImpl`: the handle is closed if
it is open.  The device afterwards. -/
def destroy (self : SerialPortImpl) (d : Device) : Device :=
  if self.IsOpen then (self.Close d).dev else d

/-- The body of `SerialPortImpl::SetBaudRate`. -/
def SetBaudRateBody (self : SerialPortImpl) (baudRate : BaudRate) (d : Device) : Ret Unit :=
  if ¬ self.IsOpen then ⟨Result.raise Exn.NotOpen, d⟩
  else
    let g := tcgetattr self.mFileDescriptor d
    match g.1 with
    | none => ⟨Result.raise Exn.runtime_error, g.2⟩
    | some port_settings =>
      match cfsetispeed port_settings (toSpeed baudRate) with
      | none => ⟨Result.raise Exn.UnsupportedBaudRate, g.2⟩
      | some settings1 =>
        match cfsetospeed settings1 (toSpeed baudRate) with
        | none => ⟨Result.raise Exn.UnsupportedBaudRate, g.2⟩
        | some settings2 =>
          let s := tcsetattr self.mFileDescriptor settings2 g.2
          if s.1 = false then ⟨Result.raise Exn.UnsupportedBaudRate, s.2⟩
          else ⟨Result.ok (), s.2⟩

/-- The member `SerialPortImpl::SetBaudRate`,
`throw( NotOpen, UnsupportedBaudRate, std::invalid_argument, std::runtime_error )`. -/
def SetBaudRate (self : SerialPortImpl) (baudRate : BaudRate) (d : Device) : Ret Unit :=
  let r := SetBaudRateBody self baudRate d
  { r with result := throwSpec [Exn.NotOpen, Exn.UnsupportedBaudRate,
      Exn.invalid_argument, Exn.runtime_error] r.result }

/-- The body of `SerialPortImpl::GetBaudRate`. -/
def GetBaudRateBody (self : SerialPortImpl) (d : Device) : Ret BaudRate :=
  if ¬ self.IsOpen then ⟨Result.raise Exn.NotOpen, d⟩
  else
    let g := tcgetattr self.mFileDescriptor d
    match g.1 with
    | none => ⟨Result.raise Exn.runtime_error, g.2⟩
    | some port_settings => ⟨Result.ok (cfgetispeed port_settings), g.2⟩

/-- The member `SerialPortImpl::GetBaudRate`,
`throw( NotOpen, std::runtime_error )`. -/
def GetBaudRate (self : SerialPortImpl) (d : Device) : Ret BaudRate :=
  let r := GetBaudRateBody self d
  { r with result := throwSpec [Exn.NotOpen, Exn.runtime_error] r.result }

/-- The body of `SerialPortImpl::SetCharSize`. -/
def SetCharSizeBody (self : SerialPortImpl) (charSize : CharacterSize) (d : Device) : Ret Unit :=
  if ¬ self.IsOpen then ⟨Result.raise Exn.NotOpen, d⟩
  else
    let g := tcgetattr self.mFileDescriptor d
    match g.1 with
    | none => ⟨Result.raise Exn.runtime_error, g.2⟩
    | some port_settings =>
      let settings1 := { port_settings with c_cflag := port_settings.c_cflag &&& tcflagNot CSIZE }
      let settings2 := { settings1 with c_cflag := settings1.c_cflag ||| toTcflag charSize }
      let s := tcsetattr self.mFileDescriptor settings2 g.2
      if s.1 = false then ⟨Result.raise Exn.invalid_argument, s.2⟩
      else ⟨Result.ok (), s.2⟩

/-- The member `SerialPortImpl::SetCharSize`,
`throw( NotOpen, std::invalid_argument, std::runtime_error )`. -/
def SetCharSize (self : SerialPortImpl) (charSize : CharacterSize) (d : Device) : Ret Unit :=
  let r := SetCharSizeBody self charSize d
  { r with result := throwSpec [Exn.NotOpen, Exn.invalid_argument, Exn.runtime_error] r.result }

/-- The body of `SerialPortImpl::GetCharSize`. -/
def GetCharSizeBody (self : SerialPortImpl) (d : Device) : Ret CharacterSize :=
  if ¬ self.IsOpen then ⟨Result.raise Exn.NotOpen, d⟩
  else
    let g := tcgetattr self.mFileDescriptor d
    match g.1 with
    | none => ⟨Result.raise Exn.runtime_error, g.2⟩
    | some port_settings => ⟨Result.ok (port_settings.c_cflag &&& CSIZE), g.2⟩

/-- The member `SerialPortImpl::GetCharSize`,
`throw( NotOpen, std::runtime_error )`. -/
def GetCharSize (self : SerialPortImpl) (d : Device) : Ret CharacterSize :=
  let r := GetCharSizeBody self d
  { r with result := throwSpec [Exn.NotOpen, Exn.runtime_error] r.result }

/-- The body of `SerialPortImpl::SetParity`. -/
def SetParityBody (self : SerialPortImpl) (parityType : Parity) (d : Device) : Ret Unit :=
  if ¬ self.IsOpen then ⟨Result.raise Exn.NotOpen, d⟩
  else
    let g := tcgetattr self.mFileDescriptor d
    match g.1 with
    | none => ⟨Result.raise Exn.runtime_error, g.2⟩
    | some port_settings =>
      let switched : Option Termios :=
        match parityType with
        | Parity.PARITY_EVEN =>
          some { port_settings with
            c_cflag := (port_settings.c_cflag ||| PARENB) &&& tcflagNot PARODD }
        | Parity.PARITY_ODD =>
          some { port_settings with c_cflag := port_settings.c_cflag ||| (PARENB ||| PARODD) }
        | Parity.PARITY_NONE =>
          some { port_settings with c_cflag := port_settings.c_cflag &&& tcflagNot PARENB }
        | Parity.other _ => none
      match switched with
      | none => ⟨Result.raise Exn.invalid_argument, g.2⟩
      | some settings1 =>
        let s := tcsetattr self.mFileDescriptor settings1 g.2
        if s.1 = false then ⟨Result.raise Exn.invalid_argument, s.2⟩
        else ⟨Result.ok (), s.2⟩

/-- The member `SerialPortImpl::SetParity`,
`throw( NotOpen, std::invalid_argument, std::runtime_error )`. -/
def SetParity (self : SerialPortImpl) (parityType : Parity) (d : Device) : Ret Unit :=
  let r := SetParityBody self parityType d
  { r with result := throwSpec [Exn.NotOpen, Exn.invalid_argument, Exn.runtime_error] r.result }

/-- The body of `SerialPortImpl::GetParity`. -/
def GetParityBody (self : SerialPortImpl) (d : Device) : Ret Parity :=
  if ¬ self.IsOpen then ⟨Result.raise Exn.NotOpen, d⟩
  else
    let g := tcgetattr self.mFileDescriptor d
    match g.1 with
    | none => ⟨Result.raise Exn.runtime_error, g.2⟩
    | some port_settings =>
      if port_settings.c_cflag &&& PARENB ≠ 0 then
        if port_settings.c_cflag &&& PARODD ≠ 0 then ⟨Result.ok Parity.PARITY_ODD, g.2⟩
        else ⟨Result.ok Parity.PARITY_EVEN, g.2⟩
      else ⟨Result.ok Parity.PARITY_NONE, g.2⟩

/-- The member `SerialPortImpl::GetParity`, `throw( SerialPort::NotOpen )`. -/
def GetParity (self : SerialPortImpl) (d : Device) : Ret Parity :=
  let r := GetParityBody self d
  { r with result := throwSpec [Exn.NotOpen] r.result }

/-- The body of `SerialPortImpl::SetNumOfStopBits`. -/
def SetNumOfStopBitsBody (self : SerialPortImpl) (numOfStopBits : StopBits) (d : Device) :
    Ret Unit :=
  if ¬ self.IsOpen then ⟨Result.raise Exn.NotOpen, d⟩
  else
    let g := tcgetattr self.mFileDescriptor d
    match g.1 with
    | none => ⟨Result.raise Exn.runtime_error, g.2⟩
    | some port_settings =>
      let switched : Option Termios :=
        match numOfStopBits with
        | StopBits.STOP_BITS_1 =>
          some { port_settings with c_cflag := port_settings.c_cflag &&& tcflagNot CSTOPB }
        | StopBits.STOP_BITS_2 =>
          some { port_settings with c_cflag := port_settings.c_cflag ||| CSTOPB }
        | StopBits.other _ => none
      match switched with
      | none => ⟨Result.raise Exn.invalid_argument, g.2⟩
      | some settings1 =>
        let s := tcsetattr self.mFileDescriptor settings1 g.2
        if s.1 = false then ⟨Result.raise Exn.invalid_argument, s.2⟩
        else ⟨Result.ok (), s.2⟩

/-- The member `SerialPortImpl::SetNumOfStopBits`,
`throw( NotOpen, std::invalid_argument )`. -/
def SetNumOfStopBits (self : SerialPortImpl) (numOfStopBits : StopBits) (d : Device) : Ret Unit :=
  let r := SetNumOfStopBitsBody self numOfStopBits d
  { r with result := throwSpec [Exn.NotOpen, Exn.invalid_argument] r.result }

/-- The body of `SerialPortImpl::GetNumOfStopBits`. -/
def GetNumOfStopBitsBody (self : SerialPortImpl) (d : Device) : Ret StopBits :=
  if ¬ self.IsOpen then ⟨Result.raise Exn.NotOpen, d⟩
  else
    let g := tcgetattr self.mFileDescriptor d
    match g.1 with
    | none => ⟨Result.raise Exn.runtime_error, g.2⟩
    | some port_settings =>
      if port_settings.c_cflag &&& CSTOPB ≠ 0 then ⟨Result.ok StopBits.STOP_BITS_2, g.2⟩
      else ⟨Result.ok StopBits.STOP_BITS_1, g.2⟩

/-- The member `SerialPortImpl::GetNumOfStopBits`, `throw( SerialPort::NotOpen )`. -/
def GetNumOfStopBits (self : SerialPortImpl) (d : Device) : Ret StopBits :=
  let r := GetNumOfStopBitsBody self d
  { r with result := throwSpec [Exn.NotOpen] r.result }

/-- The body of `SerialPortImpl::SetFlowControl`. -/
def SetFlowControlBody (self : SerialPortImpl) (flowControl : FlowControl) (d : Device) :
    Ret Unit :=
  if ¬ self.IsOpen then ⟨Result.raise Exn.NotOpen, d⟩
  else
    let g := tcgetattr self.mFileDescriptor d
    match g.1 with
    | none => ⟨Result.raise Exn.runtime_error, g.2⟩
    | some port_settings =>
      let switched : Option Termios :=
        match flowControl with
        | FlowControl.FLOW_CONTROL_HARD =>
          some { port_settings with c_cflag := port_settings.c_cflag ||| CRTSCTS }
        | FlowControl.FLOW_CONTROL_NONE =>
          some { port_settings with c_cflag := port_settings.c_cflag &&& tcflagNot CRTSCTS }
        | FlowControl.other _ => none
      match switched with
      | none => ⟨Result.raise Exn.invalid_argument, g.2⟩
      | some settings1 =>
        let s := tcsetattr self.mFileDescriptor settings1 g.2
        if s.1 = false then ⟨Result.raise Exn.invalid_argument, s.2⟩
        else ⟨Result.ok (), s.2⟩

/-- The member `SerialPortImpl::SetFlowControl`,
`throw( NotOpen, std::invalid_argument )`. -/
def SetFlowControl (self : SerialPortImpl) (flowControl : FlowControl) (d : Device) : Ret Unit :=
  let r := SetFlowControlBody self flowControl d
  { r with result := throwSpec [Exn.NotOpen, Exn.invalid_argument] r.result }

/-- The body of `SerialPortImpl::GetFlowControl`. -/
def GetFlowControlBody (self : SerialPortImpl) (d : Device) : Ret FlowControl :=
  if ¬ self.IsOpen then ⟨Result.raise Exn.NotOpen, d⟩
  else
    let g := tcgetattr self.mFileDescriptor d
    match g.1 with
    | none => ⟨Result.raise Exn.runtime_error, g.2⟩
    | some port_settings =>
      if port_settings.c_cflag &&& CRTSCTS ≠ 0 then ⟨Result.ok FlowControl.FLOW_CONTROL_HARD, g.2⟩
      else ⟨Result.ok FlowControl.FLOW_CONTROL_NONE, g.2⟩

/-- The member `SerialPortImpl::GetFlowControl`, `throw( SerialPort::NotOpen )`. -/
def GetFlowControl (self : SerialPortImpl) (d : Device) : Ret FlowControl :=
  let r := GetFlowControlBody self d
  { r with result := throwSpec [Exn.NotOpen] r.result }

/-- The body of `SerialPortImpl::IsDataAvailable`. -/
def IsDataAvailableBody (self : SerialPortImpl) (d : Device) : Ret Bool :=
  if ¬ self.IsOpen then ⟨Result.raise Exn.NotOpen, d⟩
  else
    let q := ioctlFionread self.mFileDescriptor d
    match q.1 with
    | none => ⟨Result.raise Exn.runtime_error, q.2⟩
    | some num_of_bytes_available => ⟨Result.ok (decide (num_of_bytes_available ≠ 0)), q.2⟩

/-- The member `SerialPortImpl::IsDataAvailable`,
`throw( NotOpen, std::runtime_error )`. -/
def IsDataAvailable (self : SerialPortImpl) (d : Device) : Ret Bool :=
  let r := IsDataAvailableBody self d
  { r with result := throwSpec [Exn.NotOpen, Exn.runtime_error] r.result }

/-- The body of `SerialPortImpl::SetReadTimeout`.  The arguments are
`unsigned int`; the entries of `c_cc` they are stored in are `cc_t`. -/
def SetReadTimeoutBody (self : SerialPortImpl) (msTimeout numOfBytes : Nat) (d : Device) :
    Ret Unit :=
  let g := tcgetattr self.mFileDescriptor d
  match g.1 with
  | none => ⟨Result.raise Exn.runtime_error, g.2⟩
  | some port_settings =>
    let settings1 :=
      if 0 = msTimeout then
        { port_settings with c_cc_VMIN := toByte numOfBytes, c_cc_VTIME := 0 }
      else
        { port_settings with c_cc_VMIN := toByte numOfBytes,
                             c_cc_VTIME := toByte (msTimeout / 100) }
    let s := tcsetattr self.mFileDescriptor settings1 g.2
    if s.1 = false then ⟨Result.raise Exn.invalid_argument, s.2⟩
    else ⟨Result.ok (), s.2⟩

/-- The member `SerialPortImpl::SetReadTimeout`,
`throw( std::invalid_argument, std::runtime_error )`. -/
def SetReadTimeout (self : SerialPortImpl) (msTimeout numOfBytes : Nat) (d : Device) : Ret Unit :=
  let r := SetReadTimeoutBody self msTimeout numOfBytes d
  { r with result := throwSpec [Exn.invalid_argument, Exn.runtime_error] r.result }

/-- The loop `for( int i = 0 ; i < numOfBytes ; ++i )` of `SerialPortImpl::Read`
with `remaining` iterations to go: `is_read_failed`, the buffer and the device
when the loop is left. -/
def readLoop (fd : Int) : (remaining : Nat) → DataBuffer → Device → Bool × DataBuffer × Device
  | 0, dataBuffer, d => (false, dataBuffer, d)
  | remaining + 1, dataBuffer, d =>
    let r := readRetry fd d
    let num_of_bytes_read := r.1
    let next_byte := r.2.1
    if 1 = num_of_bytes_read then
      readLoop fd remaining (dataBuffer ++ [next_byte]) r.2.2
    else
      (decide (num_of_bytes_read < 0), dataBuffer, r.2.2)

/-- The branch `else` of `SerialPortImpl::Read`, taken when `numOfBytes` is
not zero: the read timeout is set, the bytes are read one at a time, and the
outcome of the loop is turned into an exception. -/
def ReadElse (self : SerialPortImpl) (dataBuffer : DataBuffer) (numOfBytes msTimeout : Nat)
    (d : Device) : RetBuf :=
  let t :=
    if 0 = msTimeout then self.SetReadTimeout 0 numOfBytes d
    else self.SetReadTimeout msTimeout 0 d
  match t.result with
  | Result.raise e => ⟨Result.raise e, dataBuffer, t.dev⟩
  | Result.terminate => ⟨Result.terminate, dataBuffer, t.dev⟩
  | Result.ok _ =>
    let l := readLoop self.mFileDescriptor numOfBytes dataBuffer t.dev
    let is_read_failed := l.1
    if is_read_failed = true then ⟨Result.raise Exn.runtime_error, l.2.1, l.2.2⟩
    else if l.2.1.length < numOfBytes then ⟨Result.raise Exn.ReadTimeout, l.2.1, l.2.2⟩
    else ⟨Result.ok (), l.2.1, l.2.2⟩

/-- The member `SerialPortImpl::Read` called with `numOfBytes` different from
zero, `throw( NotOpen, ReadTimeout, std::runtime_error )`.  The statement
`dataBuffer.empty() ;` evaluates a query and has no effect. -/
def ReadNonzero (self : SerialPortImpl) (dataBuffer : DataBuffer) (numOfBytes msTimeout : Nat)
    (d : Device) : RetBuf :=
  let r : RetBuf :=
    if ¬ self.IsOpen then ⟨Result.raise Exn.NotOpen, dataBuffer, d⟩
    else ReadElse self dataBuffer numOfBytes msTimeout d
  { r with result := throwSpec [Exn.NotOpen, Exn.ReadTimeout, Exn.runtime_error] r.result }

/-- The body of `SerialPortImpl::ReadByte`: `Read( data_buffer, 1, msTimeout )`
on an empty local buffer, the assertion `1 == data_buffer.size()`, and
`data_buffer[0]`. -/
def ReadByteBody (self : SerialPortImpl) (msTimeout : Nat) (d : Device) : Ret Nat :=
  let r := ReadNonzero self [] 1 msTimeout d
  match r.result with
  | Result.raise e => ⟨Result.raise e, r.dev⟩
  | Result.terminate => ⟨Result.terminate, r.dev⟩
  | Result.ok _ =>
    match r.dataBuffer with
    | [data_byte] => ⟨Result.ok data_byte, r.dev⟩
    | _ => ⟨Result.terminate, r.dev⟩

/-- The member `SerialPortImpl::ReadByte`,
`throw( NotOpen, ReadTimeout, std::runtime_error )`. -/
def ReadByte (self : SerialPortImpl) (msTimeout : Nat) (d : Device) : Ret Nat :=
  let r := ReadByteBody self msTimeout d
  { r with result := throwSpec [Exn.NotOpen, Exn.ReadTimeout, Exn.runtime_error] r.result }

/-- The loop `while( this->IsDataAvailable() ) { dataBuffer.push_back( ReadByte(msTimeout) ) ; }`
of `SerialPortImpl::Read`.  Every iteration consumes an answer of the device
and an iteration on an exhausted script ends the loop, so `fuel` iterations
are enough when `fuel` exceeds the length of the script; the case of no fuel
is not reached from `Read`. -/
def drainLoop (self : SerialPortImpl) (msTimeout : Nat) :
    (fuel : Nat) → DataBuffer → Device → RetBuf
  | 0, dataBuffer, d => ⟨Result.raise Exn.runtime_error, dataBuffer, d⟩
  | fuel + 1, dataBuffer, d =>
    let a := self.IsDataAvailable d
    match a.result with
    | Result.raise e => ⟨Result.raise e, dataBuffer, a.dev⟩
    | Result.terminate => ⟨Result.terminate, dataBuffer, a.dev⟩
    | Result.ok false => ⟨Result.ok (), dataBuffer, a.dev⟩
    | Result.ok true =>
      let b := self.ReadByte msTimeout a.dev
      match b.result with
      | Result.raise e => ⟨Result.raise e, dataBuffer, b.dev⟩
      | Result.terminate => ⟨Result.terminate, dataBuffer, b.dev⟩
      | Result.ok data_byte => drainLoop self msTimeout fuel (dataBuffer ++ [data_byte]) b.dev

/-- The body of `SerialPortImpl::Read`.  The statement `dataBuffer.empty() ;`
evaluates a query and has no effect. -/
def ReadBody (self : SerialPortImpl) (dataBuffer : DataBuffer) (numOfBytes msTimeout : Nat)
    (d : Device) : RetBuf :=
  if ¬ self.IsOpen then ⟨Result.raise Exn.NotOpen, dataBuffer, d⟩
  else if 0 = numOfBytes then drainLoop self msTimeout (d.script.length + 1) dataBuffer d
  else ReadElse self dataBuffer numOfBytes msTimeout d

/-- The member `SerialPortImpl::Read`,
`throw( NotOpen, ReadTimeout, std::runtime_error )`. -/
def Read (self : SerialPortImpl) (dataBuffer : DataBuffer) (numOfBytes msTimeout : Nat)
    (d : Device) : RetBuf :=
  let r := ReadBody self dataBuffer numOfBytes msTimeout d
  { r with result := throwSpec [Exn.NotOpen, Exn.ReadTimeout, Exn.runtime_error] r.result }

/-- The body of `SerialPortImpl::Write( const unsigned char*, unsigned int )`;
`dataBuffer` holds the `bufferSize` bytes the pointer refers to. -/
def WriteBytesBody (self : SerialPortImpl) (dataBuffer : List Nat) (d : Device) : Ret Unit :=
  if ¬ self.IsOpen then ⟨Result.raise Exn.NotOpen, d⟩
  else
    let w := writeRetry self.mFileDescriptor dataBuffer d
    let num_of_bytes_written := w.1
    if num_of_bytes_written < 0 then ⟨Result.raise Exn.runtime_error, w.2⟩
    else ⟨Result.ok (), w.2⟩

/-- The member `SerialPortImpl::Write( const unsigned char*, unsigned int )`,
`throw( NotOpen, std::runtime_error )`. -/
def WriteBytes (self : SerialPortImpl) (dataBuffer : List Nat) (d : Device) : Ret Unit :=
  let r := WriteBytesBody self dataBuffer d
  { r with result := throwSpec [Exn.NotOpen, Exn.runtime_error] r.result }

/-- The body of `SerialPortImpl::WriteByte`. -/
def WriteByteBody (self : SerialPortImpl) (dataByte : Nat) (d : Device) : Ret Unit :=
  if ¬ self.IsOpen then ⟨Result.raise Exn.NotOpen, d⟩
  else self.WriteBytes [dataByte] d

/-- The member `SerialPortImpl::WriteByte`, `throw( NotOpen, std::runtime_error )`. -/
def WriteByte (self : SerialPortImpl) (dataByte : Nat) (d : Device) : Ret Unit :=
  let r := WriteByteBody self dataByte d
  { r with result := throwSpec [Exn.NotOpen, Exn.runtime_error] r.result }

/-- The body of `SerialPortImpl::Write( const SerialPort::DataBuffer& )`: the
buffer is copied to `local_buffer`, which is written with one call of the
other `Write` and freed whether that call throws or not. -/
def WriteBody (self : SerialPortImpl) (dataBuffer : DataBuffer) (d : Device) : Ret Unit :=
  if ¬ self.IsOpen then ⟨Result.raise Exn.NotOpen, d⟩
  else if 0 = dataBuffer.length then ⟨Result.ok (), d⟩
  else
    let local_buffer := dataBuffer
    self.WriteBytes local_buffer d

/-- The member `SerialPortImpl::Write( const SerialPort::DataBuffer& )`,
`throw( NotOpen, std::runtime_error )`. -/
def Write (self : SerialPortImpl) (dataBuffer : DataBuffer) (d : Device) : Ret Unit :=
  let r := WriteBody self dataBuffer d
  { r with result := throwSpec [Exn.NotOpen, Exn.runtime_error] r.result }

end SerialPortImpl

/-! ## class SerialPort -/

/-- The data member of `class SerialPort`: the implementation instance
`mSerialPortImpl` points to. -/
structure SerialPort where
  mSerialPortImpl : SerialPortImpl
  deriving DecidableEq, Repr

/-- Sequencing of two statements: the second runs on the device the first
leaves, unless the first throws or ends the process. -/
def Ret.andThen (r : Ret Unit) (next : Device → Ret Unit) : Ret Unit :=
  match r.result with
  | Result.ok _ => next r.dev
  | Result.raise e => ⟨Result.raise e, r.dev⟩
  | Result.terminate => ⟨Result.terminate, r.dev⟩

namespace SerialPort

/-- The constructor `SerialPort::SerialPort( serialPortName )`. -/
def new (serialPortName : String) : SerialPort :=
  { mSerialPortImpl := SerialPortImpl.new serialPortName }

/-- The member `SerialPort::IsOpen`. -/
def IsOpen (self : SerialPort) : Bool := self.mSerialPortImpl.IsOpen

/-- The member `SerialPort::Close`, `throw( NotOpen )`. -/
def Close (self : SerialPort) (d : Device) : RetSelf SerialPort Unit :=
  let r := self.mSerialPortImpl.Close d
  ⟨throwSpec [Exn.NotOpen] r.result, { mSerialPortImpl := r.self }, r.dev⟩

/-- The member `SerialPort::SetBaudRate`,
`throw( UnsupportedBaudRate, NotOpen, std::invalid_argument )`. -/
def SetBaudRate (self : SerialPort) (baudRate : BaudRate) (d : Device) : Ret Unit :=
  let r := self.mSerialPortImpl.SetBaudRate baudRate d
  { r with result :=
      throwSpec [Exn.UnsupportedBaudRate, Exn.NotOpen, Exn.invalid_argument] r.result }

/-- The member `SerialPort::GetBaudRate`, `throw( NotOpen, std::runtime_error )`. -/
def GetBaudRate (self : SerialPort) (d : Device) : Ret BaudRate :=
  let r := self.mSerialPortImpl.GetBaudRate d
  { r with result := throwSpec [Exn.NotOpen, Exn.runtime_error] r.result }

/-- The member `SerialPort::SetCharSize`, `throw( NotOpen, std::invalid_argument )`. -/
def SetCharSize (self : SerialPort) (charSize : CharacterSize) (d : Device) : Ret Unit :=
  let r := self.mSerialPortImpl.SetCharSize charSize d
  { r with result := throwSpec [Exn.NotOpen, Exn.invalid_argument] r.result }

/-- The member `SerialPort::GetCharSize`, `throw( NotOpen )`. -/
def GetCharSize (self : SerialPort) (d : Device) : Ret CharacterSize :=
  let r := self.mSerialPortImpl.GetCharSize d
  { r with result := throwSpec [Exn.NotOpen] r.result }

/-- The member `SerialPort::SetParity`, `throw( NotOpen, std::invalid_argument )`. -/
def SetParity (self : SerialPort) (parityType : Parity) (d : Device) : Ret Unit :=
  let r := self.mSerialPortImpl.SetParity parityType d
  { r with result := throwSpec [Exn.NotOpen, Exn.invalid_argument] r.result }

/-- The member `SerialPort::GetParity`, `throw( NotOpen )`. -/
def GetParity (self : SerialPort) (d : Device) : Ret Parity :=
  let r := self.mSerialPortImpl.GetParity d
  { r with result := throwSpec [Exn.NotOpen] r.result }

/-- The member `SerialPort::SetNumOfStopBits`,
`throw( NotOpen, std::invalid_argument )`. -/
def SetNumOfStopBits (self : SerialPort) (numOfStopBits : StopBits) (d : Device) : Ret Unit :=
  let r := self.mSerialPortImpl.SetNumOfStopBits numOfStopBits d
  { r with result := throwSpec [Exn.NotOpen, Exn.invalid_argument] r.result }

/-- The member `SerialPort::GetNumOfStopBits`, `throw( NotOpen )`. -/
def GetNumOfStopBits (self : SerialPort) (d : Device) : Ret StopBits :=
  let r := self.mSerialPortImpl.GetNumOfStopBits d
  { r with result := throwSpec [Exn.NotOpen] r.result }

/-- The member `SerialPort::SetFlowControl`, `throw( NotOpen, std::invalid_argument )`. -/
def SetFlowControl (self : SerialPort) (flowControl : FlowControl) (d : Device) : Ret Unit :=
  let r := self.mSerialPortImpl.SetFlowControl flowControl d
  { r with result := throwSpec [Exn.NotOpen, Exn.invalid_argument] r.result }

/-- The member `SerialPort::GetFlowControl`, `throw( NotOpen )`. -/
def GetFlowControl (self : SerialPort) (d : Device) : Ret FlowControl :=
  let r := self.mSerialPortImpl.GetFlowControl d
  { r with result := throwSpec [Exn.NotOpen] r.result }

/-- The body of `SerialPort::Open` with its five arguments: the implementation
is opened, then the five setters of the facade run in the order of the
source. -/
def OpenBody (self : SerialPort) (baudRate : BaudRate) (charSize : CharacterSize)
    (parityType : Parity) (stopBits : StopBits) (flowControl : FlowControl) (d : Device) :
    RetSelf SerialPort Unit :=
  let o := self.mSerialPortImpl.Open d
  let self1 : SerialPort := { mSerialPortImpl := o.self }
  let r : Ret Unit :=
    Ret.andThen ⟨o.result, o.dev⟩ fun d1 =>
    Ret.andThen (self1.SetBaudRate baudRate d1) fun d2 =>
    Ret.andThen (self1.SetCharSize charSize d2) fun d3 =>
    Ret.andThen (self1.SetParity parityType d3) fun d4 =>
    Ret.andThen (self1.SetNumOfStopBits stopBits d4) fun d5 =>
    self1.SetFlowControl flowControl d5
  ⟨r.result, self1, r.dev⟩

/-- The member `SerialPort::Open`,
`throw( OpenFailed, AlreadyOpen, UnsupportedBaudRate, std::invalid_argument )`. -/
def Open (self : SerialPort) (baudRate : BaudRate) (charSize : CharacterSize)
    (parityType : Parity) (stopBits : StopBits) (flowControl : FlowControl) (d : Device) :
    RetSelf SerialPort Unit :=
  let r := OpenBody self baudRate charSize parityType stopBits flowControl d
  { r with result := throwSpec [Exn.OpenFailed, Exn.AlreadyOpen, Exn.UnsupportedBaudRate,
      Exn.invalid_argument] r.result }

/-- The member `SerialPort::IsDataAvailable`, `throw( NotOpen )`. -/
def IsDataAvailable (self : SerialPort) (d : Device) : Ret Bool :=
  let r := self.mSerialPortImpl.IsDataAvailable d
  { r with result := throwSpec [Exn.NotOpen] r.result }

/-- The member `SerialPort::ReadByte`,
`throw( NotOpen, ReadTimeout, std::runtime_error )`. -/
def ReadByte (self : SerialPort) (msTimeout : Nat) (d : Device) : Ret Nat :=
  let r := self.mSerialPortImpl.ReadByte msTimeout d
  { r with result := throwSpec [Exn.NotOpen, Exn.ReadTimeout, Exn.runtime_error] r.result }

/-- The member `SerialPort::Read`,
`throw( NotOpen, ReadTimeout, std::runtime_error )`. -/
def Read (self : SerialPort) (dataBuffer : DataBuffer) (numOfBytes msTimeout : Nat)
    (d : Device) : RetBuf :=
  let r := self.mSerialPortImpl.Read dataBuffer numOfBytes msTimeout d
  { r with result := throwSpec [Exn.NotOpen, Exn.ReadTimeout, Exn.runtime_error] r.result }

/-- The loop `do { next_char = ReadByte( msTimeout ) ; result += next_char ; }
while( next_char != lineTerminator )` of `SerialPort::ReadLine`; `result` holds
the characters as bytes and `lineTerminator` is the byte of the terminator.
Every iteration consumes an answer of the device and an iteration on an
exhausted script throws, so `fuel` iterations are enough when `fuel` exceeds
the length of the script; the case of no fuel is not reached from `ReadLine`. -/
def readLineLoop (self : SerialPort) (msTimeout lineTerminator : Nat) :
    (fuel : Nat) → List Nat → Device → Ret (List Nat)
  | 0, _, d => ⟨Result.raise Exn.runtime_error, d⟩
  | fuel + 1, result, d =>
    let b := self.ReadByte msTimeout d
    match b.result with
    | Result.raise e => ⟨Result.raise e, b.dev⟩
    | Result.terminate => ⟨Result.terminate, b.dev⟩
    | Result.ok next_char =>
      let result1 := result ++ [next_char]
      if next_char ≠ toByte lineTerminator then
        readLineLoop self msTimeout lineTerminator fuel result1 b.dev
      else ⟨Result.ok result1, b.dev⟩

/-- The member `SerialPort::ReadLine`,
`throw( NotOpen, ReadTimeout, std::runtime_error )`. -/
def ReadLine (self : SerialPort) (msTimeout lineTerminator : Nat) (d : Device) :
    Ret (List Nat) :=
  let r := readLineLoop self msTimeout lineTerminator (d.script.length + 1) [] d
  { r with result := throwSpec [Exn.NotOpen, Exn.ReadTimeout, Exn.runtime_error] r.result }

/-- The member `SerialPort::WriteByte`, `throw( NotOpen, std::runtime_error )`. -/
def WriteByte (self : SerialPort) (dataByte : Nat) (d : Device) : Ret Unit :=
  let r := self.mSerialPortImpl.WriteByte dataByte d
  { r with result := throwSpec [Exn.NotOpen, Exn.runtime_error] r.result }

/-- The member `SerialPort::Write( const DataBuffer& )`,
`throw( NotOpen, std::runtime_error )`. -/
def Write (self : SerialPort) (dataBuffer : DataBuffer) (d : Device) : Ret Unit :=
  let r := self.mSerialPortImpl.Write dataBuffer d
  { r with result := throwSpec [Exn.NotOpen, Exn.runtime_error] r.result }

/-- The member `SerialPort::Write( const std::string& )`,
`throw( NotOpen, std::runtime_error )`; `dataString` holds the characters of
the string as bytes.  The pointer and the length go to
`SerialPortImpl::Write( const unsigned char*, unsigned int )`. -/
def WriteString (self : SerialPort) (dataString : List Nat) (d : Device) : Ret Unit :=
  let r := self.mSerialPortImpl.WriteBytes dataString d
  { r with result := throwSpec [Exn.NotOpen, Exn.runtime_error] r.result }

/-- The destructor `SerialPort::~SerialPort`, `throw()`: the port is closed if
it is open, then the implementation instance is deleted, which runs
`SerialPortImpl::~SerialPortImpl`. -/
def destroy (self : SerialPort) (d : Device) : Ret Unit :=
  let c : RetSelf SerialPort Unit :=
    if self.IsOpen then self.Close d else ⟨Result.ok (), self, d⟩
  match c.result with
  | Result.ok _ => ⟨Result.ok (), c.self.mSerialPortImpl.destroy c.dev⟩
  | _ => ⟨Result.terminate, c.dev⟩

end SerialPort

/-! ## Sequences of public operations -/

/-- A call of a public member function of `SerialPort`, with its arguments. -/
inductive Op where
  | Open (baudRate : BaudRate) (charSize : CharacterSize) (parityType : Parity)
      (stopBits : StopBits) (flowControl : FlowControl)
  | IsOpen
  | Close
  | SetBaudRate (baudRate : BaudRate)
  | GetBaudRate
  | SetCharSize (charSize : CharacterSize)
  | GetCharSize
  | SetParity (parityType : Parity)
  | GetParity
  | SetNumOfStopBits (numOfStopBits : StopBits)
  | GetNumOfStopBits
  | SetFlowControl (flowControl : FlowControl)
  | GetFlowControl
  | IsDataAvailable
  | ReadByte (msTimeout : Nat)
  | Read (dataBuffer : DataBuffer) (numOfBytes msTimeout : Nat)
  | ReadLine (msTimeout lineTerminator : Nat)
  | WriteByte (dataByte : Nat)
  | Write (dataBuffer : DataBuffer)
  | WriteString (dataString : List Nat)
  deriving DecidableEq, Repr

/-- The effect of one public call on the handle and the device, and the way
the call ended. -/
def Op.apply (op : Op) (port : SerialPort) (d : Device) : RetSelf SerialPort Unit :=
  match op with
  | Op.Open b c p s f => port.Open b c p s f d
  | Op.IsOpen => ⟨Result.ok (), port, d⟩
  | Op.Close => port.Close d
  | Op.SetBaudRate b => let r := port.SetBaudRate b d; ⟨r.result, port, r.dev⟩
  | Op.GetBaudRate => let r := port.GetBaudRate d; ⟨r.result.status, port, r.dev⟩
  | Op.SetCharSize c => let r := port.SetCharSize c d; ⟨r.result, port, r.dev⟩
  | Op.GetCharSize => let r := port.GetCharSize d; ⟨r.result.status, port, r.dev⟩
  | Op.SetParity p => let r := port.SetParity p d; ⟨r.result, port, r.dev⟩
  | Op.GetParity => let r := port.GetParity d; ⟨r.result.status, port, r.dev⟩
  | Op.SetNumOfStopBits n => let r := port.SetNumOfStopBits n d; ⟨r.result, port, r.dev⟩
  | Op.GetNumOfStopBits => let r := port.GetNumOfStopBits d; ⟨r.result.status, port, r.dev⟩
  | Op.SetFlowControl f => let r := port.SetFlowControl f d; ⟨r.result, port, r.dev⟩
  | Op.GetFlowControl => let r := port.GetFlowControl d; ⟨r.result.status, port, r.dev⟩
  | Op.IsDataAvailable => let r := port.IsDataAvailable d; ⟨r.result.status, port, r.dev⟩
  | Op.ReadByte t => let r := port.ReadByte t d; ⟨r.result.status, port, r.dev⟩
  | Op.Read buf n t => let r := port.Read buf n t d; ⟨r.result, port, r.dev⟩
  | Op.ReadLine t c => let r := port.ReadLine t c d; ⟨r.result.status, port, r.dev⟩
  | Op.WriteByte b => let r := port.WriteByte b d; ⟨r.result, port, r.dev⟩
  | Op.Write buf => let r := port.Write buf d; ⟨r.result, port, r.dev⟩
  | Op.WriteString str => let r := port.WriteString str d; ⟨r.result, port, r.dev⟩

/-- A program state between two public calls: the handle, the device, and
whether the process has been ended. -/
structure Sys where
  port : SerialPort
  dev : Device
  ended : Bool
  deriving DecidableEq, Repr

/-- The state in which a handle for the device `name` has just been
constructed. -/
def Sys.fresh (name : String) (d : Device) : Sys :=
  { port := SerialPort.new name, dev := d, ended := false }

/-- One public call made in a state; an ended process makes no call. -/
def Sys.step (s : Sys) (op : Op) : Sys :=
  if s.ended then s
  else
    let r := op.apply s.port s.dev
    { port := r.self, dev := r.dev, ended := decide (r.result = Result.terminate) }

/-- A sequence of public calls made from a state, whatever exceptions they
throw (the caller catches them). -/
def runOps (ops : List Op) (s : Sys) : Sys := ops.foldl Sys.step s

/-- The end of the lifetime of the handle: the destructor runs unless the
process has been ended before.  The device afterwards. -/
def Sys.destroy (s : Sys) : Device :=
  if s.ended then s.dev else (s.port.destroy s.dev).dev

/-! ## What the device delivers to a call of Read -/

/-- The bytes the device returns to the single-byte reads of one call of
`Read` for `count` bytes, in arrival order, when `script` holds its answers to
those reads: a would-block answer carries no byte and is followed by the next
answer, an answer of one byte carries that byte, and the first other answer (a
timeout or a hard error) is the last one the call looks at. -/
def deliveredBytes : (count : Nat) → (script : List Answer) → List Nat
  | 0, _ => []
  | _ + 1, [] => []
  | count + 1, a :: rest =>
    if a.ret < 0 ∧ a.eagain = true then deliveredBytes (count + 1) rest
    else if a.ret = 1 then toByte a.out :: deliveredBytes count rest
    else []

/-- The answers of the device to the single-byte reads of a call of `Read`
with a count that is not zero: the two first answers go to the adjustment of
the timeout (`tcgetattr`, `tcsetattr`), and no read is made when one of them
is a failure. -/
def readAnswers (d : Device) : List Answer :=
  if 0 ≤ (d.script.getD 0 Answer.failure).ret ∧ 0 ≤ (d.script.getD 1 Answer.failure).ret then
    d.script.drop 2
  else []

/-! ## Concrete handles, devices and answers -/

/-- An answer that reports success and stores nothing (`tcgetattr`, `tcsetattr`,
`fcntl`). -/
def Answer.success : Answer := { ret := 0, eagain := false, out := 0 }

/-- The answer of `open` that hands out the descriptor `fd`. -/
def Answer.descriptor (fd : Int) : Answer := { ret := fd, eagain := false, out := 0 }

/-- The answer of a `read` that delivers the byte `b`. -/
def Answer.byte (b : Nat) : Answer := { ret := 1, eagain := false, out := b }

/-- The answer of a `read` that returns zero bytes: the timeout of the device
has expired. -/
def Answer.timeout : Answer := { ret := 0, eagain := false, out := 0 }

/-- The answer of a `read` or `write` that fails with `EAGAIN`. -/
def Answer.wouldBlock : Answer := { ret := -1, eagain := true, out := 0 }

/-- The attribute block of a line in raw mode with eight bits per character:
`c_cflag` is `CS8 | CREAD | CLOCAL`, with no rate in the bits `CBAUD`. -/
def exampleAttrs : Termios :=
  { c_iflag := 0, c_oflag := 0, c_cflag := 0x8B0, c_lflag := 0,
    c_cc_VMIN := 0, c_cc_VTIME := 0, c_cc_other := [],
    c_ispeed := 0, c_ospeed := 0 }

/-- A device on which no descriptor is acquired, about to give the answers
`script`. -/
def exampleIdleDevice (script : List Answer) : Device :=
  { attrs := exampleAttrs, acquired := [], calls := [], script := script }

/-- A device on which the descriptor 3 is acquired, about to give the answers
`script`. -/
def exampleDevice (script : List Answer) : Device :=
  { attrs := exampleAttrs, acquired := [3], calls := [], script := script }

/-- An open implementation handle that owns the descriptor 3. -/
def exampleOpenImpl : SerialPortImpl :=
  { mSerialPortName := "/dev/ttyS0", mIsOpen := true, mFileDescriptor := 3,
    mOldPortSettings := exampleAttrs }

/-- An open handle that owns the descriptor 3. -/
def exampleOpenPort : SerialPort := { mSerialPortImpl := exampleOpenImpl }

/-- A call of the five-argument `Open` with valid arguments: 9600 baud, eight
bits, no parity, one stop bit, no flow control. -/
def exampleOpenCall : Op :=
  Op.Open 13 CHAR_SIZE_8 Parity.PARITY_NONE StopBits.STOP_BITS_1 FlowControl.FLOW_CONTROL_NONE

/-- The answers of a device on which the five-argument `Open` succeeds: the
descriptor 3, three successes for `tcgetattr`, `tcsetattr` and `fcntl`, and a
successful `tcgetattr` and `tcsetattr` for each of the five setters. -/
def exampleOpenAnswers : List Answer :=
  Answer.descriptor 3 :: List.replicate 13 Answer.success

/-- The state after the five-argument `Open` on a fresh handle when `open`
hands out the descriptor 3 and the following `tcgetattr` fails. -/
def exampleFailedOpen : Sys :=
  runOps [exampleOpenCall]
    (Sys.fresh "/dev/ttyS0" (exampleIdleDevice [Answer.descriptor 3, Answer.failure]))

/-- The answers of a device during a session: the five-argument `Open`
succeeds, `SetParity` is accepted (two answers), `WriteByte` writes its byte,
and the `tcsetattr` of `Close` is accepted. -/
def exampleSessionAnswers : List Answer :=
  exampleOpenAnswers ++ [Answer.success, Answer.success, Answer.byte 0, Answer.success]

/-- The public calls made between `Open` and `Close` in the example session. -/
def exampleSessionOps : List Op := [Op.SetParity Parity.PARITY_EVEN, Op.WriteByte 65]

/-! ## What the setters write, in the words of the spec -/

/-- The device after a `tcgetattr` and a `tcsetattr` of `settings` on the
descriptor `fd`, both accepted: the two calls are in the trace, two answers
are consumed and the device has the attribute block `settings`. -/
def Device.afterRewrite (d : Device) (fd : Int) (settings : Termios) : Device :=
  { d with attrs := settings,
           calls := d.calls ++ [Call.sysTcgetattr fd, Call.sysTcsetattr fd settings],
           script := d.script.drop 2 }

/-- The two library calls of `SetBaudRate` on a block, `cfsetispeed` and then
`cfsetospeed` with the same rate: `none` when one of them returns a negative
value, the block handed to `tcsetattr` otherwise. -/
def setBothSpeeds (settings : Termios) (speed : Nat) : Option Termios :=
  (cfsetispeed settings speed).bind fun settings1 => cfsetospeed settings1 speed

/-- The control flags after the spec's parity mapping: Even sets the enable
bit and clears the odd bit, Odd sets both, None clears the enable bit. -/
def withParity (p : Parity) (cflag : Nat) : Nat :=
  match p with
  | Parity.PARITY_EVEN => (cflag ||| PARENB) &&& tcflagNot PARODD
  | Parity.PARITY_ODD => cflag ||| (PARENB ||| PARODD)
  | Parity.PARITY_NONE => cflag &&& tcflagNot PARENB
  | Parity.other _ => cflag

/-- The parity the spec's getter reads from the control flags: enabled with
the odd bit set is Odd, enabled with the odd bit clear is Even, disabled is
None. -/
def parityOf (cflag : Nat) : Parity :=
  if cflag &&& PARENB ≠ 0 then
    if cflag &&& PARODD ≠ 0 then Parity.PARITY_ODD else Parity.PARITY_EVEN
  else Parity.PARITY_NONE

/-- The control flags after the spec's character size mapping: the size field
is cleared and the requested size is or-ed in. -/
def withCharSize (charSize : CharacterSize) (cflag : Nat) : Nat :=
  (cflag &&& tcflagNot CSIZE) ||| toTcflag charSize

/-- The control flags after the spec's stop bits mapping: One clears the
two-stop-bits bit, Two sets it. -/
def withStopBits (s : StopBits) (cflag : Nat) : Nat :=
  match s with
  | StopBits.STOP_BITS_1 => cflag &&& tcflagNot CSTOPB
  | StopBits.STOP_BITS_2 => cflag ||| CSTOPB
  | StopBits.other _ => cflag

/-- The stop bits the spec's getter reads from the control flags. -/
def stopBitsOf (cflag : Nat) : StopBits :=
  if cflag &&& CSTOPB ≠ 0 then StopBits.STOP_BITS_2 else StopBits.STOP_BITS_1

/-- The control flags after the spec's flow control mapping: Hardware sets the
hardware-flow-control bit, None clears it. -/
def withFlowControl (f : FlowControl) (cflag : Nat) : Nat :=
  match f with
  | FlowControl.FLOW_CONTROL_HARD => cflag ||| CRTSCTS
  | FlowControl.FLOW_CONTROL_NONE => cflag &&& tcflagNot CRTSCTS
  | FlowControl.other _ => cflag

/-- The flow control the spec's getter reads from the control flags. -/
def flowControlOf (cflag : Nat) : FlowControl :=
  if cflag &&& CRTSCTS ≠ 0 then FlowControl.FLOW_CONTROL_HARD
  else FlowControl.FLOW_CONTROL_NONE

/-! ## What the writer and the readers do, in the words of the spec -/

/-- A would-block answer: the call fails and `errno` is `EAGAIN`. -/
def Answer.isWouldBlock (a : Answer) : Bool := decide (a.ret < 0) && a.eagain

/-- The number of would-block answers at the head of a script. -/
def wouldBlockRun (script : List Answer) : Nat := (script.takeWhile Answer.isWouldBlock).length

/-- The first answer of a script that is not a would-block answer; an
exhausted script answers with a hard failure. -/
def firstOtherAnswer (script : List Answer) : Answer :=
  script.getD (wouldBlockRun script) Answer.failure

/-- The device after the writer has issued the write of `data` on `fd` once
for every would-block answer at the head of the script and once more for the
first other answer. -/
def Device.afterWrites (d : Device) (fd : Int) (data : List Nat) : Device :=
  { d with calls := d.calls ++ List.replicate (wouldBlockRun d.script + 1) (Call.sysWrite fd data),
           script := d.script.drop (wouldBlockRun d.script + 1) }

/-- The attribute block `Read` writes to the device before the reads of a
call for `numOfBytes` bytes: `SetReadTimeout( 0, numOfBytes )` when
`msTimeout` is zero and `SetReadTimeout( msTimeout, 0 )` otherwise, stored in
entries of type `cc_t`. -/
def readTiming (msTimeout numOfBytes : Nat) (t : Termios) : Termios :=
  if 0 = msTimeout then { t with c_cc_VMIN := toByte numOfBytes, c_cc_VTIME := 0 }
  else { t with c_cc_VMIN := toByte 0, c_cc_VTIME := toByte (msTimeout / 100) }

/-- The timing fields (minimum-bytes, timeout in deciseconds) the spec gives
for a call of `Read` with a count above zero. -/
def specTiming (msTimeout count : Nat) : Nat × Nat :=
  if msTimeout = 0 then (count, 0) else (0, msTimeout / 100)

/-- The device after one `ReadByte` that the device serves at once: an
accepted `tcgetattr` and `tcsetattr` for the timeout and one `read` that
delivers a byte. -/
def Device.afterByte (d : Device) (fd : Int) (msTimeout : Nat) : Device :=
  { d with attrs := readTiming msTimeout 1 d.attrs,
           calls := d.calls ++ [Call.sysTcgetattr fd,
             Call.sysTcsetattr fd (readTiming msTimeout 1 d.attrs), Call.sysRead fd],
           script := d.script.drop 3 }

/-- The bytes of `count` successive calls of `ReadByte` and the device after
them; `none` when one of the calls does not return a byte. -/
def readBytes (port : SerialPort) (msTimeout : Nat) : (count : Nat) → Device →
    Option (List Nat × Device)
  | 0, d => some ([], d)
  | count + 1, d =>
    match (port.ReadByte msTimeout d).result with
    | Result.ok b =>
      match readBytes port msTimeout count (port.ReadByte msTimeout d).dev with
      | some r => some (b :: r.1, r.2)
      | none => none
    | _ => none

/-- The answers of a device on which the bytes `pending` are waiting and no
more arrive, to a drain (`Read` with a count of zero): for every byte the
count of waiting bytes (`ioctl`), two successes for the timeout (`tcgetattr`,
`tcsetattr`) and the byte (`read`); then a count of zero. -/
def pendingAnswers : (pending : List Nat) → List Answer
  | [] => [{ ret := 0, eagain := false, out := 0 }]
  | b :: rest =>
    { ret := 0, eagain := false, out := (b :: rest).length } :: Answer.success ::
      Answer.success :: Answer.byte b :: pendingAnswers rest

/-- The device after a drain that found the bytes `pending` waiting: for
every byte an `ioctl` and a served `ReadByte`, then the `ioctl` that finds
nothing. -/
def Device.afterDrain (fd : Int) (msTimeout : Nat) : (pending : List Nat) → Device → Device
  | [], d => d.advance (Call.sysIoctlFionread fd)
  | _ :: rest, d =>
    Device.afterDrain fd msTimeout rest
      ((d.advance (Call.sysIoctlFionread fd)).afterByte fd msTimeout)

/-! ## Concrete inputs for the writer and the readers -/

/-- A device with the descriptor 3 acquired on which the line `abc` and a line
feed are delivered to four calls of `ReadByte`, and a further byte `d` would
be delivered to a fifth. -/
def exampleLineDevice : Device :=
  exampleDevice
    [Answer.success, Answer.success, Answer.byte 0x61,
     Answer.success, Answer.success, Answer.byte 0x62,
     Answer.success, Answer.success, Answer.byte 0x63,
     Answer.success, Answer.success, Answer.byte 0x0A,
     Answer.success, Answer.success, Answer.byte 0x64]

/-- The device `exampleLineDevice` after four served calls of `ReadByte` with
a timeout of 100 ms. -/
def exampleLineDeviceAfter : Device :=
  (((exampleLineDevice.afterByte 3 100).afterByte 3 100).afterByte 3 100).afterByte 3 100

/-- A device with the descriptor 3 acquired on which the bytes `abc` are
waiting and no more arrive; after the drain it would deliver a byte `d`. -/
def exampleDrainDevice : Device :=
  exampleDevice (pendingAnswers [0x61, 0x62, 0x63] ++ [Answer.byte 0x64])

/-! ## The outcome of the reads of a call of Read -/

/-- Whether the loop of `Read` for `count` bytes is left with `is_read_failed`
set, when `script` holds the answers of the device to its reads: a would-block
answer is followed by the next answer, an answer of one byte counts for one
iteration, and the first other answer stops the loop, with the flag set when
its value is negative.  An exhausted script answers with a hard failure. -/
def readsFail : (count : Nat) → (script : List Answer) → Bool
  | 0, _ => false
  | _ + 1, [] => true
  | count + 1, a :: rest =>
    if a.ret < 0 ∧ a.eagain = true then readsFail (count + 1) rest
    else if a.ret = 1 then readsFail count rest
    else decide (a.ret < 0)

/-- A script without its would-block answers. -/
def withoutWouldBlock (script : List Answer) : List Answer :=
  script.filter fun a => !a.isWouldBlock

/-- The outcome of a call of `Read` for `count` bytes whose timeout adjustment
the device accepts, in the words of the spec: a hard error of a read gives the
generic failure, fewer bytes than the count in the buffer give `ReadTimeout`,
and the call returns otherwise. -/
def readOutcome (count : Nat) (dataBuffer : DataBuffer) (reads : List Answer) : Result Unit :=
  if readsFail count reads = true then Result.raise Exn.runtime_error
  else if (dataBuffer ++ deliveredBytes count reads).length < count then
    Result.raise Exn.ReadTimeout
  else Result.ok ()

/-! ## The setters of the five-argument Open -/

/-- The five calls the five-argument `SerialPort::Open` makes after the
implementation is opened, in the order of the source. -/
def SerialPort.openSetters (port : SerialPort) (baudRate : BaudRate) (charSize : CharacterSize)
    (parityType : Parity) (stopBits : StopBits) (flowControl : FlowControl) :
    List (Device → Ret Unit) :=
  [port.SetBaudRate baudRate, port.SetCharSize charSize, port.SetParity parityType,
   port.SetNumOfStopBits stopBits, port.SetFlowControl flowControl]

/-- A sequence of calls made one after the other; the first that throws or
ends the process ends the sequence. -/
def runSetters : List (Device → Ret Unit) → Device → Ret Unit
  | [], d => ⟨Result.ok (), d⟩
  | g :: rest, d => (g d).andThen (runSetters rest)

/-- The answers of a device on which the five-argument `Open` opens the
implementation (descriptor 3) and sets the baud rate and the character size,
and which answers the attribute read of `SetParity`. -/
def exampleOpenThenParityAnswers : List Answer :=
  Answer.descriptor 3 :: List.replicate 8 Answer.success

/-! ## Lemmas -/

/-- One more byte is asked for: the retry loop runs on the script, and a value of 1
gives the byte it stored, followed by the bytes of the remaining reads. -/
theorem deliveredBytes_retry (n : Nat) (script : List Answer) :
    deliveredBytes (n + 1) script =
      if (readRetryScript script).1 = 1 then
        (readRetryScript script).2.1 :: deliveredBytes n (readRetryScript script).2.2.1
      else [] := by
  induction script with
  | nil => simp [deliveredBytes, readRetryScript, Answer.failure]
  | cons a rest ih =>
    by_cases h : a.ret < 0 ∧ a.eagain = true
    · simp only [deliveredBytes, readRetryScript, h, and_self, if_true]
      exact ih
    · simp only [deliveredBytes, readRetryScript, h, if_false]

/-- The loop of `Read` appends to the buffer the bytes the device delivers. -/
theorem readLoop_buffer (fd : Int) (n : Nat) :
    ∀ (buf : DataBuffer) (d : Device),
      (SerialPortImpl.readLoop fd n buf d).2.1 = buf ++ deliveredBytes n d.script := by
  induction n with
  | zero => intro buf d; simp [SerialPortImpl.readLoop, deliveredBytes]
  | succ n ih =>
    intro buf d
    rw [deliveredBytes_retry]
    by_cases h : (readRetryScript d.script).1 = 1
    · have h1 : (1 : Int) = (readRetry fd d).1 := by simp [readRetry, h]
      simp only [SerialPortImpl.readLoop, h1, if_true]
      rw [ih]
      simp [readRetry, h]
    · have h1 : ¬ (1 : Int) = (readRetry fd d).1 := by
        simp only [readRetry]; exact fun e => h e.symm
      simp [SerialPortImpl.readLoop, h1, h]

/-- When the loop of `Read` is left with `is_read_failed` set, fewer bytes than
asked for were appended. -/
theorem readLoop_failed (fd : Int) (n : Nat) :
    ∀ (buf : DataBuffer) (d : Device),
      (SerialPortImpl.readLoop fd n buf d).1 = true → (SerialPortImpl.readLoop fd n buf d).2.1.length < buf.length + n := by
  induction n with
  | zero => intro buf d; simp [SerialPortImpl.readLoop]
  | succ n ih =>
    intro buf d
    by_cases h1 : (1 : Int) = (readRetry fd d).1
    · simp only [SerialPortImpl.readLoop, h1, if_true]
      intro hf
      have := ih _ _ hf
      simp at this
      omega
    · simp only [SerialPortImpl.readLoop, h1, if_false]
      intro _
      omega

/-- The loop of `Read` appends at most the number of bytes asked for. -/
theorem readLoop_length_le (fd : Int) (n : Nat) :
    ∀ (buf : DataBuffer) (d : Device),
      (SerialPortImpl.readLoop fd n buf d).2.1.length ≤ buf.length + n := by
  induction n with
  | zero => intro buf d; simp [SerialPortImpl.readLoop]
  | succ n ih =>
    intro buf d
    by_cases h1 : (1 : Int) = (readRetry fd d).1
    · simp only [SerialPortImpl.readLoop, h1, if_true]
      have := ih (buf ++ [(readRetry fd d).2.1]) (readRetry fd d).2.2
      simp at this
      omega
    · simp only [SerialPortImpl.readLoop, h1, if_false]
      omega

/-- The member `SetReadTimeout` returns exactly when the two first answers of the
device are successes, and then the answers left are those to the reads. -/
theorem SetReadTimeout_script (self : SerialPortImpl) (ms nb : Nat) (d : Device) :
    ((self.SetReadTimeout ms nb d).result = Result.ok () ∧
        (self.SetReadTimeout ms nb d).dev.script = readAnswers d) ∨
      ((self.SetReadTimeout ms nb d).result ≠ Result.ok () ∧ readAnswers d = []) := by
  obtain ⟨attrs, acq, calls, script⟩ := d
  rcases script with _ | ⟨a0, _ | ⟨a1, rest⟩⟩
  · right
    simp [SerialPortImpl.SetReadTimeout, SerialPortImpl.SetReadTimeoutBody, tcgetattr,
      Device.answer, Answer.failure, throwSpec, readAnswers]
  · right
    by_cases h0 : a0.ret < 0
    · simp [SerialPortImpl.SetReadTimeout, SerialPortImpl.SetReadTimeoutBody, tcgetattr,
        Device.answer, throwSpec, readAnswers, h0]
    · simp [SerialPortImpl.SetReadTimeout, SerialPortImpl.SetReadTimeoutBody, tcgetattr,
        tcsetattr, Device.advance, Device.answer, Answer.failure, throwSpec, readAnswers, h0]
  · by_cases h0 : a0.ret < 0
    · right
      simp [SerialPortImpl.SetReadTimeout, SerialPortImpl.SetReadTimeoutBody, tcgetattr,
        Device.answer, throwSpec, readAnswers, h0]
    · by_cases h1 : a1.ret < 0
      · right
        simp [SerialPortImpl.SetReadTimeout, SerialPortImpl.SetReadTimeoutBody, tcgetattr,
          tcsetattr, Device.advance, Device.answer, throwSpec, readAnswers, h0, h1]
      · left
        have h0' : 0 ≤ a0.ret := by omega
        have h1' : 0 ≤ a1.ret := by omega
        simp [SerialPortImpl.SetReadTimeout, SerialPortImpl.SetReadTimeoutBody, tcgetattr,
          tcsetattr, Device.advance, Device.answer, throwSpec, readAnswers, h0, h1, h0', h1']

/-- The counted branch of `Read` leaves in the buffer what it held before, followed
by the bytes the device delivered. -/
theorem ReadElse_buffer (self : SerialPortImpl) (buf : DataBuffer) (n ms : Nat) (d : Device) :
    (self.ReadElse buf n ms d).dataBuffer = buf ++ deliveredBytes n (readAnswers d) := by
  have ht : ∀ t : Ret Unit,
      ((t.result = Result.ok () ∧ t.dev.script = readAnswers d) ∨
        (t.result ≠ Result.ok () ∧ readAnswers d = [])) →
      (match t.result with
        | Result.raise e => (⟨Result.raise e, buf, t.dev⟩ : RetBuf)
        | Result.terminate => ⟨Result.terminate, buf, t.dev⟩
        | Result.ok _ =>
          let l := SerialPortImpl.readLoop self.mFileDescriptor n buf t.dev
          let is_read_failed := l.1
          if is_read_failed = true then ⟨Result.raise Exn.runtime_error, l.2.1, l.2.2⟩
          else if l.2.1.length < n then ⟨Result.raise Exn.ReadTimeout, l.2.1, l.2.2⟩
          else ⟨Result.ok (), l.2.1, l.2.2⟩).dataBuffer =
        buf ++ deliveredBytes n (readAnswers d) := by
    intro t h
    rcases h with ⟨hok, hs⟩ | ⟨hne, he⟩
    · rw [hok]
      simp only
      split_ifs <;> simp [readLoop_buffer, hs]
    · rw [he]
      cases hr : t.result with
      | ok u => exact absurd hr hne
      | raise e => cases n <;> simp [deliveredBytes]
      | terminate => cases n <;> simp [deliveredBytes]
  unfold SerialPortImpl.ReadElse
  by_cases hms : 0 = ms
  · simp only [hms, if_true]
    exact ht _ (SetReadTimeout_script self _ _ d)
  · simp only [hms, if_false]
    exact ht _ (SetReadTimeout_script self _ _ d)

/-- When the counted branch of `Read` throws `ReadTimeout` or `std::runtime_error`,
fewer bytes than asked for were appended. -/
theorem ReadElse_error_short (self : SerialPortImpl) (buf : DataBuffer) (n ms : Nat) (d : Device)
    (hn : 0 < n)
    (herr : (self.ReadElse buf n ms d).result = Result.raise Exn.ReadTimeout ∨
      (self.ReadElse buf n ms d).result = Result.raise Exn.runtime_error) :
    (self.ReadElse buf n ms d).dataBuffer.length < buf.length + n := by
  have ht : ∀ t : Ret Unit, ∀ r : RetBuf,
      r = (match t.result with
        | Result.raise e => (⟨Result.raise e, buf, t.dev⟩ : RetBuf)
        | Result.terminate => ⟨Result.terminate, buf, t.dev⟩
        | Result.ok _ =>
          let l := SerialPortImpl.readLoop self.mFileDescriptor n buf t.dev
          let is_read_failed := l.1
          if is_read_failed = true then ⟨Result.raise Exn.runtime_error, l.2.1, l.2.2⟩
          else if l.2.1.length < n then ⟨Result.raise Exn.ReadTimeout, l.2.1, l.2.2⟩
          else ⟨Result.ok (), l.2.1, l.2.2⟩) →
      (r.result = Result.raise Exn.ReadTimeout ∨ r.result = Result.raise Exn.runtime_error) →
      r.dataBuffer.length < buf.length + n := by
    intro t r hr he
    cases hres : t.result with
    | raise e => rw [hres] at hr; subst hr; simp; omega
    | terminate => rw [hres] at hr; subst hr; simp; omega
    | ok u =>
      rw [hres] at hr
      simp only at hr
      by_cases hf : (SerialPortImpl.readLoop self.mFileDescriptor n buf t.dev).1 = true
      · rw [if_pos hf] at hr
        subst hr
        exact readLoop_failed _ _ _ _ hf
      · rw [if_neg hf] at hr
        by_cases hl : (SerialPortImpl.readLoop self.mFileDescriptor n buf t.dev).2.1.length < n
        · rw [if_pos hl] at hr
          subst hr
          simp only
          omega
        · rw [if_neg hl] at hr
          subst hr
          simp at he
  unfold SerialPortImpl.ReadElse at herr ⊢
  by_cases hms : 0 = ms
  · simp only [hms, if_true] at herr ⊢
    exact ht _ _ rfl herr
  · simp only [hms, if_false] at herr ⊢
    exact ht _ _ rfl herr

/-- An exception that passes an exception specification was thrown by the body. -/
theorem throwSpec_eq_raise {α : Type} (allowed : List Exn) (r : Result α) (e : Exn)
    (h : throwSpec allowed r = Result.raise e) : r = Result.raise e := by
  cases r with
  | ok a => simp [throwSpec] at h
  | terminate => simp [throwSpec] at h
  | raise e2 =>
    by_cases hm : e2 ∈ allowed
    · simpa [throwSpec, hm] using h
    · simp [throwSpec, hm] at h

/-- On an open port and for a count above zero `Read` is its counted branch. -/
theorem Read_of_open_nonzero (self : SerialPortImpl) (buf : DataBuffer) (n ms : Nat) (d : Device)
    (hopen : self.IsOpen = true) (hn : 0 < n) :
    self.Read buf n ms d =
      { self.ReadElse buf n ms d with
        result := throwSpec [Exn.NotOpen, Exn.ReadTimeout, Exn.runtime_error]
          (self.ReadElse buf n ms d).result } := by
  have h0 : ¬ (0 = n) := by omega
  simp [SerialPortImpl.Read, SerialPortImpl.ReadBody, hopen, h0]

/-- The outcome of `SerialPortImpl::Open` on a closed handle in terms of the four
first answers of the device. -/
theorem Open_steps (self : SerialPortImpl) (d : Device) (hclosed : self.IsOpen = false) :
    (((d.script.getD 0 Answer.failure).ret < 0 ∨ (d.script.getD 1 Answer.failure).ret < 0 ∨
        (d.script.getD 2 Answer.failure).ret < 0 ∨ (d.script.getD 3 Answer.failure).ret < 0) →
      (self.Open d).result = Result.raise Exn.OpenFailed ∧ (self.Open d).self.IsOpen = false) ∧
    (¬ ((d.script.getD 0 Answer.failure).ret < 0 ∨ (d.script.getD 1 Answer.failure).ret < 0 ∨
        (d.script.getD 2 Answer.failure).ret < 0 ∨ (d.script.getD 3 Answer.failure).ret < 0) →
      (self.Open d).result = Result.ok () ∧ (self.Open d).self.IsOpen = true ∧
      (self.Open d).self.mOldPortSettings = d.attrs ∧
      (self.Open d).dev.attrs = SerialPortImpl.baseline d.attrs) := by
  obtain ⟨attrs, acq, calls, script⟩ := d
  simp only [SerialPortImpl.IsOpen] at hclosed
  rcases script with _ | ⟨a0, _ | ⟨a1, _ | ⟨a2, _ | ⟨a3, rest⟩⟩⟩⟩
  · simp [SerialPortImpl.Open, SerialPortImpl.OpenBody, SerialPortImpl.IsOpen, hclosed, sysOpen,
      Device.answer, Answer.failure, throwSpec]
  · by_cases h0 : a0.ret < 0 <;>
    simp [SerialPortImpl.Open, SerialPortImpl.OpenBody, SerialPortImpl.IsOpen, hclosed, sysOpen,
      tcgetattr, Device.advance, Device.answer, Answer.failure, throwSpec, h0]
  · by_cases h0 : a0.ret < 0 <;> by_cases h1 : a1.ret < 0 <;>
    simp [SerialPortImpl.Open, SerialPortImpl.OpenBody, SerialPortImpl.IsOpen, hclosed, sysOpen,
      tcgetattr, tcsetattr, Device.advance, Device.answer, Answer.failure, throwSpec, h0, h1]
  · by_cases h0 : a0.ret < 0 <;> by_cases h1 : a1.ret < 0 <;> by_cases h2 : a2.ret < 0 <;>
    simp [SerialPortImpl.Open, SerialPortImpl.OpenBody, SerialPortImpl.IsOpen, hclosed, sysOpen,
      tcgetattr, tcsetattr, fcntlSetown, Device.advance, Device.answer, Answer.failure, throwSpec,
      h0, h1, h2]
  · by_cases h0 : a0.ret < 0 <;> by_cases h1 : a1.ret < 0 <;> by_cases h2 : a2.ret < 0 <;>
      by_cases h3 : a3.ret < 0 <;>
    simp [SerialPortImpl.Open, SerialPortImpl.OpenBody, SerialPortImpl.IsOpen, hclosed, sysOpen,
      tcgetattr, tcsetattr, fcntlSetown, Device.advance, Device.answer, Answer.failure, throwSpec,
      h0, h1, h2, h3]

/-- On an open handle both `Open` members throw `AlreadyOpen` and change nothing. -/
theorem Open_of_open (port : SerialPort) (d : Device) (b : BaudRate) (c : CharacterSize)
    (p : Parity) (s : StopBits) (f : FlowControl) (hopen : port.IsOpen = true) :
    port.Open b c p s f d = ⟨Result.raise Exn.AlreadyOpen, port, d⟩ ∧
    port.mSerialPortImpl.Open d = ⟨Result.raise Exn.AlreadyOpen, port.mSerialPortImpl, d⟩ := by
  obtain ⟨impl⟩ := port
  simp only [SerialPort.IsOpen, SerialPortImpl.IsOpen] at hopen
  simp [SerialPort.Open, SerialPort.OpenBody, SerialPortImpl.Open, SerialPortImpl.OpenBody,
    SerialPortImpl.IsOpen, hopen, throwSpec, Ret.andThen]

/-- The effect of `SerialPort::Close` on an open handle. -/
theorem Close_of_open (port : SerialPort) (d : Device) (hopen : port.IsOpen = true) :
    port.Close d =
      ⟨Result.ok (), { mSerialPortImpl := { port.mSerialPortImpl with mIsOpen := false } },
        sysClose port.mSerialPortImpl.mFileDescriptor
          (tcsetattr port.mSerialPortImpl.mFileDescriptor
            port.mSerialPortImpl.mOldPortSettings d).2⟩ := by
  obtain ⟨impl⟩ := port
  simp only [SerialPort.IsOpen, SerialPortImpl.IsOpen] at hopen
  simp [SerialPort.Close, SerialPortImpl.Close, SerialPortImpl.CloseBody, SerialPortImpl.IsOpen,
    hopen, throwSpec]

/-- A public call other than `Close` leaves an open handle as it is. -/
theorem apply_port_of_open (op : Op) (port : SerialPort) (d : Device)
    (hopen : port.IsOpen = true) (hop : op ≠ Op.Close) : (op.apply port d).self = port := by
  cases op with
  | Close => exact absurd rfl hop
  | Open b c p s f => rw [Op.apply, (Open_of_open port d b c p s f hopen).1]
  | _ => rfl

/-- A step other than `Close` leaves an open handle as it is. -/
theorem step_port_of_open (s : Sys) (op : Op) (hopen : s.port.IsOpen = true)
    (hop : op ≠ Op.Close) : (s.step op).port = s.port := by
  unfold Sys.step
  by_cases he : s.ended = true
  · simp [he]
  · simp [he, apply_port_of_open op s.port s.dev hopen hop]

/-- A sequence of public calls without `Close` leaves an open handle as it is. -/
theorem runOps_port_of_open (ops : List Op) :
    ∀ s : Sys, s.port.IsOpen = true → Op.Close ∉ ops → (runOps ops s).port = s.port := by
  induction ops with
  | nil => intro s _ _; rfl
  | cons op rest ih =>
    intro s hopen hno
    have hop : op ≠ Op.Close := fun h => hno (by simp [h])
    have hrest : Op.Close ∉ rest := fun h => hno (by simp [h])
    have hstep := step_port_of_open s op hopen hop
    have : runOps (op :: rest) s = runOps rest (s.step op) := rfl
    rw [this, ih (s.step op) (by rw [hstep]; exact hopen) hrest, hstep]

/-- An `Open` that takes a closed handle to an open one saves the attribute block
the device had before it. -/
theorem Open_captures (port : SerialPort) (d : Device) (b : BaudRate) (c : CharacterSize)
    (p : Parity) (s : StopBits) (f : FlowControl) (hclosed : port.IsOpen = false)
    (hopened : (runOps [Op.Open b c p s f] ⟨port, d, false⟩).port.IsOpen = true) :
    (runOps [Op.Open b c p s f] ⟨port, d, false⟩).port.mSerialPortImpl.mOldPortSettings
      = d.attrs := by
  have hport : (runOps [Op.Open b c p s f] ⟨port, d, false⟩).port
      = { mSerialPortImpl := (port.mSerialPortImpl.Open d).self } := by
    simp [runOps, Sys.step, Op.apply, SerialPort.Open, SerialPort.OpenBody]
  rw [hport] at hopened ⊢
  have hs := Open_steps port.mSerialPortImpl d hclosed
  by_cases hfail : ((d.script.getD 0 Answer.failure).ret < 0 ∨
      (d.script.getD 1 Answer.failure).ret < 0 ∨
      (d.script.getD 2 Answer.failure).ret < 0 ∨ (d.script.getD 3 Answer.failure).ret < 0)
  · have := (hs.1 hfail).2
    simp only [SerialPort.IsOpen] at hopened
    rw [this] at hopened
    exact absurd hopened (by simp)
  · exact (hs.2 hfail).2.2.1

/-- On an open handle `Close` returns, the handle is closed, the descriptor is
released after a `tcsetattr` with the saved settings, and the attribute block
of the device is the saved settings when the device accepts them. -/
theorem Close_effect (q : SerialPort) (e : Device) (hq : q.IsOpen = true) :
    (q.Close e).result = Result.ok () ∧ (q.Close e).self.IsOpen = false ∧
    (q.Close e).dev.acquired = e.acquired.erase q.mSerialPortImpl.mFileDescriptor ∧
    (q.Close e).dev.calls = e.calls ++
      [Call.sysTcsetattr q.mSerialPortImpl.mFileDescriptor q.mSerialPortImpl.mOldPortSettings,
       Call.sysClose q.mSerialPortImpl.mFileDescriptor] ∧
    (0 ≤ e.answer.ret → (q.Close e).dev.attrs = q.mSerialPortImpl.mOldPortSettings) ∧
    (e.answer.ret < 0 → (q.Close e).dev.attrs = e.attrs) := by
  rw [Close_of_open q e hq]
  by_cases ha : e.answer.ret < 0
  · simp [sysClose, tcsetattr, Device.advance, ha, SerialPort.IsOpen, SerialPortImpl.IsOpen]
  · have ha2 : 0 ≤ e.answer.ret := by omega
    simp [sysClose, tcsetattr, Device.advance, ha, ha2, SerialPort.IsOpen,
      SerialPortImpl.IsOpen]

/-- At most `count` bytes are delivered to a call for `count` bytes. -/
theorem deliveredBytes_length_le (script : List Answer) :
    ∀ n : Nat, (deliveredBytes n script).length ≤ n := by
  induction script with
  | nil => intro n; cases n <;> simp [deliveredBytes]
  | cons a rest ih =>
    intro n
    cases n with
    | zero => simp [deliveredBytes]
    | succ n =>
      by_cases h : a.ret < 0 ∧ a.eagain = true
      · simp only [deliveredBytes, h, and_self, if_true]
        exact ih (n + 1)
      · by_cases h1 : a.ret = 1
        · rw [deliveredBytes, if_neg h, if_pos h1, List.length_cons]
          have := ih n
          omega
        · simp [deliveredBytes, h, h1]

/-- When the counted branch of `Read` returns, the buffer holds at least the
number of bytes asked for. -/
theorem ReadElse_ok_length (self : SerialPortImpl) (buf : DataBuffer) (n ms : Nat) (d : Device)
    (hok : (self.ReadElse buf n ms d).result = Result.ok ()) :
    n ≤ (self.ReadElse buf n ms d).dataBuffer.length := by
  have ht : ∀ t : Ret Unit, ∀ r : RetBuf,
      r = (match t.result with
        | Result.raise e => (⟨Result.raise e, buf, t.dev⟩ : RetBuf)
        | Result.terminate => ⟨Result.terminate, buf, t.dev⟩
        | Result.ok _ =>
          let l := SerialPortImpl.readLoop self.mFileDescriptor n buf t.dev
          let is_read_failed := l.1
          if is_read_failed = true then ⟨Result.raise Exn.runtime_error, l.2.1, l.2.2⟩
          else if l.2.1.length < n then ⟨Result.raise Exn.ReadTimeout, l.2.1, l.2.2⟩
          else ⟨Result.ok (), l.2.1, l.2.2⟩) →
      r.result = Result.ok () → n ≤ r.dataBuffer.length := by
    intro t r hr he
    cases hres : t.result with
    | raise e => rw [hres] at hr; subst hr; simp at he
    | terminate => rw [hres] at hr; subst hr; simp at he
    | ok u =>
      rw [hres] at hr
      simp only at hr
      by_cases hf : (SerialPortImpl.readLoop self.mFileDescriptor n buf t.dev).1 = true
      · rw [if_pos hf] at hr
        subst hr
        simp at he
      · rw [if_neg hf] at hr
        by_cases hl : (SerialPortImpl.readLoop self.mFileDescriptor n buf t.dev).2.1.length < n
        · rw [if_pos hl] at hr
          subst hr
          simp at he
        · rw [if_neg hl] at hr
          subst hr
          simp only
          omega
  unfold SerialPortImpl.ReadElse at hok ⊢
  by_cases hms : 0 = ms
  · simp only [hms, if_true] at hok ⊢
    exact ht _ _ rfl hok
  · simp only [hms, if_false] at hok ⊢
    exact ht _ _ rfl hok

/-- On an open port, for a count above zero and an empty buffer, a `Read` that
returns leaves in the buffer exactly the bytes the device delivered, and they
are as many as the count. -/
theorem Read_ok_of_empty (self : SerialPortImpl) (n ms : Nat) (d : Device)
    (hopen : self.IsOpen = true) (hn : 0 < n)
    (hok : (self.Read [] n ms d).result = Result.ok ()) :
    (self.Read [] n ms d).dataBuffer = deliveredBytes n (readAnswers d) ∧
      (self.Read [] n ms d).dataBuffer.length = n := by
  rw [Read_of_open_nonzero self [] n ms d hopen hn] at hok ⊢
  simp only at hok ⊢
  have hb := ReadElse_buffer self [] n ms d
  have hok2 : (self.ReadElse [] n ms d).result = Result.ok () := by
    cases hr : (self.ReadElse [] n ms d).result with
    | ok u => rfl
    | terminate => rw [hr] at hok; simp [throwSpec] at hok
    | raise e =>
      rw [hr] at hok
      by_cases hm : e ∈ [Exn.NotOpen, Exn.ReadTimeout, Exn.runtime_error]
      · simp [throwSpec, hm] at hok
      · simp [throwSpec, hm] at hok
  have hge := ReadElse_ok_length self [] n ms d hok2
  have hle := deliveredBytes_length_le (readAnswers d) n
  simp only [List.nil_append] at hb
  refine ⟨hb, ?_⟩
  rw [hb] at hge ⊢
  omega

/-! ## Claims -/

/-- Claim C1, evaluated on the code at a failing input.  The port is open, the
buffer of the caller already holds the byte 7, and the device delivers the
byte 0x41 to the one read of `Read( buffer, 1, 0 )`.  `Read` returns without
an exception and leaves two bytes in the buffer, the stale byte first, where
the claim promises exactly the one byte the device delivered: the statement
`dataBuffer.empty() ;` queries the buffer and does not clear it. -/
theorem C1_read_keeps_stale_bytes :
    (exampleOpenImpl.Read [7] 1 0
        (exampleDevice [Answer.success, Answer.success, Answer.byte 0x41])).result
      = Result.ok () ∧
    (exampleOpenImpl.Read [7] 1 0
        (exampleDevice [Answer.success, Answer.success, Answer.byte 0x41])).dataBuffer
      = [7, 0x41] ∧
    (exampleOpenPort.Read [7] 1 0
        (exampleDevice [Answer.success, Answer.success, Answer.byte 0x41])).dataBuffer
      = [7, 0x41] ∧
    deliveredBytes 1
        (readAnswers (exampleDevice [Answer.success, Answer.success, Answer.byte 0x41]))
      = [0x41] := by
  decide

/-- Claim C2, evaluated on the code at a failing input.  The port is open, the
buffer of the caller already holds the byte 0x58, and the one read of
`Read( buffer, 1, 100 )` returns zero bytes.  `Read` returns without an
exception, where the claim promises `ReadTimeout`: the stale byte is counted
by `dataBuffer.size() < numOfBytes`.  On an empty buffer the same answers give
`ReadTimeout`. -/
theorem C2_timeout_hidden_by_stale_bytes :
    (exampleOpenImpl.Read [0x58] 1 100
        (exampleDevice [Answer.success, Answer.success, Answer.timeout])).result
      = Result.ok () ∧
    (exampleOpenImpl.Read [0x58] 1 100
        (exampleDevice [Answer.success, Answer.success, Answer.timeout])).dataBuffer
      = [0x58] ∧
    (exampleOpenPort.Read [0x58] 1 100
        (exampleDevice [Answer.success, Answer.success, Answer.timeout])).result
      = Result.ok () ∧
    (exampleOpenImpl.Read [] 1 100
        (exampleDevice [Answer.success, Answer.success, Answer.timeout])).result
      = Result.raise Exn.ReadTimeout := by
  decide

/-- Claim C3, evaluated on the code at a failing input.  The port is open, the
device accepts attribute reads and writes, and `SetCharSize` is called with
the value 8, which is none of the four encodings.  `SetCharSize` returns
without an exception and the attribute block of the device is altered (the
size field is cleared and bit 3 of the control flags is set), where the claim
promises `InvalidArgument` and an unaltered block.  The sibling `SetParity`
rejects a value outside its enumeration before any `tcsetattr`. -/
theorem C3_char_size_not_validated :
    (8 : CharacterSize) ∉ [CHAR_SIZE_5, CHAR_SIZE_6, CHAR_SIZE_7, CHAR_SIZE_8] ∧
    (exampleOpenImpl.SetCharSize 8 (exampleDevice [Answer.success, Answer.success])).result
      = Result.ok () ∧
    (exampleOpenPort.SetCharSize 8 (exampleDevice [Answer.success, Answer.success])).result
      = Result.ok () ∧
    (exampleOpenImpl.SetCharSize 8
        (exampleDevice [Answer.success, Answer.success])).dev.attrs.c_cflag = 0x888 ∧
    (exampleDevice [Answer.success, Answer.success]).attrs.c_cflag = 0x8B0 ∧
    (exampleOpenImpl.SetCharSize 8 (exampleDevice [Answer.success, Answer.success])).dev.calls
      = [Call.sysTcgetattr 3, Call.sysTcsetattr 3 { exampleAttrs with c_cflag := 0x888 }] ∧
    (exampleOpenImpl.SetParity (Parity.other 8)
        (exampleDevice [Answer.success, Answer.success])).result
      = Result.raise Exn.invalid_argument ∧
    (exampleOpenImpl.SetParity (Parity.other 8)
        (exampleDevice [Answer.success, Answer.success])).dev.calls
      = [Call.sysTcgetattr 3] := by
  decide

/-- Claim C4, evaluated on the code at a failing input.  On a fresh handle and
a device with no descriptor acquired, `Open` is answered with the descriptor 3
by `open` and with a failure by `tcgetattr`.  Afterwards the descriptor 3 is
acquired and not released, the handle stores it, and `IsOpen()` is false: the
handle holds a descriptor while it is not open. -/
theorem C4_failed_open_keeps_descriptor :
    exampleFailedOpen.port.IsOpen = false ∧
    exampleFailedOpen.dev.acquired = [3] ∧
    exampleFailedOpen.port.mSerialPortImpl.mFileDescriptor = 3 ∧
    exampleFailedOpen.dev.calls = [Call.sysOpen "/dev/ttyS0", Call.sysTcgetattr 3] ∧
    exampleFailedOpen.ended = false := by
  decide

/-- Claim C5: on a closed handle, when a step of `Open` fails (`open`,
`tcgetattr`, `tcsetattr` or `fcntl`, whose answers are the four first of the
script; a step is made when the steps before it succeeded), `Open` throws
`OpenFailed` and `IsOpen()` is false afterwards.  This holds for
`SerialPortImpl::Open` and for the five-argument `SerialPort::Open`. -/
theorem C5_open_failure_signals_OpenFailed (self : SerialPortImpl) (d : Device)
    (b : BaudRate) (c : CharacterSize) (p : Parity) (s : StopBits) (f : FlowControl)
    (hclosed : self.IsOpen = false)
    (hfail : (d.script.getD 0 Answer.failure).ret < 0 ∨
      (d.script.getD 1 Answer.failure).ret < 0 ∨
      (d.script.getD 2 Answer.failure).ret < 0 ∨
      (d.script.getD 3 Answer.failure).ret < 0) :
    (self.Open d).result = Result.raise Exn.OpenFailed ∧
    (self.Open d).self.IsOpen = false ∧
    (SerialPort.Open ⟨self⟩ b c p s f d).result = Result.raise Exn.OpenFailed ∧
    (SerialPort.Open ⟨self⟩ b c p s f d).self.IsOpen = false := by
  have h := (Open_steps self d hclosed).1 hfail
  refine ⟨h.1, h.2, ?_, ?_⟩
  · simp [SerialPort.Open, SerialPort.OpenBody, Ret.andThen, h.1, throwSpec]
  · simpa [SerialPort.Open, SerialPort.OpenBody, SerialPort.IsOpen] using h.2

/-- Witness of C5: a fresh handle, `open` hands out the descriptor 3 and
`tcgetattr` fails. -/
theorem C5_open_failure_witness :
    (SerialPortImpl.new "/dev/ttyS0").IsOpen = false ∧
    ((SerialPortImpl.new "/dev/ttyS0").Open
        (exampleIdleDevice [Answer.descriptor 3, Answer.failure])).result
      = Result.raise Exn.OpenFailed ∧
    ((SerialPortImpl.new "/dev/ttyS0").Open
        (exampleIdleDevice [Answer.descriptor 3, Answer.failure])).self.IsOpen = false ∧
    (SerialPort.Open ⟨SerialPortImpl.new "/dev/ttyS0"⟩ 13 CHAR_SIZE_8 Parity.PARITY_NONE
        StopBits.STOP_BITS_1 FlowControl.FLOW_CONTROL_NONE
        (exampleIdleDevice [Answer.descriptor 3, Answer.failure])).result
      = Result.raise Exn.OpenFailed ∧
    (SerialPort.Open ⟨SerialPortImpl.new "/dev/ttyS0"⟩ 13 CHAR_SIZE_8 Parity.PARITY_NONE
        StopBits.STOP_BITS_1 FlowControl.FLOW_CONTROL_NONE
        (exampleIdleDevice [Answer.descriptor 3, Answer.failure])).self.IsOpen = false :=
  ⟨rfl, C5_open_failure_signals_OpenFailed (SerialPortImpl.new "/dev/ttyS0")
    (exampleIdleDevice [Answer.descriptor 3, Answer.failure]) 13 CHAR_SIZE_8 Parity.PARITY_NONE
    StopBits.STOP_BITS_1 FlowControl.FLOW_CONTROL_NONE rfl (Or.inr (Or.inl (by decide)))⟩

/-- Claim C6, evaluated on the code at a failing input.  The handle of claim C4
(`open` handed out the descriptor 3, `tcgetattr` failed, `Open` threw
`OpenFailed`) is destroyed.  The destructors find `IsOpen()` false and make no
call: the descriptor 3 is still acquired after the destruction. -/
theorem C6_descriptor_left_after_destruction :
    exampleFailedOpen.destroy.acquired = [3] ∧
    Call.sysClose 3 ∉ exampleFailedOpen.destroy.calls ∧
    (exampleFailedOpen.port.destroy exampleFailedOpen.dev).result = Result.ok () := by
  decide

/-- Claim C7: on a closed handle every public operation other than `Open` and
`IsOpen` throws `NotOpen`, and the handle and the device are what they were
before the call: no call is added to the trace of the device and no answer of
the device is consumed. -/
theorem C7_closed_handle_signals_NotOpen (op : Op) (port : SerialPort) (d : Device)
    (hclosed : port.IsOpen = false)
    (hOpen : ∀ b c p s f, op ≠ Op.Open b c p s f) (hIsOpen : op ≠ Op.IsOpen) :
    op.apply port d = ⟨Result.raise Exn.NotOpen, port, d⟩ := by
  obtain ⟨impl⟩ := port
  simp only [SerialPort.IsOpen, SerialPortImpl.IsOpen] at hclosed
  cases op with
  | Open b c p s f => exact absurd rfl (hOpen b c p s f)
  | IsOpen => exact absurd rfl hIsOpen
  | _ =>
    simp_all [Op.apply, SerialPort.Close, SerialPortImpl.Close, SerialPortImpl.CloseBody,
      SerialPort.SetBaudRate, SerialPortImpl.SetBaudRate, SerialPortImpl.SetBaudRateBody,
      SerialPort.GetBaudRate, SerialPortImpl.GetBaudRate, SerialPortImpl.GetBaudRateBody,
      SerialPort.SetCharSize, SerialPortImpl.SetCharSize, SerialPortImpl.SetCharSizeBody,
      SerialPort.GetCharSize, SerialPortImpl.GetCharSize, SerialPortImpl.GetCharSizeBody,
      SerialPort.SetParity, SerialPortImpl.SetParity, SerialPortImpl.SetParityBody,
      SerialPort.GetParity, SerialPortImpl.GetParity, SerialPortImpl.GetParityBody,
      SerialPort.SetNumOfStopBits, SerialPortImpl.SetNumOfStopBits,
      SerialPortImpl.SetNumOfStopBitsBody,
      SerialPort.GetNumOfStopBits, SerialPortImpl.GetNumOfStopBits,
      SerialPortImpl.GetNumOfStopBitsBody,
      SerialPort.SetFlowControl, SerialPortImpl.SetFlowControl,
      SerialPortImpl.SetFlowControlBody,
      SerialPort.GetFlowControl, SerialPortImpl.GetFlowControl,
      SerialPortImpl.GetFlowControlBody,
      SerialPort.IsDataAvailable, SerialPortImpl.IsDataAvailable,
      SerialPortImpl.IsDataAvailableBody,
      SerialPort.ReadByte, SerialPortImpl.ReadByte, SerialPortImpl.ReadByteBody,
      SerialPortImpl.ReadNonzero,
      SerialPort.Read, SerialPortImpl.Read, SerialPortImpl.ReadBody,
      SerialPort.ReadLine, SerialPort.readLineLoop,
      SerialPort.WriteByte, SerialPortImpl.WriteByte, SerialPortImpl.WriteByteBody,
      SerialPort.Write, SerialPortImpl.Write, SerialPortImpl.WriteBody,
      SerialPort.WriteString, SerialPortImpl.WriteBytes, SerialPortImpl.WriteBytesBody,
      SerialPortImpl.IsOpen, throwSpec, Result.status]

/-- Witness of C7: `ReadLine` on a fresh handle, with a device that would
deliver a line. -/
theorem C7_closed_handle_witness :
    (SerialPort.new "/dev/ttyS0").IsOpen = false ∧
    (Op.ReadLine 100 10).apply (SerialPort.new "/dev/ttyS0")
        (exampleIdleDevice [Answer.success, Answer.success, Answer.byte 10])
      = ⟨Result.raise Exn.NotOpen, SerialPort.new "/dev/ttyS0",
          exampleIdleDevice [Answer.success, Answer.success, Answer.byte 10]⟩ :=
  ⟨rfl, C7_closed_handle_signals_NotOpen (Op.ReadLine 100 10) (SerialPort.new "/dev/ttyS0")
    (exampleIdleDevice [Answer.success, Answer.success, Answer.byte 10]) rfl
    (fun _ _ _ _ _ h => Op.noConfusion h) (fun h => Op.noConfusion h)⟩

/-- Claim C8: on an open handle `Open` throws `AlreadyOpen`, and the handle
(`mIsOpen`, `mFileDescriptor`, `mOldPortSettings`) and the device (attribute
block, trace of calls, answers to come) are what they were before the call.
This holds for the five-argument `SerialPort::Open` and for
`SerialPortImpl::Open`. -/
theorem C8_open_on_open_handle_signals_AlreadyOpen (port : SerialPort) (d : Device)
    (b : BaudRate) (c : CharacterSize) (p : Parity) (s : StopBits) (f : FlowControl)
    (hopen : port.IsOpen = true) :
    port.Open b c p s f d = ⟨Result.raise Exn.AlreadyOpen, port, d⟩ ∧
    port.mSerialPortImpl.Open d = ⟨Result.raise Exn.AlreadyOpen, port.mSerialPortImpl, d⟩ :=
  Open_of_open port d b c p s f hopen

/-- Witness of C8: the open example handle and a device on which a further
`Open` would succeed. -/
theorem C8_open_on_open_handle_witness :
    exampleOpenPort.IsOpen = true ∧
    exampleOpenPort.Open 13 CHAR_SIZE_8 Parity.PARITY_NONE StopBits.STOP_BITS_1
        FlowControl.FLOW_CONTROL_NONE (exampleDevice exampleOpenAnswers)
      = ⟨Result.raise Exn.AlreadyOpen, exampleOpenPort, exampleDevice exampleOpenAnswers⟩ :=
  ⟨rfl, (C8_open_on_open_handle_signals_AlreadyOpen exampleOpenPort
    (exampleDevice exampleOpenAnswers) 13 CHAR_SIZE_8 Parity.PARITY_NONE StopBits.STOP_BITS_1
    FlowControl.FLOW_CONTROL_NONE rfl).1⟩

/-- Claim C9: on every open handle `Close` returns without an exception, leaves
`IsOpen()` false and releases the descriptor (it calls `tcsetattr` with the
saved settings and then `close`), whether the device accepts the `tcsetattr`
or not; when the device accepts it, its attribute block becomes the saved
settings.  In a session, that is after an `Open` that took a closed handle to
an open one, followed by any public calls other than `Close`, the handle is
still open and an accepted `tcsetattr` of `Close` gives the device the
attribute block it had before that `Open`. -/
theorem C9_close_releases_and_restores (port : SerialPort) (d : Device) (b : BaudRate)
    (c : CharacterSize) (p : Parity) (s : StopBits) (f : FlowControl) (ops : List Op)
    (hclosed : port.IsOpen = false)
    (hopened : (runOps [Op.Open b c p s f] ⟨port, d, false⟩).port.IsOpen = true)
    (hnoclose : Op.Close ∉ ops) :
    (∀ (q : SerialPort) (e : Device), q.IsOpen = true →
      (q.Close e).result = Result.ok () ∧ (q.Close e).self.IsOpen = false ∧
      (q.Close e).dev.acquired = e.acquired.erase q.mSerialPortImpl.mFileDescriptor ∧
      (q.Close e).dev.calls = e.calls ++
        [Call.sysTcsetattr q.mSerialPortImpl.mFileDescriptor q.mSerialPortImpl.mOldPortSettings,
         Call.sysClose q.mSerialPortImpl.mFileDescriptor] ∧
      (0 ≤ e.answer.ret → (q.Close e).dev.attrs = q.mSerialPortImpl.mOldPortSettings) ∧
      (e.answer.ret < 0 → (q.Close e).dev.attrs = e.attrs)) ∧
    (runOps (Op.Open b c p s f :: ops) ⟨port, d, false⟩).port.IsOpen = true ∧
    (0 ≤ (runOps (Op.Open b c p s f :: ops) ⟨port, d, false⟩).dev.answer.ret →
      ((runOps (Op.Open b c p s f :: ops) ⟨port, d, false⟩).port.Close
        (runOps (Op.Open b c p s f :: ops) ⟨port, d, false⟩).dev).dev.attrs = d.attrs) := by
  have hgen := Close_effect
  refine ⟨hgen, ?_⟩
  have hsplit : runOps (Op.Open b c p s f :: ops) ⟨port, d, false⟩
      = runOps ops (runOps [Op.Open b c p s f] ⟨port, d, false⟩) := rfl
  have hport := runOps_port_of_open ops _ hopened hnoclose
  have hcap := Open_captures port d b c p s f hclosed hopened
  rw [hsplit]
  have hopen2 : (runOps ops (runOps [Op.Open b c p s f] ⟨port, d, false⟩)).port.IsOpen
      = true := by
    rw [hport]; exact hopened
  refine ⟨hopen2, fun hacc => ?_⟩
  rw [(hgen _ _ hopen2).2.2.2.2.1 hacc, hport, hcap]

/-- Witness of C9: a fresh handle is opened with the five-argument `Open`, the
parity is set to even (which changes the attribute block of the device) and a
byte is written; the `tcsetattr` of `Close` is accepted and the device has the
attribute block it had before `Open`. -/
theorem C9_close_witness :
    (SerialPort.new "/dev/ttyS0").IsOpen = false ∧
    Op.Close ∉ exampleSessionOps ∧
    (runOps (Op.Open 13 CHAR_SIZE_8 Parity.PARITY_NONE StopBits.STOP_BITS_1
          FlowControl.FLOW_CONTROL_NONE :: exampleSessionOps)
        ⟨SerialPort.new "/dev/ttyS0", exampleIdleDevice exampleSessionAnswers, false⟩).dev.attrs
      ≠ exampleAttrs ∧
    ((runOps (Op.Open 13 CHAR_SIZE_8 Parity.PARITY_NONE StopBits.STOP_BITS_1
          FlowControl.FLOW_CONTROL_NONE :: exampleSessionOps)
        ⟨SerialPort.new "/dev/ttyS0", exampleIdleDevice exampleSessionAnswers, false⟩).port.Close
      (runOps (Op.Open 13 CHAR_SIZE_8 Parity.PARITY_NONE StopBits.STOP_BITS_1
          FlowControl.FLOW_CONTROL_NONE :: exampleSessionOps)
        ⟨SerialPort.new "/dev/ttyS0", exampleIdleDevice exampleSessionAnswers, false⟩).dev).dev.attrs
      = exampleAttrs :=
  ⟨rfl, by decide, by decide,
    (C9_close_releases_and_restores (SerialPort.new "/dev/ttyS0")
      (exampleIdleDevice exampleSessionAnswers) 13 CHAR_SIZE_8 Parity.PARITY_NONE
      StopBits.STOP_BITS_1 FlowControl.FLOW_CONTROL_NONE exampleSessionOps rfl (by decide)
      (by decide)).2.2 (by decide)⟩

/-- Counterexample to C10 as it is written: the port is open, the buffer of the
caller is empty, and `Read( buffer, 2, 100 )` is answered with the byte 0x41
and then with zero bytes.  `Read` throws `ReadTimeout` and the byte 0x41 is in
the buffer of the caller, which is not what it was before the call. -/
theorem C10_delivered_bytes_stay_in_buffer :
    (exampleOpenImpl.Read [] 2 100
        (exampleDevice [Answer.success, Answer.success, Answer.byte 0x41, Answer.timeout])).result
      = Result.raise Exn.ReadTimeout ∧
    (exampleOpenImpl.Read [] 2 100
        (exampleDevice [Answer.success, Answer.success, Answer.byte 0x41,
          Answer.timeout])).dataBuffer = [0x41] ∧
    (exampleOpenImpl.Read [] 2 100
        (exampleDevice [Answer.success, Answer.success, Answer.byte 0x41,
          Answer.timeout])).dataBuffer ≠ [] := by
  decide

/-- Claim C10 as amended: on an open port and for a count above zero, when
`Read` on an empty buffer throws `ReadTimeout` or `std::runtime_error`, the
buffer of the caller holds the bytes the device delivered to the single-byte
reads of the call before the failing one, in arrival order, and they are fewer
than the count: the bytes are not taken back, and no full result comes with
the exception. -/
theorem C10_error_leaves_delivered_bytes (self : SerialPortImpl) (n ms : Nat) (d : Device)
    (hopen : self.IsOpen = true) (hn : 0 < n)
    (herr : (self.Read [] n ms d).result = Result.raise Exn.ReadTimeout ∨
      (self.Read [] n ms d).result = Result.raise Exn.runtime_error) :
    (self.Read [] n ms d).dataBuffer = deliveredBytes n (readAnswers d) ∧
    (self.Read [] n ms d).dataBuffer.length < n ∧
    (self.Read [] n ms d).result ≠ Result.ok () := by
  have hne : (self.Read [] n ms d).result ≠ Result.ok () := by
    rcases herr with h | h <;> rw [h] <;> simp
  rw [Read_of_open_nonzero self [] n ms d hopen hn] at herr ⊢
  simp only at herr ⊢
  refine ⟨?_, ?_, ?_⟩
  · simpa using ReadElse_buffer self [] n ms d
  · have := ReadElse_error_short self [] n ms d hn
      (herr.imp (throwSpec_eq_raise _ _ _) (throwSpec_eq_raise _ _ _))
    simpa using this
  · rw [Read_of_open_nonzero self [] n ms d hopen hn] at hne
    exact hne

/-- Witness of C10 as amended: the input of the counterexample. -/
theorem C10_error_leaves_delivered_bytes_witness :
    exampleOpenImpl.IsOpen = true ∧ 0 < 2 ∧
    (exampleOpenImpl.Read [] 2 100
        (exampleDevice [Answer.success, Answer.success, Answer.byte 0x41,
          Answer.timeout])).dataBuffer
      = deliveredBytes 2 (readAnswers
          (exampleDevice [Answer.success, Answer.success, Answer.byte 0x41, Answer.timeout])) ∧
    (exampleOpenImpl.Read [] 2 100
        (exampleDevice [Answer.success, Answer.success, Answer.byte 0x41,
          Answer.timeout])).dataBuffer.length < 2 :=
  ⟨rfl, by decide,
    (C10_error_leaves_delivered_bytes exampleOpenImpl 2 100
      (exampleDevice [Answer.success, Answer.success, Answer.byte 0x41, Answer.timeout])
      rfl (by decide) (Or.inl (by decide))).1,
    (C10_error_leaves_delivered_bytes exampleOpenImpl 2 100
      (exampleDevice [Answer.success, Answer.success, Answer.byte 0x41, Answer.timeout])
      rfl (by decide) (Or.inl (by decide))).2.1⟩

/-! ## Lemmas on the setters and the getters -/

/-- A value with a bit in common with a mask has a nonzero conjunction with it. -/
theorem and_ne_zero_of_testBit (x m k : Nat) (hx : x.testBit k = true)
    (hm : m.testBit k = true) : x &&& m ≠ 0 := by
  intro h
  have : (x &&& m).testBit k = true := by simp [Nat.testBit_and, hx, hm]
  rw [h] at this
  simp at this

/-- Masking with a value disjoint from `m` leaves nothing of `m`. -/
theorem and_and_eq_zero (x n m : Nat) (h : n &&& m = 0) : (x &&& n) &&& m = 0 := by
  rw [Nat.and_assoc, h, Nat.and_zero]

/-- After an accepted rewrite the device answers with the third answer of the
script. -/
theorem afterRewrite_answer (d : Device) (fd : Int) (settings : Termios) :
    (d.afterRewrite fd settings).answer = d.script.getD 2 Answer.failure := by
  obtain ⟨attrs, acq, calls, script⟩ := d
  rcases script with _ | ⟨a0, _ | ⟨a1, _ | ⟨a2, rest⟩⟩⟩ <;>
    simp [Device.afterRewrite, Device.answer]

/-- The parity read back after the parity mapping is the parity that was set. -/
theorem parityOf_withParity (p : Parity) (c : Nat) (hp : ∀ r, p ≠ Parity.other r) :
    parityOf (withParity p c) = p := by
  cases p with
  | other r => exact absurd rfl (hp r)
  | PARITY_EVEN =>
    have h1 : ((c ||| PARENB) &&& tcflagNot PARODD) &&& PARENB ≠ 0 := by
      apply and_ne_zero_of_testBit _ _ 8
      · have h1 : PARENB.testBit 8 = true := by decide
        have h2 : (tcflagNot PARODD).testBit 8 = true := by decide
        simp [Nat.testBit_and, Nat.testBit_or, h1, h2]
      · decide
    have h2 : ((c ||| PARENB) &&& tcflagNot PARODD) &&& PARODD = 0 :=
      and_and_eq_zero _ _ _ (by decide)
    simp [parityOf, withParity, h1, h2]
  | PARITY_ODD =>
    have h1 : (c ||| (PARENB ||| PARODD)) &&& PARENB ≠ 0 := by
      apply and_ne_zero_of_testBit _ _ 8
      · have h1 : (PARENB ||| PARODD).testBit 8 = true := by decide
        simp [Nat.testBit_or, h1]
      · decide
    have h2 : (c ||| (PARENB ||| PARODD)) &&& PARODD ≠ 0 := by
      apply and_ne_zero_of_testBit _ _ 9
      · have h1 : (PARENB ||| PARODD).testBit 9 = true := by decide
        simp [Nat.testBit_or, h1]
      · decide
    simp [parityOf, withParity, h1, h2]
  | PARITY_NONE =>
    have h1 : (c &&& tcflagNot PARENB) &&& PARENB = 0 := and_and_eq_zero _ _ _ (by decide)
    simp [parityOf, withParity, h1]

/-- The size field read back after the character size mapping is the size
that was set, for a size that lies within the size field. -/
theorem charSize_withCharSize (cs : CharacterSize) (c : Nat)
    (hcs : toTcflag cs &&& CSIZE = cs) : withCharSize cs c &&& CSIZE = cs := by
  have h0 : (c &&& tcflagNot CSIZE) &&& CSIZE = 0 := and_and_eq_zero _ _ _ (by decide)
  rw [withCharSize, Nat.and_distrib_right, h0, hcs, Nat.zero_or]

/-- The stop bits read back after the stop bits mapping are those that were set. -/
theorem stopBitsOf_withStopBits (s : StopBits) (c : Nat) (hs : ∀ r, s ≠ StopBits.other r) :
    stopBitsOf (withStopBits s c) = s := by
  cases s with
  | other r => exact absurd rfl (hs r)
  | STOP_BITS_1 =>
    have h1 : (c &&& tcflagNot CSTOPB) &&& CSTOPB = 0 := and_and_eq_zero _ _ _ (by decide)
    simp [stopBitsOf, withStopBits, h1]
  | STOP_BITS_2 =>
    have h1 : (c ||| CSTOPB) &&& CSTOPB ≠ 0 := by
      apply and_ne_zero_of_testBit _ _ 6
      · have h1 : CSTOPB.testBit 6 = true := by decide
        simp [Nat.testBit_or, h1]
      · decide
    simp [stopBitsOf, withStopBits, h1]

/-- The flow control read back after the flow control mapping is the one that
was set. -/
theorem flowControlOf_withFlowControl (f : FlowControl) (c : Nat)
    (hf : ∀ r, f ≠ FlowControl.other r) : flowControlOf (withFlowControl f c) = f := by
  cases f with
  | other r => exact absurd rfl (hf r)
  | FLOW_CONTROL_NONE =>
    have h1 : (c &&& tcflagNot CRTSCTS) &&& CRTSCTS = 0 := and_and_eq_zero _ _ _ (by decide)
    simp [flowControlOf, withFlowControl, h1]
  | FLOW_CONTROL_HARD =>
    have h1 : (c ||| CRTSCTS) &&& CRTSCTS ≠ 0 := by
      apply and_ne_zero_of_testBit _ _ 31
      · have h1 : CRTSCTS.testBit 31 = true := by decide
        simp [Nat.testBit_or, h1]
      · decide
    simp [flowControlOf, withFlowControl, h1]

/-- An accepted `SetParity` with a value of the enumeration rewrites the
control flags with the parity mapping. -/
theorem SetParity_accepted (self : SerialPortImpl) (d : Device) (p : Parity)
    (hopen : self.IsOpen = true) (hp : ∀ r, p ≠ Parity.other r)
    (h0 : 0 ≤ (d.script.getD 0 Answer.failure).ret)
    (h1 : 0 ≤ (d.script.getD 1 Answer.failure).ret) :
    self.SetParity p d = ⟨Result.ok (), d.afterRewrite self.mFileDescriptor
      { d.attrs with c_cflag := withParity p d.attrs.c_cflag }⟩ := by
  obtain ⟨attrs, acq, calls, script⟩ := d
  rcases script with _ | ⟨a0, _ | ⟨a1, rest⟩⟩
  · simp [Answer.failure] at h0
  · simp [Answer.failure] at h1
  · simp at h0 h1
    have h0' : ¬ a0.ret < 0 := by omega
    have h1' : ¬ a1.ret < 0 := by omega
    cases p with
    | other r => exact absurd rfl (hp r)
    | _ =>
      simp [SerialPortImpl.SetParity, SerialPortImpl.SetParityBody, hopen, tcgetattr, tcsetattr,
        Device.answer, Device.advance, Device.afterRewrite, withParity, h0', h1', throwSpec]

/-- An answered `GetParity` returns the parity read from the control flags of
the device. -/
theorem GetParity_answered (self : SerialPortImpl) (e : Device) (hopen : self.IsOpen = true)
    (h0 : 0 ≤ e.answer.ret) :
    self.GetParity e =
      ⟨Result.ok (parityOf e.attrs.c_cflag), e.advance (Call.sysTcgetattr self.mFileDescriptor)⟩ := by
  have h0' : ¬ e.answer.ret < 0 := by omega
  by_cases hA : e.attrs.c_cflag &&& PARENB = 0 <;> by_cases hB : e.attrs.c_cflag &&& PARODD = 0 <;>
    simp [SerialPortImpl.GetParity, SerialPortImpl.GetParityBody, hopen, tcgetattr, h0', hA, hB,
      throwSpec, parityOf]

/-- An accepted `SetCharSize` rewrites the control flags with the character
size mapping, whatever the value. -/
theorem SetCharSize_accepted (self : SerialPortImpl) (d : Device) (cs : CharacterSize)
    (hopen : self.IsOpen = true)
    (h0 : 0 ≤ (d.script.getD 0 Answer.failure).ret)
    (h1 : 0 ≤ (d.script.getD 1 Answer.failure).ret) :
    self.SetCharSize cs d = ⟨Result.ok (), d.afterRewrite self.mFileDescriptor
      { d.attrs with c_cflag := withCharSize cs d.attrs.c_cflag }⟩ := by
  obtain ⟨attrs, acq, calls, script⟩ := d
  rcases script with _ | ⟨a0, _ | ⟨a1, rest⟩⟩
  · simp [Answer.failure] at h0
  · simp [Answer.failure] at h1
  · simp at h0 h1
    have h0' : ¬ a0.ret < 0 := by omega
    have h1' : ¬ a1.ret < 0 := by omega
    simp [SerialPortImpl.SetCharSize, SerialPortImpl.SetCharSizeBody, hopen, tcgetattr, tcsetattr,
      Device.answer, Device.advance, Device.afterRewrite, withCharSize, h0', h1', throwSpec]

/-- An answered `GetCharSize` returns the size field of the control flags of
the device. -/
theorem GetCharSize_answered (self : SerialPortImpl) (e : Device) (hopen : self.IsOpen = true)
    (h0 : 0 ≤ e.answer.ret) :
    self.GetCharSize e =
      ⟨Result.ok (e.attrs.c_cflag &&& CSIZE), e.advance (Call.sysTcgetattr self.mFileDescriptor)⟩ := by
  have h0' : ¬ e.answer.ret < 0 := by omega
  simp [SerialPortImpl.GetCharSize, SerialPortImpl.GetCharSizeBody, hopen, tcgetattr, h0',
    throwSpec]

/-- An accepted `SetNumOfStopBits` with a value of the enumeration rewrites
the control flags with the stop bits mapping. -/
theorem SetNumOfStopBits_accepted (self : SerialPortImpl) (d : Device) (s : StopBits)
    (hopen : self.IsOpen = true) (hs : ∀ r, s ≠ StopBits.other r)
    (h0 : 0 ≤ (d.script.getD 0 Answer.failure).ret)
    (h1 : 0 ≤ (d.script.getD 1 Answer.failure).ret) :
    self.SetNumOfStopBits s d = ⟨Result.ok (), d.afterRewrite self.mFileDescriptor
      { d.attrs with c_cflag := withStopBits s d.attrs.c_cflag }⟩ := by
  obtain ⟨attrs, acq, calls, script⟩ := d
  rcases script with _ | ⟨a0, _ | ⟨a1, rest⟩⟩
  · simp [Answer.failure] at h0
  · simp [Answer.failure] at h1
  · simp at h0 h1
    have h0' : ¬ a0.ret < 0 := by omega
    have h1' : ¬ a1.ret < 0 := by omega
    cases s with
    | other r => exact absurd rfl (hs r)
    | _ =>
      simp [SerialPortImpl.SetNumOfStopBits, SerialPortImpl.SetNumOfStopBitsBody, hopen,
        tcgetattr, tcsetattr, Device.answer, Device.advance, Device.afterRewrite, withStopBits,
        h0', h1', throwSpec]

/-- An answered `GetNumOfStopBits` returns the stop bits read from the control
flags of the device. -/
theorem GetNumOfStopBits_answered (self : SerialPortImpl) (e : Device)
    (hopen : self.IsOpen = true) (h0 : 0 ≤ e.answer.ret) :
    self.GetNumOfStopBits e =
      ⟨Result.ok (stopBitsOf e.attrs.c_cflag),
        e.advance (Call.sysTcgetattr self.mFileDescriptor)⟩ := by
  have h0' : ¬ e.answer.ret < 0 := by omega
  by_cases hA : e.attrs.c_cflag &&& CSTOPB = 0 <;>
    simp [SerialPortImpl.GetNumOfStopBits, SerialPortImpl.GetNumOfStopBitsBody, hopen, tcgetattr,
      h0', hA, throwSpec, stopBitsOf]

/-- An accepted `SetFlowControl` with a value of the enumeration rewrites the
control flags with the flow control mapping. -/
theorem SetFlowControl_accepted (self : SerialPortImpl) (d : Device) (f : FlowControl)
    (hopen : self.IsOpen = true) (hf : ∀ r, f ≠ FlowControl.other r)
    (h0 : 0 ≤ (d.script.getD 0 Answer.failure).ret)
    (h1 : 0 ≤ (d.script.getD 1 Answer.failure).ret) :
    self.SetFlowControl f d = ⟨Result.ok (), d.afterRewrite self.mFileDescriptor
      { d.attrs with c_cflag := withFlowControl f d.attrs.c_cflag }⟩ := by
  obtain ⟨attrs, acq, calls, script⟩ := d
  rcases script with _ | ⟨a0, _ | ⟨a1, rest⟩⟩
  · simp [Answer.failure] at h0
  · simp [Answer.failure] at h1
  · simp at h0 h1
    have h0' : ¬ a0.ret < 0 := by omega
    have h1' : ¬ a1.ret < 0 := by omega
    cases f with
    | other r => exact absurd rfl (hf r)
    | _ =>
      simp [SerialPortImpl.SetFlowControl, SerialPortImpl.SetFlowControlBody, hopen,
        tcgetattr, tcsetattr, Device.answer, Device.advance, Device.afterRewrite,
        withFlowControl, h0', h1', throwSpec]

/-- An answered `GetFlowControl` returns the flow control read from the
control flags of the device. -/
theorem GetFlowControl_answered (self : SerialPortImpl) (e : Device)
    (hopen : self.IsOpen = true) (h0 : 0 ≤ e.answer.ret) :
    self.GetFlowControl e =
      ⟨Result.ok (flowControlOf e.attrs.c_cflag),
        e.advance (Call.sysTcgetattr self.mFileDescriptor)⟩ := by
  have h0' : ¬ e.answer.ret < 0 := by omega
  by_cases hA : e.attrs.c_cflag &&& CRTSCTS = 0 <;>
    simp [SerialPortImpl.GetFlowControl, SerialPortImpl.GetFlowControlBody, hopen, tcgetattr,
      h0', hA, throwSpec, flowControlOf]

/-- A rate that `cfsetispeed` and `cfsetospeed` do not refuse has no bit
outside `CBAUD`. -/
theorem speed_in_CBAUD (speed : Nat)
    (h : ¬ (speed &&& tcflagNot CBAUD ≠ 0 ∧ (speed < B57600 ∨ speed > MAX_BAUD))) :
    speed &&& tcflagNot CBAUD = 0 := by
  by_contra hne
  have hb : ¬ (speed < B57600 ∨ speed > MAX_BAUD) := fun hb => h ⟨hne, hb⟩
  have h1 : 0x1001 ≤ speed := by
    have : ¬ speed < B57600 := fun hlt => hb (Or.inl hlt)
    simp only [B57600] at this
    omega
  have h2 : speed ≤ 0x100F := by
    have : ¬ speed > MAX_BAUD := fun hgt => hb (Or.inr hgt)
    simp only [MAX_BAUD] at this
    omega
  revert hne
  interval_cases speed <;> decide

/-- A value of `speed_t` with no bit outside `CBAUD` is what its bits `CBAUD`
hold. -/
theorem and_CBAUD_eq (speed : Nat) (hs : speed < 2 ^ 32)
    (h : speed &&& tcflagNot CBAUD = 0) : speed &&& (CBAUD ||| CBAUDEX) = speed := by
  have hm : (CBAUD ||| CBAUDEX) = CBAUD := by decide
  have hall : CBAUD ||| tcflagNot CBAUD = 2 ^ 32 - 1 := by decide
  have hfull : speed &&& (2 ^ 32 - 1) = speed := by
    rw [Nat.and_pow_two_sub_one_eq_mod, Nat.mod_eq_of_lt hs]
  have hsplit : speed &&& (CBAUD ||| tcflagNot CBAUD)
      = (speed &&& CBAUD) ||| (speed &&& tcflagNot CBAUD) := by
    rw [Nat.and_comm, Nat.and_distrib_right, Nat.and_comm CBAUD, Nat.and_comm (tcflagNot CBAUD)]
  rw [hm]
  rw [hall, hfull, h, Nat.or_zero] at hsplit
  exact hsplit.symm

/-- The block that `cfsetispeed` and `cfsetospeed` leave: the bits `CBAUD` of
the control flags are replaced by the rate, `cfgetispeed` reads the rate back
from it, and the output, local and timing fields are as they were. -/
theorem setBothSpeeds_block (settings block : Termios) (speed : Nat) (hs : speed < 2 ^ 32)
    (h : setBothSpeeds settings speed = some block) :
    cfgetispeed block = speed ∧
    block.c_cflag = (settings.c_cflag &&& tcflagNot (CBAUD ||| CBAUDEX)) ||| speed ∧
    block.c_cflag &&& (CBAUD ||| CBAUDEX) = speed ∧
    block.c_oflag = settings.c_oflag ∧ block.c_lflag = settings.c_lflag ∧
    block.c_cc_VMIN = settings.c_cc_VMIN ∧ block.c_cc_VTIME = settings.c_cc_VTIME ∧
    block.c_cc_other = settings.c_cc_other := by
  by_cases hrej : speed &&& tcflagNot CBAUD ≠ 0 ∧ (speed < B57600 ∨ speed > MAX_BAUD)
  · simp [setBothSpeeds, cfsetispeed, hrej] at h
  · have hin := speed_in_CBAUD speed hrej
    have hm : (CBAUD ||| CBAUDEX) = CBAUD := by decide
    have hself := and_CBAUD_eq speed hs hin
    have hclear : ∀ x : Nat, (x &&& tcflagNot (CBAUD ||| CBAUDEX)) &&& (CBAUD ||| CBAUDEX) = 0 :=
      fun x => and_and_eq_zero _ _ _ (by decide)
    have hin2 : speed &&& tcflagNot (CBAUD ||| CBAUDEX) = 0 := by rw [hm]; exact hin
    have hread : ∀ x : Nat,
        ((x &&& tcflagNot (CBAUD ||| CBAUDEX)) ||| speed) &&& (CBAUD ||| CBAUDEX) = speed := by
      intro x
      rw [Nat.and_distrib_right, hclear, hself, Nat.zero_or]
    have htwice : ∀ x : Nat,
        (((x &&& tcflagNot (CBAUD ||| CBAUDEX)) ||| speed) &&& tcflagNot (CBAUD ||| CBAUDEX))
          ||| speed = (x &&& tcflagNot (CBAUD ||| CBAUDEX)) ||| speed := by
      intro x
      rw [Nat.and_distrib_right, hin2, Nat.or_zero, Nat.and_assoc, Nat.and_self]
    by_cases h0 : speed = 0
    · subst h0
      have hblock : block = { settings with
          c_ispeed := 0, c_ospeed := 0, c_iflag := settings.c_iflag ||| IBAUD0,
          c_cflag := (settings.c_cflag &&& tcflagNot (CBAUD ||| CBAUDEX)) ||| 0 } := by
        have hrej0 : ¬ ((0 : Nat) &&& tcflagNot CBAUD ≠ 0 ∧ ((0 : Nat) < B57600 ∨ 0 > MAX_BAUD)) :=
          hrej
        simp only [setBothSpeeds, cfsetispeed, cfsetospeed, if_neg hrej0, if_true,
          Option.some_bind, Option.some.injEq] at h
        exact h.symm
      have hbit : (settings.c_iflag ||| IBAUD0) &&& IBAUD0 ≠ 0 :=
        and_ne_zero_of_testBit _ _ 31
          (by rw [Nat.testBit_or]; simp [show IBAUD0.testBit 31 = true by decide])
          (by decide)
      rw [hblock]
      refine ⟨?_, rfl, hread _, rfl, rfl, rfl, rfl, rfl⟩
      simp only [cfgetispeed]
      rw [if_pos hbit]
    · have hblock : block = { settings with
          c_ispeed := speed, c_ospeed := speed,
          c_iflag := settings.c_iflag &&& tcflagNot IBAUD0,
          c_cflag := (((settings.c_cflag &&& tcflagNot (CBAUD ||| CBAUDEX)) ||| speed)
            &&& tcflagNot (CBAUD ||| CBAUDEX)) ||| speed } := by
        simp only [setBothSpeeds, cfsetispeed, cfsetospeed, if_neg hrej, if_neg h0,
          Option.some_bind, Option.some.injEq] at h
        exact h.symm
      have hbit : ¬ ((settings.c_iflag &&& tcflagNot IBAUD0) &&& IBAUD0 ≠ 0) := by
        rw [and_and_eq_zero _ _ _ (by decide)]
        simp
      rw [hblock]
      refine ⟨?_, htwice _, ?_, rfl, rfl, rfl, rfl, rfl⟩
      · simp only [cfgetispeed]
        rw [if_neg hbit, htwice, hread]
      · simp only
        rw [htwice, hread]

/-- An accepted `SetBaudRate` with a rate that `cfsetispeed` and `cfsetospeed`
take hands the block they leave to the device. -/
theorem SetBaudRate_accepted (self : SerialPortImpl) (d : Device) (r : BaudRate)
    (block : Termios) (hopen : self.IsOpen = true)
    (hr : setBothSpeeds d.attrs (toSpeed r) = some block)
    (h0 : 0 ≤ (d.script.getD 0 Answer.failure).ret)
    (h1 : 0 ≤ (d.script.getD 1 Answer.failure).ret) :
    self.SetBaudRate r d = ⟨Result.ok (), d.afterRewrite self.mFileDescriptor block⟩ := by
  obtain ⟨attrs, acq, calls, script⟩ := d
  rcases script with _ | ⟨a0, _ | ⟨a1, rest⟩⟩
  · simp [Answer.failure] at h0
  · simp [Answer.failure] at h1
  · simp at h0 h1
    have h0' : ¬ a0.ret < 0 := by omega
    have h1' : ¬ a1.ret < 0 := by omega
    simp only [setBothSpeeds] at hr
    cases hi : cfsetispeed attrs (toSpeed r) with
    | none => rw [hi] at hr; simp at hr
    | some settings1 =>
      rw [hi, Option.some_bind] at hr
      simp [SerialPortImpl.SetBaudRate, SerialPortImpl.SetBaudRateBody, hopen, tcgetattr, tcsetattr,
        hi, hr, Device.answer, Device.advance, Device.afterRewrite, h0', h1', throwSpec]

/-- An answered `GetBaudRate` returns what `cfgetispeed` reads from the block
of the device; one that is not answered throws `std::runtime_error`. -/
theorem GetBaudRate_answered (self : SerialPortImpl) (e : Device) (hopen : self.IsOpen = true) :
    (0 ≤ e.answer.ret → self.GetBaudRate e =
      ⟨Result.ok (cfgetispeed e.attrs), e.advance (Call.sysTcgetattr self.mFileDescriptor)⟩) ∧
    (e.answer.ret < 0 → self.GetBaudRate e =
      ⟨Result.raise Exn.runtime_error, e.advance (Call.sysTcgetattr self.mFileDescriptor)⟩) := by
  constructor
  · intro h0
    have h0' : ¬ e.answer.ret < 0 := by omega
    simp [SerialPortImpl.GetBaudRate, SerialPortImpl.GetBaudRateBody, hopen, tcgetattr, h0',
      throwSpec]
  · intro h0
    simp [SerialPortImpl.GetBaudRate, SerialPortImpl.GetBaudRateBody, hopen, tcgetattr, h0,
      throwSpec]

/-! ## Lemmas on the writer -/

/-- The retry loop of the writer stops at the first answer that is not a
would-block answer, after one call for each would-block answer and one more. -/
theorem writeRetryScript_eq (script : List Answer) :
    writeRetryScript script =
      ((firstOtherAnswer script).ret, script.drop (wouldBlockRun script + 1),
        wouldBlockRun script + 1) := by
  induction script with
  | nil => simp [writeRetryScript, firstOtherAnswer, wouldBlockRun]
  | cons a rest ih =>
    by_cases h : a.ret < 0 ∧ a.eagain = true
    · have hw : a.isWouldBlock = true := by simp [Answer.isWouldBlock, h.1, h.2]
      simp only [writeRetryScript, h, and_self, if_true, ih]
      simp [firstOtherAnswer, wouldBlockRun, List.takeWhile, hw]
    · have hw : a.isWouldBlock = false := by
        simp only [Answer.isWouldBlock]
        by_cases h1 : a.ret < 0
        · have : a.eagain = false := by
            cases he : a.eagain with
            | false => rfl
            | true => exact absurd ⟨h1, he⟩ h
          simp [this]
        · simp [h1]
      simp only [writeRetryScript, h, if_false]
      simp [firstOtherAnswer, wouldBlockRun, List.takeWhile, hw]

/-- On an open port the pointer overload of `Write` issues the write until the
first answer that is not a would-block answer, which decides the outcome. -/
theorem WriteBytes_of_open (self : SerialPortImpl) (data : List Nat) (d : Device)
    (hopen : self.IsOpen = true) :
    self.WriteBytes data d =
      ⟨if (firstOtherAnswer d.script).ret < 0 then Result.raise Exn.runtime_error
        else Result.ok (), d.afterWrites self.mFileDescriptor data⟩ := by
  by_cases h : (firstOtherAnswer d.script).ret < 0 <;>
    simp [SerialPortImpl.WriteBytes, SerialPortImpl.WriteBytesBody, hopen, writeRetry,
      writeRetryScript_eq, Device.afterWrites, h, throwSpec]

/-! ## Lemmas on the readers -/

/-- An accepted `SetReadTimeout` rewrites the two timing entries, stored as
`cc_t`. -/
theorem SetReadTimeout_accepted (self : SerialPortImpl) (ms nb : Nat) (d : Device)
    (h0 : 0 ≤ (d.script.getD 0 Answer.failure).ret)
    (h1 : 0 ≤ (d.script.getD 1 Answer.failure).ret) :
    self.SetReadTimeout ms nb d = ⟨Result.ok (), d.afterRewrite self.mFileDescriptor
      (if 0 = ms then { d.attrs with c_cc_VMIN := toByte nb, c_cc_VTIME := 0 }
       else { d.attrs with c_cc_VMIN := toByte nb, c_cc_VTIME := toByte (ms / 100) })⟩ := by
  obtain ⟨attrs, acq, calls, script⟩ := d
  rcases script with _ | ⟨a0, _ | ⟨a1, rest⟩⟩
  · simp [Answer.failure] at h0
  · simp [Answer.failure] at h1
  · simp at h0 h1
    have h0' : ¬ a0.ret < 0 := by omega
    have h1' : ¬ a1.ret < 0 := by omega
    by_cases hms : 0 = ms
    · subst hms
      simp [SerialPortImpl.SetReadTimeout, SerialPortImpl.SetReadTimeoutBody, tcgetattr,
        tcsetattr, Device.answer, Device.advance, Device.afterRewrite, h0', h1', throwSpec]
    · simp [SerialPortImpl.SetReadTimeout, SerialPortImpl.SetReadTimeoutBody, tcgetattr,
        tcsetattr, Device.answer, Device.advance, Device.afterRewrite, h0', h1', hms, throwSpec]

/-- On an open port a `ReadByte` whose timeout adjustment is accepted and
whose first read answer is a byte returns that byte. -/
theorem ReadByte_served (self : SerialPortImpl) (ms : Nat) (d : Device) (b : Nat)
    (tl : List Answer) (hopen : self.IsOpen = true)
    (hs : d.script = Answer.success :: Answer.success :: Answer.byte b :: tl) :
    self.ReadByte ms d = ⟨Result.ok (toByte b), d.afterByte self.mFileDescriptor ms⟩ := by
  obtain ⟨attrs, acq, calls, script⟩ := d
  simp only at hs
  subst hs
  by_cases hms : 0 = ms
  · subst hms
    simp [SerialPortImpl.ReadByte, SerialPortImpl.ReadByteBody, SerialPortImpl.ReadNonzero,
      SerialPortImpl.ReadElse, SerialPortImpl.SetReadTimeout, SerialPortImpl.SetReadTimeoutBody,
      SerialPortImpl.readLoop, readRetry, readRetryScript, hopen, tcgetattr, tcsetattr,
      Device.answer, Device.advance, Device.afterByte, readTiming, Answer.success, Answer.byte,
      throwSpec]
  · simp [SerialPortImpl.ReadByte, SerialPortImpl.ReadByteBody, SerialPortImpl.ReadNonzero,
      SerialPortImpl.ReadElse, SerialPortImpl.SetReadTimeout, SerialPortImpl.SetReadTimeoutBody,
      SerialPortImpl.readLoop, readRetry, readRetryScript, hopen, tcgetattr, tcsetattr,
      Device.answer, Device.advance, Device.afterByte, readTiming, Answer.success, Answer.byte,
      hms, throwSpec]

/-- The retry loop of the reader leaves no more answers than it found. -/
theorem readRetryScript_length (script : List Answer) :
    (readRetryScript script).2.2.1.length ≤ script.length := by
  induction script with
  | nil => simp [readRetryScript]
  | cons a rest ih =>
    by_cases h : a.ret < 0 ∧ a.eagain = true
    · simp only [readRetryScript, h, and_self, if_true, List.length_cons]
      omega
    · simp [readRetryScript, h]

/-- The loop of `Read` leaves no more answers than it found. -/
theorem readLoop_script_length (fd : Int) (n : Nat) :
    ∀ (buf : DataBuffer) (d : Device),
      (SerialPortImpl.readLoop fd n buf d).2.2.script.length ≤ d.script.length := by
  induction n with
  | zero => intro buf d; simp [SerialPortImpl.readLoop]
  | succ n ih =>
    intro buf d
    have hr : (readRetry fd d).2.2.script.length ≤ d.script.length := by
      simp only [readRetry]
      exact readRetryScript_length d.script
    by_cases h1 : (1 : Int) = (readRetry fd d).1
    · simp only [SerialPortImpl.readLoop, h1, if_true]
      have := ih (buf ++ [(readRetry fd d).2.1]) (readRetry fd d).2.2
      omega
    · simp only [SerialPortImpl.readLoop, h1, if_false]
      exact hr

/-- The member `SetReadTimeout` leaves no more answers than it found, and two
fewer when it returns. -/
theorem SetReadTimeout_script_length (self : SerialPortImpl) (ms nb : Nat) (d : Device) :
    (self.SetReadTimeout ms nb d).dev.script.length ≤ d.script.length ∧
    ((self.SetReadTimeout ms nb d).result = Result.ok () →
      (self.SetReadTimeout ms nb d).dev.script.length + 2 ≤ d.script.length) := by
  obtain ⟨attrs, acq, calls, script⟩ := d
  rcases script with _ | ⟨a0, _ | ⟨a1, rest⟩⟩
  · simp [SerialPortImpl.SetReadTimeout, SerialPortImpl.SetReadTimeoutBody, tcgetattr,
      Device.answer, Device.advance, Answer.failure, throwSpec]
  · by_cases h0 : a0.ret < 0 <;>
    simp [SerialPortImpl.SetReadTimeout, SerialPortImpl.SetReadTimeoutBody, tcgetattr,
      tcsetattr, Device.advance, Device.answer, Answer.failure, throwSpec, h0]
  · by_cases h0 : a0.ret < 0 <;> by_cases h1 : a1.ret < 0 <;>
    simp [SerialPortImpl.SetReadTimeout, SerialPortImpl.SetReadTimeoutBody, tcgetattr,
      tcsetattr, Device.advance, Device.answer, throwSpec, h0, h1] <;> omega

/-- The counted branch of `Read` leaves no more answers than it found, and at
least two fewer when it returns. -/
theorem ReadElse_script_length (self : SerialPortImpl) (buf : DataBuffer) (n ms : Nat)
    (d : Device) :
    (self.ReadElse buf n ms d).dev.script.length ≤ d.script.length ∧
    ((self.ReadElse buf n ms d).result = Result.ok () →
      (self.ReadElse buf n ms d).dev.script.length + 2 ≤ d.script.length) := by
  have ht : ∀ t : Ret Unit, ∀ r : RetBuf,
      (t.dev.script.length ≤ d.script.length ∧
        (t.result = Result.ok () → t.dev.script.length + 2 ≤ d.script.length)) →
      r = (match t.result with
        | Result.raise e => (⟨Result.raise e, buf, t.dev⟩ : RetBuf)
        | Result.terminate => ⟨Result.terminate, buf, t.dev⟩
        | Result.ok _ =>
          let l := SerialPortImpl.readLoop self.mFileDescriptor n buf t.dev
          let is_read_failed := l.1
          if is_read_failed = true then ⟨Result.raise Exn.runtime_error, l.2.1, l.2.2⟩
          else if l.2.1.length < n then ⟨Result.raise Exn.ReadTimeout, l.2.1, l.2.2⟩
          else ⟨Result.ok (), l.2.1, l.2.2⟩) →
      r.dev.script.length ≤ d.script.length ∧
        (r.result = Result.ok () → r.dev.script.length + 2 ≤ d.script.length) := by
    intro t r hlen hr
    cases hres : t.result with
    | raise e => rw [hres] at hr; subst hr; simp; exact hlen.1
    | terminate => rw [hres] at hr; subst hr; simp; exact hlen.1
    | ok u =>
      have h2 := hlen.2 (by rw [hres])
      have hl := readLoop_script_length self.mFileDescriptor n buf t.dev
      rw [hres] at hr
      simp only at hr
      have hdev : r.dev = (SerialPortImpl.readLoop self.mFileDescriptor n buf t.dev).2.2 := by
        rw [hr]; split_ifs <;> rfl
      rw [hdev]
      constructor
      · omega
      · intro _; omega
  unfold SerialPortImpl.ReadElse
  by_cases hms : 0 = ms
  · simp only [hms, if_true]
    exact ht _ _ (SetReadTimeout_script_length self _ _ d) rfl
  · simp only [hms, if_false]
    exact ht _ _ (SetReadTimeout_script_length self _ _ d) rfl

/-- A `ReadByte` leaves no more answers than it found, and at least two fewer
when it returns a byte. -/
theorem ReadByte_script_length (self : SerialPortImpl) (ms : Nat) (d : Device) :
    (self.ReadByte ms d).dev.script.length ≤ d.script.length ∧
    (∀ b, (self.ReadByte ms d).result = Result.ok b →
      (self.ReadByte ms d).dev.script.length + 2 ≤ d.script.length) := by
  have he := ReadElse_script_length self [] 1 ms d
  by_cases hopen : self.IsOpen = true
  · have hdev : (self.ReadByte ms d).dev = (self.ReadElse [] 1 ms d).dev := by
      simp only [SerialPortImpl.ReadByte, SerialPortImpl.ReadByteBody,
        SerialPortImpl.ReadNonzero, hopen]
      simp only [not_true_eq_false, if_false]
      split <;> try rfl
      split <;> rfl
    rw [hdev]
    refine ⟨he.1, fun b hb => he.2 ?_⟩
    cases hr : (self.ReadElse [] 1 ms d).result with
    | ok u => rfl
    | raise e =>
      exfalso
      simp only [SerialPortImpl.ReadByte, SerialPortImpl.ReadByteBody,
        SerialPortImpl.ReadNonzero, hopen, not_true_eq_false, if_false, hr] at hb
      by_cases hm : e ∈ [Exn.NotOpen, Exn.ReadTimeout, Exn.runtime_error]
      · simp [throwSpec, hm] at hb
      · simp [throwSpec, hm] at hb
    | terminate =>
      exfalso
      simp [SerialPortImpl.ReadByte, SerialPortImpl.ReadByteBody,
        SerialPortImpl.ReadNonzero, hopen, hr, throwSpec] at hb
  · have hclosed : self.IsOpen = false := by simpa using hopen
    simp [SerialPortImpl.ReadByte, SerialPortImpl.ReadByteBody, SerialPortImpl.ReadNonzero,
      hclosed, throwSpec]

/-- The facade `ReadByte` returns a byte only when the implementation does. -/
theorem facade_ReadByte_ok (port : SerialPort) (ms : Nat) (d : Device) (b : Nat)
    (h : (port.ReadByte ms d).result = Result.ok b) :
    (port.mSerialPortImpl.ReadByte ms d).result = Result.ok b := by
  simp only [SerialPort.ReadByte] at h
  cases hr : (port.mSerialPortImpl.ReadByte ms d).result with
  | ok u => rw [hr] at h; simpa [throwSpec] using h
  | terminate => rw [hr] at h; simp [throwSpec] at h
  | raise e =>
    rw [hr] at h
    by_cases hm : e ∈ [Exn.NotOpen, Exn.ReadTimeout, Exn.runtime_error]
    · simp [throwSpec, hm] at h
    · simp [throwSpec, hm] at h

/-- Successive calls of `ReadByte` that all return give as many bytes as
calls, and each consumes at least two answers of the device. -/
theorem readBytes_length (port : SerialPort) (ms : Nat) (n : Nat) :
    ∀ (d : Device) (bs : List Nat) (d2 : Device), readBytes port ms n d = some (bs, d2) →
      bs.length = n ∧ d2.script.length + 2 * n ≤ d.script.length := by
  induction n with
  | zero =>
    intro d bs d2 h
    simp only [readBytes, Option.some.injEq, Prod.mk.injEq] at h
    obtain ⟨h1, h2⟩ := h
    subst h1 h2
    simp
  | succ n ih =>
    intro d bs d2 h
    simp only [readBytes] at h
    cases hr : (port.ReadByte ms d).result with
    | raise e => rw [hr] at h; simp at h
    | terminate => rw [hr] at h; simp at h
    | ok b =>
      rw [hr] at h
      simp only at h
      cases hrest : readBytes port ms n (port.ReadByte ms d).dev with
      | none => rw [hrest] at h; simp at h
      | some r =>
        rw [hrest] at h
        simp only [Option.some.injEq, Prod.mk.injEq] at h
        obtain ⟨h1, h2⟩ := h
        have hi := ih (port.ReadByte ms d).dev r.1 r.2 hrest
        have hb := (ReadByte_script_length port.mSerialPortImpl ms d).2 b
          (facade_ReadByte_ok port ms d b hr)
        have hdev : (port.ReadByte ms d).dev = (port.mSerialPortImpl.ReadByte ms d).dev := rfl
        rw [hdev] at hi
        subst h1 h2
        simp only [List.length_cons]
        omega

/-- One more call of `ReadByte` in front of `count` successive calls. -/
theorem readBytes_succ (port : SerialPort) (ms count : Nat) (d : Device) :
    readBytes port ms (count + 1) d =
      match (port.ReadByte ms d).result with
      | Result.ok b =>
        match readBytes port ms count (port.ReadByte ms d).dev with
        | some r => some (b :: r.1, r.2)
        | none => none
      | _ => none := rfl

/-- The loop of `ReadLine` on a device whose next bytes are `pre` followed by
the terminator, none of `pre` being the terminator: the loop returns those
bytes after what it had collected, and the device is the one the calls of
`ReadByte` leave. -/
theorem readLineLoop_of_readBytes (port : SerialPort) (ms t : Nat) (pre : List Nat) :
    ∀ (fuel : Nat) (acc : List Nat) (d d2 : Device),
      readBytes port ms (pre.length + 1) d = some (pre ++ [toByte t], d2) →
      toByte t ∉ pre → pre.length < fuel →
      SerialPort.readLineLoop port ms t fuel acc d = ⟨Result.ok (acc ++ (pre ++ [toByte t])), d2⟩ := by
  induction pre with
  | nil =>
    intro fuel acc d d2 h _ hf
    obtain ⟨f, rfl⟩ : ∃ f, fuel = f + 1 := ⟨fuel - 1, by simp at hf; omega⟩
    simp only [List.length_nil, Nat.zero_add, readBytes, List.nil_append] at h
    cases hr : (port.ReadByte ms d).result with
    | raise e => rw [hr] at h; simp at h
    | terminate => rw [hr] at h; simp at h
    | ok b =>
      rw [hr] at h
      simp only [Option.some.injEq, Prod.mk.injEq, List.cons.injEq, and_true] at h
      obtain ⟨h1, h2⟩ := h
      simp [SerialPort.readLineLoop, hr, h1, h2]
  | cons p pre ih =>
    intro fuel acc d d2 h hnot hf
    obtain ⟨f, rfl⟩ : ∃ f, fuel = f + 1 := ⟨fuel - 1, by simp at hf; omega⟩
    simp only [List.length_cons, List.cons_append] at h
    rw [readBytes_succ] at h
    cases hr : (port.ReadByte ms d).result with
    | raise e => rw [hr] at h; simp at h
    | terminate => rw [hr] at h; simp at h
    | ok b =>
      rw [hr] at h
      simp only at h
      cases hrest : readBytes port ms (pre.length + 1) (port.ReadByte ms d).dev with
      | none => rw [hrest] at h; simp at h
      | some r =>
        rw [hrest] at h
        simp only [Option.some.injEq, Prod.mk.injEq, List.cons.injEq] at h
        obtain ⟨⟨hb, hr1⟩, hr2⟩ := h
        have hp : p ≠ toByte t := fun e => hnot (by simp [e])
        have hnot2 : toByte t ∉ pre := fun e => hnot (by simp [e])
        have hrest2 : readBytes port ms (pre.length + 1) (port.ReadByte ms d).dev
            = some (pre ++ [toByte t], d2) := by
          rw [hrest, ← hr1, ← hr2]
        have hi := ih f (acc ++ [p]) (port.ReadByte ms d).dev d2 hrest2 hnot2
          (by simp at hf; omega)
        subst hb
        simp only [SerialPort.readLineLoop, hr, ne_eq, hp, not_false_eq_true, if_true]
        rw [hi]
        simp

/-- On an open port the loop of the drain, on a device where the bytes
`pending` are waiting and no more arrive, returns those bytes after what the
buffer held, and the device is the one the drain leaves. -/
theorem drainLoop_of_pending (self : SerialPortImpl) (ms : Nat) (hopen : self.IsOpen = true)
    (pending : List Nat) :
    ∀ (fuel : Nat) (buf : DataBuffer) (d : Device) (rest : List Answer),
      (∀ b ∈ pending, b < 256) → d.script = pendingAnswers pending ++ rest →
      pending.length < fuel →
      SerialPortImpl.drainLoop self ms fuel buf d =
        ⟨Result.ok (), buf ++ pending, Device.afterDrain self.mFileDescriptor ms pending d⟩ := by
  induction pending with
  | nil =>
    intro fuel buf d rest _ hs hf
    obtain ⟨f, rfl⟩ : ∃ f, fuel = f + 1 := ⟨fuel - 1, by simp at hf; omega⟩
    simp only [pendingAnswers, List.singleton_append] at hs
    simp [SerialPortImpl.drainLoop, SerialPortImpl.IsDataAvailable,
      SerialPortImpl.IsDataAvailableBody, hopen, ioctlFionread, Device.answer, hs, throwSpec,
      Device.afterDrain]
  | cons p pending ih =>
    intro fuel buf d rest hb hs hf
    obtain ⟨f, rfl⟩ : ∃ f, fuel = f + 1 := ⟨fuel - 1, by simp at hf; omega⟩
    simp only [pendingAnswers, List.cons_append] at hs
    have ha : self.IsDataAvailable d =
        ⟨Result.ok true, d.advance (Call.sysIoctlFionread self.mFileDescriptor)⟩ := by
      simp [SerialPortImpl.IsDataAvailable, SerialPortImpl.IsDataAvailableBody, hopen,
        ioctlFionread, Device.answer, hs, throwSpec]
    have hs1 : (d.advance (Call.sysIoctlFionread self.mFileDescriptor)).script =
        Answer.success :: Answer.success :: Answer.byte p :: (pendingAnswers pending ++ rest) := by
      simp [Device.advance, hs]
    have hrb := ReadByte_served self ms _ p _ hopen hs1
    have hp : toByte p = p := by
      have := hb p (by simp)
      simp only [toByte]
      omega
    have hs2 : ((d.advance (Call.sysIoctlFionread self.mFileDescriptor)).afterByte
        self.mFileDescriptor ms).script = pendingAnswers pending ++ rest := by
      simp [Device.afterByte, hs1]
    have hi := ih f (buf ++ [p]) _ rest (fun b hmem => hb b (by simp [hmem])) hs2
      (by simp at hf; omega)
    simp only [SerialPortImpl.drainLoop, ha, hrb, hp, hi, Device.afterDrain]
    simp

/-- The drain consumes the answers of the waiting bytes and no more. -/
theorem afterDrain_script (fd : Int) (ms : Nat) (pending : List Nat) :
    ∀ (d : Device) (rest : List Answer), d.script = pendingAnswers pending ++ rest →
      (Device.afterDrain fd ms pending d).script = rest := by
  induction pending with
  | nil => intro d rest hs; simp [Device.afterDrain, Device.advance, hs, pendingAnswers]
  | cons p pending ih =>
    intro d rest hs
    simp only [Device.afterDrain]
    apply ih
    simp [Device.afterByte, Device.advance, hs, pendingAnswers]

/-- The drain makes one `read` for each waiting byte, and four calls for each
waiting byte and one more in all. -/
theorem afterDrain_calls (fd : Int) (ms : Nat) (pending : List Nat) :
    ∀ (d : Device),
      (Device.afterDrain fd ms pending d).calls.count (Call.sysRead fd)
        = d.calls.count (Call.sysRead fd) + pending.length ∧
      (Device.afterDrain fd ms pending d).calls.length
        = d.calls.length + 4 * pending.length + 1 := by
  induction pending with
  | nil => intro d; simp [Device.afterDrain, Device.advance, List.count_append]
  | cons p pending ih =>
    intro d
    simp only [Device.afterDrain]
    have h := ih ((d.advance (Call.sysIoctlFionread fd)).afterByte fd ms)
    rw [h.1, h.2]
    simp [Device.afterByte, Device.advance, List.count_append, List.count_cons]
    omega

/-- An `IsDataAvailable` that returns has consumed an answer of the device. -/
theorem IsDataAvailable_script_length (self : SerialPortImpl) (d : Device) (v : Bool)
    (h : (self.IsDataAvailable d).result = Result.ok v) :
    (self.IsDataAvailable d).dev.script.length + 1 ≤ d.script.length := by
  obtain ⟨attrs, acq, calls, script⟩ := d
  by_cases hopen : self.IsOpen = true
  · rcases script with _ | ⟨a0, rest⟩
    · simp [SerialPortImpl.IsDataAvailable, SerialPortImpl.IsDataAvailableBody, hopen,
        ioctlFionread, Device.answer, Answer.failure, throwSpec] at h
    · by_cases h0 : a0.ret < 0 <;>
      simp [SerialPortImpl.IsDataAvailable, SerialPortImpl.IsDataAvailableBody, hopen,
        ioctlFionread, Device.answer, Device.advance, throwSpec, h0]
  · have hclosed : self.IsOpen = false := by simpa using hopen
    simp [SerialPortImpl.IsDataAvailable, SerialPortImpl.IsDataAvailableBody, hclosed,
      throwSpec] at h

/-- The loop of the drain gives the same outcome for every fuel above the
number of answers the device has left: the case of no fuel is not reached. -/
theorem drainLoop_fuel (self : SerialPortImpl) (ms : Nat) (f1 : Nat) :
    ∀ (f2 : Nat) (buf : DataBuffer) (d : Device),
      d.script.length < f1 → d.script.length < f2 →
      SerialPortImpl.drainLoop self ms f1 buf d = SerialPortImpl.drainLoop self ms f2 buf d := by
  induction f1 with
  | zero => intro f2 buf d h1 _; omega
  | succ a ih =>
    intro f2 buf d h1 h2
    obtain ⟨b, rfl⟩ : ∃ b, f2 = b + 1 := ⟨f2 - 1, by omega⟩
    simp only [SerialPortImpl.drainLoop]
    cases hres : (self.IsDataAvailable d).result with
    | raise e => rfl
    | terminate => rfl
    | ok v =>
      have hl := IsDataAvailable_script_length self d v hres
      cases v with
      | false => rfl
      | true =>
        simp only
        cases hrb : (self.ReadByte ms (self.IsDataAvailable d).dev).result with
        | raise e => rfl
        | terminate => rfl
        | ok byte =>
          simp only
          have hl2 := (ReadByte_script_length self ms (self.IsDataAvailable d).dev).1
          exact ih b _ _ (by omega) (by omega)

/-- The loop of `ReadLine` gives the same outcome for every fuel above the
number of answers the device has left: the case of no fuel is not reached. -/
theorem readLineLoop_fuel (port : SerialPort) (ms t : Nat) (f1 : Nat) :
    ∀ (f2 : Nat) (acc : List Nat) (d : Device),
      d.script.length < f1 → d.script.length < f2 →
      SerialPort.readLineLoop port ms t f1 acc d = SerialPort.readLineLoop port ms t f2 acc d := by
  induction f1 with
  | zero => intro f2 acc d h1 _; omega
  | succ a ih =>
    intro f2 acc d h1 h2
    obtain ⟨b, rfl⟩ : ∃ b, f2 = b + 1 := ⟨f2 - 1, by omega⟩
    simp only [SerialPort.readLineLoop]
    cases hres : (port.ReadByte ms d).result with
    | raise e => rfl
    | terminate => rfl
    | ok byte =>
      simp only
      have hl := (ReadByte_script_length port.mSerialPortImpl ms d).2 byte
        (facade_ReadByte_ok port ms d byte hres)
      have hdev : (port.ReadByte ms d).dev = (port.mSerialPortImpl.ReadByte ms d).dev := rfl
      by_cases hne : byte ≠ toByte t
      · simp only [hne, ne_eq, not_false_eq_true, if_true]
        exact ih b _ _ (by rw [hdev]; omega) (by rw [hdev]; omega)
      · simp only [hne, if_false]

/-- The loop of `Read` adds calls of `read` to the trace and no other call. -/
theorem readLoop_calls (fd : Int) (n : Nat) :
    ∀ (buf : DataBuffer) (d : Device),
      ∃ k, (SerialPortImpl.readLoop fd n buf d).2.2.calls
        = d.calls ++ List.replicate k (Call.sysRead fd) := by
  induction n with
  | zero => intro buf d; exact ⟨0, by simp [SerialPortImpl.readLoop]⟩
  | succ n ih =>
    intro buf d
    by_cases h1 : (1 : Int) = (readRetry fd d).1
    · obtain ⟨k, hk⟩ := ih (buf ++ [(readRetry fd d).2.1]) (readRetry fd d).2.2
      refine ⟨(readRetryScript d.script).2.2.2 + k, ?_⟩
      simp only [SerialPortImpl.readLoop, h1, if_true, hk]
      simp only [readRetry, List.replicate_add, List.append_assoc]
    · refine ⟨(readRetryScript d.script).2.2.2, ?_⟩
      simp only [SerialPortImpl.readLoop, h1, if_false]
      simp only [readRetry]

/-- On an open port, for a count above zero and a device that accepts the
attribute read and write, the calls of `Read` are a `tcgetattr`, a `tcsetattr`
of the attribute block with the timing entries of `readTiming`, and then
calls of `read` only. -/
theorem Read_writes_readTiming (self : SerialPortImpl) (buf : DataBuffer) (n ms : Nat)
    (d : Device) (hopen : self.IsOpen = true) (hn : 0 < n)
    (h0 : 0 ≤ (d.script.getD 0 Answer.failure).ret)
    (h1 : 0 ≤ (d.script.getD 1 Answer.failure).ret) :
    ∃ k, (self.Read buf n ms d).dev.calls
      = d.calls ++ [Call.sysTcgetattr self.mFileDescriptor,
          Call.sysTcsetattr self.mFileDescriptor (readTiming ms n d.attrs)]
        ++ List.replicate k (Call.sysRead self.mFileDescriptor) := by
  rw [Read_of_open_nonzero self buf n ms d hopen hn]
  simp only
  have ht : (if 0 = ms then self.SetReadTimeout 0 n d else self.SetReadTimeout ms 0 d)
      = ⟨Result.ok (), d.afterRewrite self.mFileDescriptor (readTiming ms n d.attrs)⟩ := by
    by_cases hms : 0 = ms
    · subst hms
      simp [SetReadTimeout_accepted self 0 n d h0 h1, readTiming]
    · simp [hms, SetReadTimeout_accepted self ms 0 d h0 h1, readTiming]
  obtain ⟨k, hk⟩ := readLoop_calls self.mFileDescriptor n buf
    (d.afterRewrite self.mFileDescriptor (readTiming ms n d.attrs))
  refine ⟨k, ?_⟩
  have hdev : (self.ReadElse buf n ms d).dev = (SerialPortImpl.readLoop self.mFileDescriptor n buf
      (d.afterRewrite self.mFileDescriptor (readTiming ms n d.attrs))).2.2 := by
    simp only [SerialPortImpl.ReadElse, ht]
    split_ifs <;> rfl
  rw [hdev, hk]
  simp [Device.afterRewrite]

/-- The timing entries `Read` writes are those of the spec when the count and
the timeout in deciseconds fit in a `cc_t`. -/
theorem readTiming_eq_specTiming (ms n : Nat) (t : Termios) (hn : n < 256)
    (hms : ms / 100 < 256) :
    ((readTiming ms n t).c_cc_VMIN, (readTiming ms n t).c_cc_VTIME) = specTiming ms n := by
  by_cases h : 0 = ms
  · subst h
    simp [readTiming, specTiming, toByte, Nat.mod_eq_of_lt hn]
  · have h2 : ¬ ms = 0 := fun e => h e.symm
    simp [readTiming, specTiming, toByte, h, h2, Nat.mod_eq_of_lt hms]

/-! ## Claims C11 to C20 -/

/-- Claim C11, evaluated on the code at two failing inputs.  On an open port
whose device accepts the attribute read and write, `Read( buffer, 256, 0 )`
writes minimum-bytes 0 where the claim gives 256, and `Read( buffer, 1, 25600 )`
writes a timeout of 0 deciseconds where the claim gives 256: the entries of
`c_cc` are of type `cc_t` and the values are stored modulo 256.  With
minimum-bytes 0 and timeout 0 a read returns at once, so the call that was to
block until 256 bytes are there throws `ReadTimeout` when no byte is waiting. -/
theorem C11_timing_fields_stored_modulo_256 :
    specTiming 0 256 = (256, 0) ∧
    (exampleOpenImpl.Read [] 256 0
        (exampleDevice [Answer.success, Answer.success, Answer.timeout])).dev.calls.take 2
      = [Call.sysTcgetattr 3,
         Call.sysTcsetattr 3 { exampleAttrs with c_cc_VMIN := 0, c_cc_VTIME := 0 }] ∧
    (exampleOpenImpl.Read [] 256 0
        (exampleDevice [Answer.success, Answer.success, Answer.timeout])).result
      = Result.raise Exn.ReadTimeout ∧
    specTiming 25600 1 = (0, 256) ∧
    (exampleOpenImpl.Read [] 1 25600
        (exampleDevice [Answer.success, Answer.success, Answer.timeout])).dev.calls.take 2
      = [Call.sysTcgetattr 3,
         Call.sysTcsetattr 3 { exampleAttrs with c_cc_VMIN := 0, c_cc_VTIME := 0 }] := by
  decide

/-- Claim C12, evaluated on the code at a failing input.  On an open port
`Write` of an empty string calls `write` on the device with no bytes, where
the claim promises no call on the device surface, and when the device answers
that call with a hard error `Write` throws `std::runtime_error`, where the
claim promises a successful return.  `Write` of an empty byte vector returns
before any call: the test `0 == dataBuffer.size()` is in that overload only. -/
theorem C12_empty_string_is_written :
    (exampleOpenPort.WriteString [] (exampleDevice [Answer.failure])).result
      = Result.raise Exn.runtime_error ∧
    (exampleOpenPort.WriteString [] (exampleDevice [Answer.failure])).dev.calls
      = [Call.sysWrite 3 []] ∧
    (exampleOpenPort.WriteString [] (exampleDevice [Answer.success])).dev.calls
      = [Call.sysWrite 3 []] ∧
    exampleOpenPort.Write [] (exampleDevice [Answer.failure])
      = ⟨Result.ok (), exampleDevice [Answer.failure]⟩ := by
  decide

/-- Claim C13: on an open port and for a buffer that is not empty, `Write`
issues the `write` of the whole buffer once for every would-block answer at
the head of the answers of the device and once more, and the first answer
that is not a would-block answer decides the outcome: a negative value gives
`std::runtime_error`, every other value, whatever the count of bytes it
reports, gives a successful return.  No other call is made.  This holds for
the byte vector, the string and the single byte. -/
theorem C13_write_retries_whole_buffer (port : SerialPort) (data : List Nat) (b : Nat)
    (d : Device) (hopen : port.IsOpen = true) (hdata : data ≠ []) :
    port.Write data d =
      ⟨if (firstOtherAnswer d.script).ret < 0 then Result.raise Exn.runtime_error
        else Result.ok (), d.afterWrites port.mSerialPortImpl.mFileDescriptor data⟩ ∧
    port.WriteString data d =
      ⟨if (firstOtherAnswer d.script).ret < 0 then Result.raise Exn.runtime_error
        else Result.ok (), d.afterWrites port.mSerialPortImpl.mFileDescriptor data⟩ ∧
    port.WriteByte b d =
      ⟨if (firstOtherAnswer d.script).ret < 0 then Result.raise Exn.runtime_error
        else Result.ok (), d.afterWrites port.mSerialPortImpl.mFileDescriptor [b]⟩ ∧
    (d.afterWrites port.mSerialPortImpl.mFileDescriptor data).calls =
      d.calls ++ List.replicate (wouldBlockRun d.script + 1)
        (Call.sysWrite port.mSerialPortImpl.mFileDescriptor data) := by
  obtain ⟨impl⟩ := port
  have hopen2 : impl.IsOpen = true := hopen
  have hlen : ¬ (0 = data.length) := by
    cases data with
    | nil => exact absurd rfl hdata
    | cons x xs => simp
  have hw := WriteBytes_of_open impl data d hopen2
  have hw1 := WriteBytes_of_open impl [b] d hopen2
  refine ⟨?_, ?_, ?_, rfl⟩
  · by_cases h : (firstOtherAnswer d.script).ret < 0 <;>
      simp [SerialPort.Write, SerialPortImpl.Write, SerialPortImpl.WriteBody, hopen2, hlen, hw, h,
        throwSpec]
  · by_cases h : (firstOtherAnswer d.script).ret < 0 <;>
      simp [SerialPort.WriteString, hw, h, throwSpec]
  · by_cases h : (firstOtherAnswer d.script).ret < 0 <;>
      simp [SerialPort.WriteByte, SerialPortImpl.WriteByte, SerialPortImpl.WriteByteBody, hopen2,
        hw1, h, throwSpec]

/-- Witness of C13: four bytes are written; the device answers would-block
twice and then accepts two of the four bytes.  `Write` returns after three
calls of `write` for the whole buffer. -/
theorem C13_write_witness :
    exampleOpenPort.IsOpen = true ∧ [0x70, 0x69, 0x6E, 0x67] ≠ ([] : List Nat) ∧
    exampleOpenPort.Write [0x70, 0x69, 0x6E, 0x67]
        (exampleDevice [Answer.wouldBlock, Answer.wouldBlock, ⟨2, false, 0⟩, Answer.success])
      = ⟨Result.ok (),
          { exampleDevice [Answer.success] with
            calls := [Call.sysWrite 3 [0x70, 0x69, 0x6E, 0x67],
              Call.sysWrite 3 [0x70, 0x69, 0x6E, 0x67],
              Call.sysWrite 3 [0x70, 0x69, 0x6E, 0x67]] }⟩ :=
  ⟨rfl, by decide,
    (C13_write_retries_whole_buffer exampleOpenPort [0x70, 0x69, 0x6E, 0x67] 0
      (exampleDevice [Answer.wouldBlock, Answer.wouldBlock, ⟨2, false, 0⟩, Answer.success])
      rfl (by decide)).1.trans (by decide)⟩

/-- Claim C14: on an open port whose device accepts the attribute reads and
the attribute write, `SetParity( p )` with `p` one of None, Odd and Even
returns and a following `GetParity()` returns `p`, whatever the control flags
were before; and `GetParity` on any device that answers returns Odd when the
enable bit and the odd bit are set, Even when the enable bit is set and the
odd bit is clear, None when the enable bit is clear. -/
theorem C14_parity_round_trip (port : SerialPort) (d : Device) (p : Parity)
    (hopen : port.IsOpen = true)
    (hp : p = Parity.PARITY_NONE ∨ p = Parity.PARITY_ODD ∨ p = Parity.PARITY_EVEN)
    (h0 : 0 ≤ (d.script.getD 0 Answer.failure).ret)
    (h1 : 0 ≤ (d.script.getD 1 Answer.failure).ret)
    (h2 : 0 ≤ (d.script.getD 2 Answer.failure).ret) :
    (port.SetParity p d).result = Result.ok () ∧
    (port.GetParity (port.SetParity p d).dev).result = Result.ok p ∧
    (∀ e : Device, 0 ≤ e.answer.ret →
      (e.attrs.c_cflag &&& PARENB ≠ 0 → e.attrs.c_cflag &&& PARODD ≠ 0 →
        (port.GetParity e).result = Result.ok Parity.PARITY_ODD) ∧
      (e.attrs.c_cflag &&& PARENB ≠ 0 → e.attrs.c_cflag &&& PARODD = 0 →
        (port.GetParity e).result = Result.ok Parity.PARITY_EVEN) ∧
      (e.attrs.c_cflag &&& PARENB = 0 →
        (port.GetParity e).result = Result.ok Parity.PARITY_NONE)) := by
  obtain ⟨impl⟩ := port
  have hopen2 : impl.IsOpen = true := hopen
  have hp2 : ∀ r, p ≠ Parity.other r := by
    intro r hr
    rcases hp with h | h | h <;> rw [h] at hr <;> cases hr
  have hset := SetParity_accepted impl d p hopen2 hp2 h0 h1
  refine ⟨?_, ?_, ?_⟩
  · simp [SerialPort.SetParity, hset, throwSpec]
  · have hget := GetParity_answered impl
      (d.afterRewrite impl.mFileDescriptor { d.attrs with c_cflag := withParity p d.attrs.c_cflag })
      hopen2 (by rw [afterRewrite_answer]; exact h2)
    simp only [SerialPort.SetParity, SerialPort.GetParity, hset, hget, throwSpec]
    simp only [Device.afterRewrite]
    rw [parityOf_withParity p _ hp2]
  · intro e he
    have hget := GetParity_answered impl e hopen2 he
    refine ⟨?_, ?_, ?_⟩
    · intro ha hb
      simp [SerialPort.GetParity, hget, throwSpec, parityOf, ha, hb]
    · intro ha hb
      simp [SerialPort.GetParity, hget, throwSpec, parityOf, ha, hb]
    · intro ha
      simp [SerialPort.GetParity, hget, throwSpec, parityOf, ha]

/-- Witness of C14: even parity is set on a device whose control flags have
the odd bit set (`CS8 | CREAD | CLOCAL | PARODD`). -/
theorem C14_parity_witness :
    exampleOpenPort.IsOpen = true ∧
    (exampleOpenPort.GetParity (exampleOpenPort.SetParity Parity.PARITY_EVEN
        { exampleDevice [Answer.success, Answer.success, Answer.success] with
          attrs := { exampleAttrs with c_cflag := 0xAB0 } }).dev).result
      = Result.ok Parity.PARITY_EVEN :=
  ⟨rfl, (C14_parity_round_trip exampleOpenPort
    { exampleDevice [Answer.success, Answer.success, Answer.success] with
      attrs := { exampleAttrs with c_cflag := 0xAB0 } }
    Parity.PARITY_EVEN rfl (Or.inr (Or.inr rfl)) (by decide) (by decide) (by decide)).2.1⟩

/-- Claim C15: on an open port whose device accepts the attribute reads and
the attribute write, `SetCharSize( c )` with `c` one of the encodings of 5, 6,
7 and 8 bits returns and a following `GetCharSize()` returns `c`, whatever the
control flags were before. -/
theorem C15_char_size_round_trip (port : SerialPort) (d : Device) (c : CharacterSize)
    (hopen : port.IsOpen = true)
    (hc : c = CHAR_SIZE_5 ∨ c = CHAR_SIZE_6 ∨ c = CHAR_SIZE_7 ∨ c = CHAR_SIZE_8)
    (h0 : 0 ≤ (d.script.getD 0 Answer.failure).ret)
    (h1 : 0 ≤ (d.script.getD 1 Answer.failure).ret)
    (h2 : 0 ≤ (d.script.getD 2 Answer.failure).ret) :
    (port.SetCharSize c d).result = Result.ok () ∧
    (port.GetCharSize (port.SetCharSize c d).dev).result = Result.ok c := by
  obtain ⟨impl⟩ := port
  have hopen2 : impl.IsOpen = true := hopen
  have hcs : toTcflag c &&& CSIZE = c := by
    rcases hc with h | h | h | h <;> rw [h] <;> decide
  have hset := SetCharSize_accepted impl d c hopen2 h0 h1
  refine ⟨?_, ?_⟩
  · simp [SerialPort.SetCharSize, hset, throwSpec]
  · have hget := GetCharSize_answered impl
      (d.afterRewrite impl.mFileDescriptor
        { d.attrs with c_cflag := withCharSize c d.attrs.c_cflag })
      hopen2 (by rw [afterRewrite_answer]; exact h2)
    simp only [SerialPort.SetCharSize, SerialPort.GetCharSize, hset, hget, throwSpec]
    simp only [Device.afterRewrite]
    rw [charSize_withCharSize c _ hcs]

/-- Witness of C15: seven bits are set on a device whose size field holds the
encoding of eight bits. -/
theorem C15_char_size_witness :
    exampleOpenPort.IsOpen = true ∧
    (exampleOpenPort.GetCharSize (exampleOpenPort.SetCharSize CHAR_SIZE_7
        (exampleDevice [Answer.success, Answer.success, Answer.success])).dev).result
      = Result.ok CHAR_SIZE_7 :=
  ⟨rfl, (C15_char_size_round_trip exampleOpenPort
    (exampleDevice [Answer.success, Answer.success, Answer.success]) CHAR_SIZE_7 rfl
    (Or.inr (Or.inr (Or.inl rfl))) (by decide) (by decide) (by decide)).2⟩

/-- Claim C16: on an open port whose device accepts the attribute reads and
the attribute write, `SetNumOfStopBits( s )` with `s` One or Two returns and a
following `GetNumOfStopBits()` returns `s`, and `SetFlowControl( f )` with `f`
None or Hardware returns and a following `GetFlowControl()` returns `f`,
whatever the control flags were before. -/
theorem C16_stop_bits_and_flow_control_round_trip (port : SerialPort) (d : Device)
    (s : StopBits) (f : FlowControl) (hopen : port.IsOpen = true)
    (hs : s = StopBits.STOP_BITS_1 ∨ s = StopBits.STOP_BITS_2)
    (hf : f = FlowControl.FLOW_CONTROL_NONE ∨ f = FlowControl.FLOW_CONTROL_HARD)
    (h0 : 0 ≤ (d.script.getD 0 Answer.failure).ret)
    (h1 : 0 ≤ (d.script.getD 1 Answer.failure).ret)
    (h2 : 0 ≤ (d.script.getD 2 Answer.failure).ret) :
    (port.SetNumOfStopBits s d).result = Result.ok () ∧
    (port.GetNumOfStopBits (port.SetNumOfStopBits s d).dev).result = Result.ok s ∧
    (port.SetFlowControl f d).result = Result.ok () ∧
    (port.GetFlowControl (port.SetFlowControl f d).dev).result = Result.ok f := by
  obtain ⟨impl⟩ := port
  have hopen2 : impl.IsOpen = true := hopen
  have hs2 : ∀ r, s ≠ StopBits.other r := by
    intro r hr
    rcases hs with h | h <;> rw [h] at hr <;> cases hr
  have hf2 : ∀ r, f ≠ FlowControl.other r := by
    intro r hr
    rcases hf with h | h <;> rw [h] at hr <;> cases hr
  have hsets := SetNumOfStopBits_accepted impl d s hopen2 hs2 h0 h1
  have hsetf := SetFlowControl_accepted impl d f hopen2 hf2 h0 h1
  refine ⟨?_, ?_, ?_, ?_⟩
  · simp [SerialPort.SetNumOfStopBits, hsets, throwSpec]
  · have hget := GetNumOfStopBits_answered impl
      (d.afterRewrite impl.mFileDescriptor
        { d.attrs with c_cflag := withStopBits s d.attrs.c_cflag })
      hopen2 (by rw [afterRewrite_answer]; exact h2)
    simp only [SerialPort.SetNumOfStopBits, SerialPort.GetNumOfStopBits, hsets, hget, throwSpec]
    simp only [Device.afterRewrite]
    rw [stopBitsOf_withStopBits s _ hs2]
  · simp [SerialPort.SetFlowControl, hsetf, throwSpec]
  · have hget := GetFlowControl_answered impl
      (d.afterRewrite impl.mFileDescriptor
        { d.attrs with c_cflag := withFlowControl f d.attrs.c_cflag })
      hopen2 (by rw [afterRewrite_answer]; exact h2)
    simp only [SerialPort.SetFlowControl, SerialPort.GetFlowControl, hsetf, hget, throwSpec]
    simp only [Device.afterRewrite]
    rw [flowControlOf_withFlowControl f _ hf2]

/-- Witness of C16: two stop bits and hardware flow control are set on a
device that has neither. -/
theorem C16_stop_bits_and_flow_control_witness :
    exampleOpenPort.IsOpen = true ∧
    (exampleOpenPort.GetNumOfStopBits (exampleOpenPort.SetNumOfStopBits StopBits.STOP_BITS_2
        (exampleDevice [Answer.success, Answer.success, Answer.success])).dev).result
      = Result.ok StopBits.STOP_BITS_2 ∧
    (exampleOpenPort.GetFlowControl (exampleOpenPort.SetFlowControl
        FlowControl.FLOW_CONTROL_HARD
        (exampleDevice [Answer.success, Answer.success, Answer.success])).dev).result
      = Result.ok FlowControl.FLOW_CONTROL_HARD :=
  ⟨rfl, (C16_stop_bits_and_flow_control_round_trip exampleOpenPort
      (exampleDevice [Answer.success, Answer.success, Answer.success]) StopBits.STOP_BITS_2
      FlowControl.FLOW_CONTROL_HARD rfl (Or.inr rfl) (Or.inr rfl) (by decide) (by decide)
      (by decide)).2.1,
    (C16_stop_bits_and_flow_control_round_trip exampleOpenPort
      (exampleDevice [Answer.success, Answer.success, Answer.success]) StopBits.STOP_BITS_2
      FlowControl.FLOW_CONTROL_HARD rfl (Or.inr rfl) (Or.inr rfl) (by decide) (by decide)
      (by decide)).2.2.2⟩

/-- Claim C17: on an open port whose device answers the attribute read, a
parity, a number of stop bits or a flow control outside the enumerated values
makes the setter throw `std::invalid_argument` after the `tcgetattr` and
before any `tcsetattr`: the one call in the trace is the read, and the
attribute block of the device is what it was. -/
theorem C17_setters_reject_other_values (port : SerialPort) (d : Device) (r1 r2 r3 : Nat)
    (hopen : port.IsOpen = true) (h0 : 0 ≤ d.answer.ret) :
    port.SetParity (Parity.other r1) d = ⟨Result.raise Exn.invalid_argument,
      d.advance (Call.sysTcgetattr port.mSerialPortImpl.mFileDescriptor)⟩ ∧
    port.SetNumOfStopBits (StopBits.other r2) d = ⟨Result.raise Exn.invalid_argument,
      d.advance (Call.sysTcgetattr port.mSerialPortImpl.mFileDescriptor)⟩ ∧
    port.SetFlowControl (FlowControl.other r3) d = ⟨Result.raise Exn.invalid_argument,
      d.advance (Call.sysTcgetattr port.mSerialPortImpl.mFileDescriptor)⟩ ∧
    (d.advance (Call.sysTcgetattr port.mSerialPortImpl.mFileDescriptor)).attrs = d.attrs ∧
    (d.advance (Call.sysTcgetattr port.mSerialPortImpl.mFileDescriptor)).calls
      = d.calls ++ [Call.sysTcgetattr port.mSerialPortImpl.mFileDescriptor] := by
  obtain ⟨impl⟩ := port
  have hopen2 : impl.IsOpen = true := hopen
  have h0' : ¬ d.answer.ret < 0 := by omega
  refine ⟨?_, ?_, ?_, rfl, rfl⟩
  · simp [SerialPort.SetParity, SerialPortImpl.SetParity, SerialPortImpl.SetParityBody, hopen2,
      tcgetattr, h0', throwSpec]
  · simp [SerialPort.SetNumOfStopBits, SerialPortImpl.SetNumOfStopBits,
      SerialPortImpl.SetNumOfStopBitsBody, hopen2, tcgetattr, h0', throwSpec]
  · simp [SerialPort.SetFlowControl, SerialPortImpl.SetFlowControl,
      SerialPortImpl.SetFlowControlBody, hopen2, tcgetattr, h0', throwSpec]

/-- Witness of C17: the values 7, 3 and 2 outside the three enumerations, on a
device that would accept a `tcsetattr`. -/
theorem C17_setters_reject_witness :
    exampleOpenPort.IsOpen = true ∧
    exampleOpenPort.SetParity (Parity.other 7) (exampleDevice [Answer.success, Answer.success])
      = ⟨Result.raise Exn.invalid_argument,
          (exampleDevice [Answer.success, Answer.success]).advance (Call.sysTcgetattr 3)⟩ :=
  ⟨rfl, (C17_setters_reject_other_values exampleOpenPort
    (exampleDevice [Answer.success, Answer.success]) 7 3 2 rfl (by decide)).1⟩

/-- Claim C18: on an open port, for a baud rate `r` (a value of `speed_t`)
that `cfsetispeed` and `cfsetospeed` both take and a device that accepts the
attribute write (which is made after an answered attribute read),
`SetBaudRate( r )` returns without an exception, the bits `CBAUD` of the
control flags of the device hold `r` and no other bit of the control flags
has changed; a following `GetBaudRate()` that the device answers returns `r`,
and one that the device does not answer throws `std::runtime_error`. -/
theorem C18_baud_rate_round_trip (port : SerialPort) (d : Device) (r : BaudRate)
    (hopen : port.IsOpen = true) (hr : r < 2 ^ 32)
    (hacc : (setBothSpeeds d.attrs r).isSome = true)
    (h0 : 0 ≤ (d.script.getD 0 Answer.failure).ret)
    (h1 : 0 ≤ (d.script.getD 1 Answer.failure).ret) :
    (port.SetBaudRate r d).result = Result.ok () ∧
    (port.SetBaudRate r d).dev.attrs.c_cflag
      = (d.attrs.c_cflag &&& tcflagNot (CBAUD ||| CBAUDEX)) ||| r ∧
    (port.SetBaudRate r d).dev.attrs.c_cflag &&& (CBAUD ||| CBAUDEX) = r ∧
    (0 ≤ (d.script.getD 2 Answer.failure).ret →
      (port.GetBaudRate (port.SetBaudRate r d).dev).result = Result.ok r) ∧
    ((d.script.getD 2 Answer.failure).ret < 0 →
      (port.GetBaudRate (port.SetBaudRate r d).dev).result = Result.raise Exn.runtime_error) := by
  obtain ⟨impl⟩ := port
  have hopen2 : impl.IsOpen = true := hopen
  have hspeed : toSpeed r = r := Nat.mod_eq_of_lt hr
  cases hb : setBothSpeeds d.attrs r with
  | none => rw [hb] at hacc; simp at hacc
  | some block =>
    have hblock := setBothSpeeds_block d.attrs block r hr hb
    have hset := SetBaudRate_accepted impl d r block hopen2 (by rw [hspeed]; exact hb) h0 h1
    have hget := GetBaudRate_answered impl (d.afterRewrite impl.mFileDescriptor block) hopen2
    rw [afterRewrite_answer] at hget
    have hattrs : (d.afterRewrite impl.mFileDescriptor block).attrs = block := rfl
    rw [hattrs, hblock.1] at hget
    refine ⟨?_, ?_, ?_, ?_, ?_⟩
    · simp [SerialPort.SetBaudRate, hset, throwSpec]
    · simp only [SerialPort.SetBaudRate, hset]
      exact hblock.2.1
    · simp only [SerialPort.SetBaudRate, hset]
      exact hblock.2.2.1
    · intro h2
      simp only [SerialPort.SetBaudRate, SerialPort.GetBaudRate, hset, hget.1 h2, throwSpec]
    · intro h2
      simp only [SerialPort.SetBaudRate, SerialPort.GetBaudRate, hset, hget.2 h2, throwSpec]
      simp

/-- Witness of C18: the rate 15 (`B38400` on Linux) on a device whose control
flags are 0x8B0: `tcsetattr` is handed the control flags 0x8BF, and the rate
read back is 15. -/
theorem C18_baud_rate_witness :
    exampleOpenPort.IsOpen = true ∧ (15 : BaudRate) < 2 ^ 32 ∧
    (setBothSpeeds (exampleDevice [Answer.success, Answer.success, Answer.success]).attrs
      15).isSome = true ∧
    (exampleOpenPort.SetBaudRate 15
      (exampleDevice [Answer.success, Answer.success, Answer.success])).result = Result.ok () ∧
    (exampleOpenPort.SetBaudRate 15
      (exampleDevice [Answer.success, Answer.success, Answer.success])).dev.attrs.c_cflag
      = 0x8BF ∧
    (exampleOpenPort.GetBaudRate (exampleOpenPort.SetBaudRate 15
      (exampleDevice [Answer.success, Answer.success, Answer.success])).dev).result
      = Result.ok 15 :=
  ⟨rfl, by decide, by decide,
    (C18_baud_rate_round_trip exampleOpenPort
      (exampleDevice [Answer.success, Answer.success, Answer.success])
      15 rfl (by decide) (by decide) (by decide) (by decide)).1,
    by decide,
    (C18_baud_rate_round_trip exampleOpenPort
      (exampleDevice [Answer.success, Answer.success, Answer.success])
      15 rfl (by decide) (by decide) (by decide) (by decide)).2.2.2.1 (by decide)⟩

/-- The answers of the waiting bytes are four for each byte and one more. -/
theorem pendingAnswers_length (pending : List Nat) :
    (pendingAnswers pending).length = 4 * pending.length + 1 := by
  induction pending with
  | nil => rfl
  | cons p rest ih => simp only [pendingAnswers, List.length_cons, ih]; omega

/-- Claim C19: when the successive calls of `ReadByte` on the device return
the bytes `pre` and then the terminator, no byte of `pre` being the
terminator, `ReadLine` returns exactly `pre` followed by the terminator, and
the device afterwards is the one those calls of `ReadByte` leave: as many
bytes are consumed as are returned.  (A call of `ReadByte` returns a byte on
an open port only.) -/
theorem C19_read_line_stops_at_terminator (port : SerialPort) (ms t : Nat) (pre : List Nat)
    (d d2 : Device)
    (hbytes : readBytes port ms (pre.length + 1) d = some (pre ++ [toByte t], d2))
    (hfirst : toByte t ∉ pre) :
    port.ReadLine ms t d = ⟨Result.ok (pre ++ [toByte t]), d2⟩ ∧
    (pre ++ [toByte t]).length = pre.length + 1 ∧
    (pre ++ [toByte t]).getLast? = some (toByte t) := by
  have hlen := (readBytes_length port ms (pre.length + 1) d _ d2 hbytes).2
  have hloop := readLineLoop_of_readBytes port ms t pre (d.script.length + 1) [] d d2 hbytes
    hfirst (by omega)
  refine ⟨?_, by simp, by simp⟩
  simp [SerialPort.ReadLine, hloop, throwSpec]

/-- Witness of C19: the device delivers `abc`, a line feed and then `d`;
`ReadLine` with the line feed as terminator returns the four first bytes and
leaves the three answers of the fifth byte on the device. -/
theorem C19_read_line_witness :
    exampleOpenPort.ReadLine 100 0x0A exampleLineDevice
      = ⟨Result.ok [0x61, 0x62, 0x63, 0x0A], exampleLineDeviceAfter⟩ ∧
    exampleLineDeviceAfter.script = [Answer.success, Answer.success, Answer.byte 0x64] :=
  ⟨(C19_read_line_stops_at_terminator exampleOpenPort 100 0x0A [0x61, 0x62, 0x63]
      exampleLineDevice exampleLineDeviceAfter (by decide) (by decide)).1, by decide⟩

/-- Claim C20: on an open port `Read( buffer, 0, timeout )` with an empty
buffer, on a device where the bytes `pending` are waiting and no more arrive,
returns without an exception with exactly those bytes in order, after one
`read` for each of them; the answers the device has after those of the
waiting bytes are left.  When no byte is waiting the one call made is the
`ioctl` that counts the waiting bytes: no `read` and no `tcsetattr`. -/
theorem C20_drain_returns_pending_bytes (port : SerialPort) (ms : Nat) (pending : List Nat)
    (rest : List Answer) (d : Device) (hopen : port.IsOpen = true)
    (hbytes : ∀ b ∈ pending, b < 256)
    (hs : d.script = pendingAnswers pending ++ rest) :
    port.Read [] 0 ms d = ⟨Result.ok (), pending,
      Device.afterDrain port.mSerialPortImpl.mFileDescriptor ms pending d⟩ ∧
    (port.Read [] 0 ms d).dev.script = rest ∧
    (port.Read [] 0 ms d).dev.calls.count (Call.sysRead port.mSerialPortImpl.mFileDescriptor)
      = d.calls.count (Call.sysRead port.mSerialPortImpl.mFileDescriptor) + pending.length ∧
    (port.Read [] 0 ms d).dev.calls.length = d.calls.length + 4 * pending.length + 1 ∧
    (pending = [] → (port.Read [] 0 ms d).dev
      = d.advance (Call.sysIoctlFionread port.mSerialPortImpl.mFileDescriptor)) := by
  obtain ⟨impl⟩ := port
  have hopen2 : impl.IsOpen = true := hopen
  have hfuel : pending.length < d.script.length + 1 := by
    rw [hs, List.length_append, pendingAnswers_length]
    omega
  have hloop := drainLoop_of_pending impl ms hopen2 pending (d.script.length + 1) [] d rest
    hbytes hs hfuel
  have hread : SerialPort.Read ⟨impl⟩ [] 0 ms d = ⟨Result.ok (), pending,
      Device.afterDrain impl.mFileDescriptor ms pending d⟩ := by
    simp [SerialPort.Read, SerialPortImpl.Read, SerialPortImpl.ReadBody, hopen2, hloop,
      throwSpec]
  rw [hread]
  refine ⟨rfl, afterDrain_script _ _ _ d rest hs, (afterDrain_calls _ _ pending d).1,
    (afterDrain_calls _ _ pending d).2, ?_⟩
  intro hp
  subst hp
  rfl

/-- Witness of C20: the bytes `abc` are waiting; the drain returns them and
leaves the answer that follows on the device. -/
theorem C20_drain_witness :
    exampleOpenPort.IsOpen = true ∧
    (exampleOpenPort.Read [] 0 100 exampleDrainDevice).result = Result.ok () ∧
    (exampleOpenPort.Read [] 0 100 exampleDrainDevice).dataBuffer = [0x61, 0x62, 0x63] ∧
    (exampleOpenPort.Read [] 0 100 exampleDrainDevice).dev.script = [Answer.byte 0x64] :=
  ⟨rfl,
    congrArg RetBuf.result (C20_drain_returns_pending_bytes exampleOpenPort 100
      [0x61, 0x62, 0x63] [Answer.byte 0x64] exampleDrainDevice rfl (by decide) rfl).1,
    congrArg RetBuf.dataBuffer (C20_drain_returns_pending_bytes exampleOpenPort 100
      [0x61, 0x62, 0x63] [Answer.byte 0x64] exampleDrainDevice rfl (by decide) rfl).1,
    (C20_drain_returns_pending_bytes exampleOpenPort 100
      [0x61, 0x62, 0x63] [Answer.byte 0x64] exampleDrainDevice rfl (by decide) rfl).2.1⟩

/-! ## Lemmas on the outcome of Read -/

/-- One more byte is asked for: the retry loop runs on the script, a value of
1 leaves the flag to the remaining reads, and another value sets the flag when
it is negative. -/
theorem readsFail_retry (n : Nat) (script : List Answer) :
    readsFail (n + 1) script =
      if (readRetryScript script).1 = 1 then readsFail n (readRetryScript script).2.2.1
      else decide ((readRetryScript script).1 < 0) := by
  induction script with
  | nil => simp [readsFail, readRetryScript, Answer.failure]
  | cons a rest ih =>
    by_cases h : a.ret < 0 ∧ a.eagain = true
    · simp only [readsFail, readRetryScript, h, and_self, if_true]
      exact ih
    · simp only [readsFail, readRetryScript, h, if_false]

/-- The flag `is_read_failed` with which the loop of `Read` is left. -/
theorem readLoop_flag (fd : Int) (n : Nat) :
    ∀ (buf : DataBuffer) (d : Device),
      (SerialPortImpl.readLoop fd n buf d).1 = readsFail n d.script := by
  induction n with
  | zero => intro buf d; simp [SerialPortImpl.readLoop, readsFail]
  | succ n ih =>
    intro buf d
    rw [readsFail_retry]
    by_cases h : (readRetryScript d.script).1 = 1
    · have h1 : (1 : Int) = (readRetry fd d).1 := by simp [readRetry, h]
      simp only [SerialPortImpl.readLoop, h1, if_true]
      rw [ih]
      simp [readRetry, h]
    · have h1 : ¬ (1 : Int) = (readRetry fd d).1 := by
        simp only [readRetry]; exact fun e => h e.symm
      simp only [SerialPortImpl.readLoop, h1, if_false, h]
      simp [readRetry]

/-- On an open port, for a count above zero and a device that accepts the
timeout adjustment, the outcome of `Read` is `readOutcome` on the answers that
follow the adjustment, and the buffer holds what it held followed by the bytes
delivered. -/
theorem Read_accepted (self : SerialPortImpl) (buf : DataBuffer) (n ms : Nat) (d : Device)
    (hopen : self.IsOpen = true) (hn : 0 < n)
    (h0 : 0 ≤ (d.script.getD 0 Answer.failure).ret)
    (h1 : 0 ≤ (d.script.getD 1 Answer.failure).ret) :
    (self.Read buf n ms d).result = readOutcome n buf (d.script.drop 2) ∧
    (self.Read buf n ms d).dataBuffer = buf ++ deliveredBytes n (d.script.drop 2) := by
  rw [Read_of_open_nonzero self buf n ms d hopen hn]
  simp only
  have hra : readAnswers d = d.script.drop 2 := by
    unfold readAnswers
    rw [if_pos ⟨h0, h1⟩]
  have hb := ReadElse_buffer self buf n ms d
  rw [hra] at hb
  refine ⟨?_, hb⟩
  have ht : (if 0 = ms then self.SetReadTimeout 0 n d else self.SetReadTimeout ms 0 d)
      = ⟨Result.ok (), d.afterRewrite self.mFileDescriptor (readTiming ms n d.attrs)⟩ := by
    by_cases hms : 0 = ms
    · subst hms
      simp [SetReadTimeout_accepted self 0 n d h0 h1, readTiming]
    · simp [hms, SetReadTimeout_accepted self ms 0 d h0 h1, readTiming]
  have hflag := readLoop_flag self.mFileDescriptor n buf
    (d.afterRewrite self.mFileDescriptor (readTiming ms n d.attrs))
  have hbuf := readLoop_buffer self.mFileDescriptor n buf
    (d.afterRewrite self.mFileDescriptor (readTiming ms n d.attrs))
  have hscript : (d.afterRewrite self.mFileDescriptor (readTiming ms n d.attrs)).script
      = d.script.drop 2 := rfl
  rw [hscript] at hflag hbuf
  simp only [SerialPortImpl.ReadElse, ht, hflag, hbuf, readOutcome]
  by_cases hf : readsFail n (d.script.drop 2) = true
  · simp [hf, throwSpec]
  · by_cases hl : buf.length + (deliveredBytes n (d.script.drop 2)).length < n
    · simp [hf, hl, throwSpec]
    · simp [hf, hl, throwSpec]

/-- The member `SetReadTimeout` throws `std::runtime_error` when its
`tcgetattr` fails and `std::invalid_argument` when its `tcsetattr` fails. -/
theorem SetReadTimeout_failed (self : SerialPortImpl) (ms nb : Nat) (d : Device) :
    ((d.script.getD 0 Answer.failure).ret < 0 →
      (self.SetReadTimeout ms nb d).result = Result.raise Exn.runtime_error) ∧
    (0 ≤ (d.script.getD 0 Answer.failure).ret → (d.script.getD 1 Answer.failure).ret < 0 →
      (self.SetReadTimeout ms nb d).result = Result.raise Exn.invalid_argument) := by
  obtain ⟨attrs, acq, calls, script⟩ := d
  rcases script with _ | ⟨a0, _ | ⟨a1, rest⟩⟩
  · simp [SerialPortImpl.SetReadTimeout, SerialPortImpl.SetReadTimeoutBody, tcgetattr,
      Device.answer, Answer.failure, throwSpec]
  · by_cases h0 : a0.ret < 0
    · simp [SerialPortImpl.SetReadTimeout, SerialPortImpl.SetReadTimeoutBody, tcgetattr,
        Device.answer, throwSpec, h0]
    · simp [SerialPortImpl.SetReadTimeout, SerialPortImpl.SetReadTimeoutBody, tcgetattr,
        tcsetattr, Device.advance, Device.answer, Answer.failure, throwSpec, h0]
  · by_cases h0 : a0.ret < 0
    · simp [SerialPortImpl.SetReadTimeout, SerialPortImpl.SetReadTimeoutBody, tcgetattr,
        Device.answer, throwSpec, h0]
    · by_cases h1 : a1.ret < 0
      · simp [SerialPortImpl.SetReadTimeout, SerialPortImpl.SetReadTimeoutBody, tcgetattr,
          tcsetattr, Device.advance, Device.answer, throwSpec, h0, h1]
      · simp [SerialPortImpl.SetReadTimeout, SerialPortImpl.SetReadTimeoutBody, tcgetattr,
          tcsetattr, Device.advance, Device.answer, throwSpec, h0, h1]

/-- When `SetReadTimeout` throws, the counted branch of `Read` throws the same
exception and leaves the buffer as it was. -/
theorem ReadElse_of_raise (self : SerialPortImpl) (buf : DataBuffer) (n ms : Nat) (d : Device)
    (e : Exn) (h : ∀ a b, (self.SetReadTimeout a b d).result = Result.raise e) :
    (self.ReadElse buf n ms d).result = Result.raise e ∧
    (self.ReadElse buf n ms d).dataBuffer = buf := by
  have ht : ∀ t : Ret Unit, t.result = Result.raise e →
      (match t.result with
        | Result.raise e => (⟨Result.raise e, buf, t.dev⟩ : RetBuf)
        | Result.terminate => ⟨Result.terminate, buf, t.dev⟩
        | Result.ok _ =>
          let l := SerialPortImpl.readLoop self.mFileDescriptor n buf t.dev
          let is_read_failed := l.1
          if is_read_failed = true then ⟨Result.raise Exn.runtime_error, l.2.1, l.2.2⟩
          else if l.2.1.length < n then ⟨Result.raise Exn.ReadTimeout, l.2.1, l.2.2⟩
          else ⟨Result.ok (), l.2.1, l.2.2⟩) = ⟨Result.raise e, buf, t.dev⟩ := by
    intro t hr
    rw [hr]
  unfold SerialPortImpl.ReadElse
  by_cases hms : 0 = ms
  · simp only [hms, if_true]
    rw [ht _ (h _ _)]
    exact ⟨rfl, rfl⟩
  · simp only [hms, if_false]
    rw [ht _ (h _ _)]
    exact ⟨rfl, rfl⟩

/-- On an open port and for a count above zero, a `tcgetattr` of the timeout
adjustment that fails makes `Read` throw `std::runtime_error`, and a
`tcsetattr` that fails ends the process: `SetReadTimeout` throws
`std::invalid_argument`, which the exception specification of `Read` does not
list.  The buffer is left as it was. -/
theorem Read_not_accepted (self : SerialPortImpl) (buf : DataBuffer) (n ms : Nat) (d : Device)
    (hopen : self.IsOpen = true) (hn : 0 < n) :
    ((d.script.getD 0 Answer.failure).ret < 0 →
      (self.Read buf n ms d).result = Result.raise Exn.runtime_error ∧
      (self.Read buf n ms d).dataBuffer = buf) ∧
    (0 ≤ (d.script.getD 0 Answer.failure).ret → (d.script.getD 1 Answer.failure).ret < 0 →
      (self.Read buf n ms d).result = Result.terminate ∧
      (self.Read buf n ms d).dataBuffer = buf) := by
  rw [Read_of_open_nonzero self buf n ms d hopen hn]
  constructor
  · intro h0
    have h := ReadElse_of_raise self buf n ms d Exn.runtime_error
      (fun a b => (SetReadTimeout_failed self a b d).1 h0)
    simp [h.1, h.2, throwSpec]
  · intro h0 h1
    have h := ReadElse_of_raise self buf n ms d Exn.invalid_argument
      (fun a b => (SetReadTimeout_failed self a b d).2 h0 h1)
    simp [h.1, h.2, throwSpec]

/-- A would-block answer is one with a negative value and `EAGAIN`. -/
theorem isWouldBlock_iff (a : Answer) :
    a.isWouldBlock = true ↔ (a.ret < 0 ∧ a.eagain = true) := by
  simp [Answer.isWouldBlock]

/-- After would-block answers and fewer bytes than the count, a hard error
sets the flag `is_read_failed`. -/
theorem readsFail_of_hard_error (a : Answer) (rest : List Answer) (ha : a.ret < 0)
    (hna : a.eagain = false) (pre : List Answer) :
    ∀ n : Nat, (∀ x ∈ pre, x.isWouldBlock = true ∨ x.ret = 1) →
      pre.countP (fun x => decide (x.ret = 1)) < n →
      readsFail n (pre ++ a :: rest) = true := by
  induction pre with
  | nil =>
    intro n _ hc
    obtain ⟨m, rfl⟩ : ∃ m, n = m + 1 := ⟨n - 1, by simp at hc; omega⟩
    have h1 : ¬ (a.ret < 0 ∧ a.eagain = true) := by simp [hna]
    have h2 : ¬ a.ret = 1 := by omega
    rw [List.nil_append, readsFail, if_neg h1, if_neg h2]
    simp [ha]
  | cons x pre ih =>
    intro n hpre hc
    have hx := hpre x (by simp)
    have hpre2 : ∀ y ∈ pre, y.isWouldBlock = true ∨ y.ret = 1 :=
      fun y hy => hpre y (by simp [hy])
    obtain ⟨m, rfl⟩ : ∃ m, n = m + 1 := ⟨n - 1, by omega⟩
    rcases hx with hx | hx
    · have hwb := (isWouldBlock_iff x).1 hx
      have hne : ¬ x.ret = 1 := by omega
      have hc2 : pre.countP (fun x => decide (x.ret = 1)) < m + 1 := by
        simpa [List.countP_cons, hne] using hc
      simp only [List.cons_append, readsFail, hwb, and_self, if_true]
      exact ih (m + 1) hpre2 hc2
    · have hwb : ¬ (x.ret < 0 ∧ x.eagain = true) := by
        intro h; omega
      have hc2 : pre.countP (fun x => decide (x.ret = 1)) < m := by
        simp [List.countP_cons, hx] at hc
        omega
      simp only [List.cons_append, readsFail, hwb, if_false, hx, if_true]
      exact ih m hpre2 hc2

/-- The flag `is_read_failed` does not depend on the would-block answers. -/
theorem readsFail_withoutWouldBlock (script : List Answer) :
    ∀ n : Nat, readsFail n (withoutWouldBlock script) = readsFail n script := by
  induction script with
  | nil => intro n; rfl
  | cons a rest ih =>
    intro n
    cases n with
    | zero => simp [readsFail]
    | succ n =>
      by_cases h : a.ret < 0 ∧ a.eagain = true
      · have hw : a.isWouldBlock = true := (isWouldBlock_iff a).2 h
        simp only [withoutWouldBlock, List.filter, hw, Bool.not_true, readsFail, h, and_self,
          if_true]
        exact ih (n + 1)
      · have hw : a.isWouldBlock = false := by
          cases hb : a.isWouldBlock with
          | false => rfl
          | true => exact absurd ((isWouldBlock_iff a).1 hb) h
        simp only [withoutWouldBlock, List.filter, hw, Bool.not_false, readsFail, h, if_false]
        by_cases h1 : a.ret = 1
        · simp only [h1, if_true]
          exact ih n
        · simp only [h1, if_false]

/-- The bytes delivered do not depend on the would-block answers. -/
theorem deliveredBytes_withoutWouldBlock (script : List Answer) :
    ∀ n : Nat, deliveredBytes n (withoutWouldBlock script) = deliveredBytes n script := by
  induction script with
  | nil => intro n; rfl
  | cons a rest ih =>
    intro n
    cases n with
    | zero => simp [deliveredBytes]
    | succ n =>
      by_cases h : a.ret < 0 ∧ a.eagain = true
      · have hw : a.isWouldBlock = true := (isWouldBlock_iff a).2 h
        simp only [withoutWouldBlock, List.filter, hw, Bool.not_true, deliveredBytes, h,
          and_self, if_true]
        exact ih (n + 1)
      · have hw : a.isWouldBlock = false := by
          cases hb : a.isWouldBlock with
          | false => rfl
          | true => exact absurd ((isWouldBlock_iff a).1 hb) h
        simp only [withoutWouldBlock, List.filter, hw, Bool.not_false, deliveredBytes, h,
          if_false]
        by_cases h1 : a.ret = 1
        · simp only [h1, if_true]
          rw [← ih n]
          rfl
        · simp only [h1, if_false]

/-- For a count that is not zero `Read` is `ReadNonzero`. -/
theorem Read_eq_ReadNonzero (self : SerialPortImpl) (buf : DataBuffer) (n ms : Nat) (d : Device)
    (hn : n ≠ 0) : self.Read buf n ms d = self.ReadNonzero buf n ms d := by
  have h0 : ¬ (0 = n) := fun e => hn e.symm
  by_cases hopen : self.IsOpen = true
  · simp [SerialPortImpl.Read, SerialPortImpl.ReadBody, SerialPortImpl.ReadNonzero, hopen, h0]
  · have hclosed : self.IsOpen = false := by simpa using hopen
    simp [SerialPortImpl.Read, SerialPortImpl.ReadBody, SerialPortImpl.ReadNonzero, hclosed]

/-- The facade `Read` is the `Read` of the implementation: both have the same
exception specification. -/
theorem facade_Read_eq (port : SerialPort) (buf : DataBuffer) (n ms : Nat) (d : Device) :
    port.Read buf n ms d = port.mSerialPortImpl.Read buf n ms d := by
  simp only [SerialPort.Read, SerialPortImpl.Read]
  cases hr : (port.mSerialPortImpl.ReadBody buf n ms d).result with
  | ok u => simp [throwSpec]
  | terminate => simp [throwSpec]
  | raise e =>
    by_cases hm : e ∈ [Exn.NotOpen, Exn.ReadTimeout, Exn.runtime_error]
    · simp only [throwSpec, hm, if_true]
    · simp only [throwSpec, hm, if_false]

/-! ## Lemmas on Open and its setters -/

/-- A `SerialPortImpl::Open` that returns on a closed handle leaves the handle
open with a descriptor that is acquired on the device. -/
theorem Open_acquires (self : SerialPortImpl) (d : Device) (hclosed : self.IsOpen = false)
    (hok : (self.Open d).result = Result.ok ()) :
    (self.Open d).self.IsOpen = true ∧
    (self.Open d).self.mFileDescriptor ∈ (self.Open d).dev.acquired ∧
    (self.Open d).self.mOldPortSettings = d.attrs ∧
    (self.Open d).dev.attrs = SerialPortImpl.baseline d.attrs := by
  have hs := Open_steps self d hclosed
  by_cases hfail : ((d.script.getD 0 Answer.failure).ret < 0 ∨
      (d.script.getD 1 Answer.failure).ret < 0 ∨
      (d.script.getD 2 Answer.failure).ret < 0 ∨ (d.script.getD 3 Answer.failure).ret < 0)
  · have := (hs.1 hfail).1
    rw [this] at hok
    simp at hok
  · have h := hs.2 hfail
    refine ⟨h.2.1, ?_, h.2.2.1, h.2.2.2⟩
    obtain ⟨attrs, acq, calls, script⟩ := d
    simp only [SerialPortImpl.IsOpen] at hclosed
    rcases script with _ | ⟨a0, _ | ⟨a1, _ | ⟨a2, _ | ⟨a3, rest⟩⟩⟩⟩
    · simp [Answer.failure] at hfail
    · simp [Answer.failure] at hfail
    · simp [Answer.failure] at hfail
    · simp [Answer.failure] at hfail
    · simp at hfail
      obtain ⟨h0, h1, h2, h3⟩ := hfail
      have h0' : ¬ a0.ret < 0 := by omega
      have h1' : ¬ a1.ret < 0 := by omega
      have h2' : ¬ a2.ret < 0 := by omega
      have h3' : ¬ a3.ret < 0 := by omega
      simp [SerialPortImpl.Open, SerialPortImpl.OpenBody, SerialPortImpl.IsOpen, hclosed, sysOpen,
        tcgetattr, tcsetattr, fcntlSetown, Device.advance, Device.answer, throwSpec,
        h0', h1', h2', h3']

/-- Sequencing with a call that returns at once changes nothing. -/
theorem andThen_ok_id (r : Ret Unit) : (r.andThen fun d => ⟨Result.ok (), d⟩) = r := by
  obtain ⟨res, dev⟩ := r
  cases res <;> rfl

/-- The body of the five-argument `Open` runs the implementation `Open` and
then its five setters. -/
theorem OpenBody_eq_runSetters (port : SerialPort) (b : BaudRate) (c : CharacterSize)
    (p : Parity) (s : StopBits) (f : FlowControl) (d : Device) :
    port.OpenBody b c p s f d =
      ⟨(Ret.andThen ⟨(port.mSerialPortImpl.Open d).result, (port.mSerialPortImpl.Open d).dev⟩
          (runSetters (SerialPort.openSetters ⟨(port.mSerialPortImpl.Open d).self⟩
            b c p s f))).result,
        ⟨(port.mSerialPortImpl.Open d).self⟩,
        (Ret.andThen ⟨(port.mSerialPortImpl.Open d).result, (port.mSerialPortImpl.Open d).dev⟩
          (runSetters (SerialPort.openSetters ⟨(port.mSerialPortImpl.Open d).self⟩
            b c p s f))).dev⟩ := by
  simp only [SerialPort.OpenBody, SerialPort.openSetters, runSetters]
  have h : ∀ g : Device → Ret Unit,
      (fun d5 => (g d5).andThen fun d => ⟨Result.ok (), d⟩) = g := by
    intro g
    funext d5
    exact andThen_ok_id (g d5)
  rw [h]

/-- A sequence of calls whose first part returns and whose next call throws
ends with that exception on the device that call leaves. -/
theorem runSetters_failing (failing : Device → Ret Unit) (todo : List (Device → Ret Unit))
    (e : Exn) (done : List (Device → Ret Unit)) :
    ∀ d : Device, (runSetters done d).result = Result.ok () →
      (failing (runSetters done d).dev).result = Result.raise e →
      runSetters (done ++ failing :: todo) d
        = ⟨Result.raise e, (failing (runSetters done d).dev).dev⟩ := by
  induction done with
  | nil =>
    intro d _ hf
    simp only [runSetters] at hf
    simp only [List.nil_append, runSetters, Ret.andThen, hf]
  | cons g rest ih =>
    intro d hd hf
    simp only [runSetters, Ret.andThen] at hd hf
    cases hg : (g d).result with
    | raise x => rw [hg] at hd; simp at hd
    | terminate => rw [hg] at hd; simp at hd
    | ok u =>
      rw [hg] at hd hf
      simp only at hd hf
      simp only [List.cons_append, runSetters, Ret.andThen, hg]
      exact ih (g d).dev hd hf

/-- The frame of `SerialPort::SetBaudRate` on an open port: no descriptor is
acquired or released, the attribute block is rewritten only by a call that
returns, and the exceptions thrown are `UnsupportedBaudRate` and
`std::invalid_argument`. -/
theorem SetBaudRate_frame (port : SerialPort) (b : BaudRate) (d : Device)
    (hopen : port.IsOpen = true) :
    (port.SetBaudRate b d).dev.acquired = d.acquired ∧
    ((port.SetBaudRate b d).result ≠ Result.ok () → (port.SetBaudRate b d).dev.attrs = d.attrs) ∧
    (∀ e, (port.SetBaudRate b d).result = Result.raise e →
      e = Exn.UnsupportedBaudRate ∨ e = Exn.invalid_argument) := by
  obtain ⟨impl⟩ := port
  have hopen2 : impl.IsOpen = true := hopen
  obtain ⟨attrs, acq, calls, script⟩ := d
  cases hi : cfsetispeed attrs (toSpeed b) with
  | none =>
    rcases script with _ | ⟨a0, rest⟩
    · simp [SerialPort.SetBaudRate, SerialPortImpl.SetBaudRate, SerialPortImpl.SetBaudRateBody,
        hopen2, tcgetattr, Device.answer, Device.advance, Answer.failure, throwSpec]
    · by_cases h0 : a0.ret < 0 <;>
        simp [SerialPort.SetBaudRate, SerialPortImpl.SetBaudRate,
          SerialPortImpl.SetBaudRateBody, hopen2, tcgetattr, hi, Device.answer,
          Device.advance, throwSpec, h0]
  | some settings1 =>
    cases ho : cfsetospeed settings1 (toSpeed b) with
    | none =>
      rcases script with _ | ⟨a0, rest⟩
      · simp [SerialPort.SetBaudRate, SerialPortImpl.SetBaudRate, SerialPortImpl.SetBaudRateBody,
          hopen2, tcgetattr, Device.answer, Device.advance, Answer.failure, throwSpec]
      · by_cases h0 : a0.ret < 0 <;>
          simp [SerialPort.SetBaudRate, SerialPortImpl.SetBaudRate,
            SerialPortImpl.SetBaudRateBody, hopen2, tcgetattr, hi, ho, Device.answer,
            Device.advance, throwSpec, h0]
    | some settings2 =>
      rcases script with _ | ⟨a0, _ | ⟨a1, rest⟩⟩
      · simp [SerialPort.SetBaudRate, SerialPortImpl.SetBaudRate, SerialPortImpl.SetBaudRateBody,
          hopen2, tcgetattr, Device.answer, Device.advance, Answer.failure, throwSpec]
      · by_cases h0 : a0.ret < 0 <;>
          simp [SerialPort.SetBaudRate, SerialPortImpl.SetBaudRate,
            SerialPortImpl.SetBaudRateBody, hopen2, tcgetattr, tcsetattr, hi, ho,
            Device.answer, Device.advance, Answer.failure, throwSpec, h0]
      · by_cases h0 : a0.ret < 0 <;> by_cases h1 : a1.ret < 0 <;>
          simp [SerialPort.SetBaudRate, SerialPortImpl.SetBaudRate,
            SerialPortImpl.SetBaudRateBody, hopen2, tcgetattr, tcsetattr, hi, ho,
            Device.answer, Device.advance, Answer.failure, throwSpec, h0, h1]

/-- The frame of `SerialPort::SetCharSize` on an open port. -/
theorem SetCharSize_frame (port : SerialPort) (c : CharacterSize) (d : Device)
    (hopen : port.IsOpen = true) :
    (port.SetCharSize c d).dev.acquired = d.acquired ∧
    ((port.SetCharSize c d).result ≠ Result.ok () → (port.SetCharSize c d).dev.attrs = d.attrs) ∧
    (∀ e, (port.SetCharSize c d).result = Result.raise e →
      e = Exn.UnsupportedBaudRate ∨ e = Exn.invalid_argument) := by
  obtain ⟨impl⟩ := port
  have hopen2 : impl.IsOpen = true := hopen
  obtain ⟨attrs, acq, calls, script⟩ := d
  rcases script with _ | ⟨a0, _ | ⟨a1, rest⟩⟩
  all_goals first
    | (simp [SerialPort.SetCharSize, SerialPortImpl.SetCharSize, SerialPortImpl.SetCharSizeBody,
        hopen2, tcgetattr, tcsetattr, Device.answer, Device.advance,
        Answer.failure, throwSpec]; done)
    | (by_cases h0 : a0.ret < 0 <;>
        simp [SerialPort.SetCharSize, SerialPortImpl.SetCharSize,
          SerialPortImpl.SetCharSizeBody, hopen2, tcgetattr, tcsetattr,
          Device.answer, Device.advance, Answer.failure, throwSpec, h0]; done)
    | (by_cases h0 : a0.ret < 0 <;> by_cases h1 : a1.ret < 0 <;>
        simp [SerialPort.SetCharSize, SerialPortImpl.SetCharSize,
          SerialPortImpl.SetCharSizeBody, hopen2, tcgetattr, tcsetattr,
          Device.answer, Device.advance, Answer.failure, throwSpec, h0, h1])

/-- The frame of `SerialPort::SetParity` on an open port. -/
theorem SetParity_frame (port : SerialPort) (p : Parity) (d : Device)
    (hopen : port.IsOpen = true) :
    (port.SetParity p d).dev.acquired = d.acquired ∧
    ((port.SetParity p d).result ≠ Result.ok () → (port.SetParity p d).dev.attrs = d.attrs) ∧
    (∀ e, (port.SetParity p d).result = Result.raise e →
      e = Exn.UnsupportedBaudRate ∨ e = Exn.invalid_argument) := by
  obtain ⟨impl⟩ := port
  have hopen2 : impl.IsOpen = true := hopen
  obtain ⟨attrs, acq, calls, script⟩ := d
  cases p <;>
  rcases script with _ | ⟨a0, _ | ⟨a1, rest⟩⟩
  all_goals first
    | (simp [SerialPort.SetParity, SerialPortImpl.SetParity, SerialPortImpl.SetParityBody,
        hopen2, tcgetattr, tcsetattr, Device.answer, Device.advance,
        Answer.failure, throwSpec]; done)
    | (by_cases h0 : a0.ret < 0 <;>
        simp [SerialPort.SetParity, SerialPortImpl.SetParity,
          SerialPortImpl.SetParityBody, hopen2, tcgetattr, tcsetattr,
          Device.answer, Device.advance, Answer.failure, throwSpec, h0]; done)
    | (by_cases h0 : a0.ret < 0 <;> by_cases h1 : a1.ret < 0 <;>
        simp [SerialPort.SetParity, SerialPortImpl.SetParity,
          SerialPortImpl.SetParityBody, hopen2, tcgetattr, tcsetattr,
          Device.answer, Device.advance, Answer.failure, throwSpec, h0, h1])

/-- The frame of `SerialPort::SetNumOfStopBits` on an open port. -/
theorem SetNumOfStopBits_frame (port : SerialPort) (s : StopBits) (d : Device)
    (hopen : port.IsOpen = true) :
    (port.SetNumOfStopBits s d).dev.acquired = d.acquired ∧
    ((port.SetNumOfStopBits s d).result ≠ Result.ok () →
      (port.SetNumOfStopBits s d).dev.attrs = d.attrs) ∧
    (∀ e, (port.SetNumOfStopBits s d).result = Result.raise e →
      e = Exn.UnsupportedBaudRate ∨ e = Exn.invalid_argument) := by
  obtain ⟨impl⟩ := port
  have hopen2 : impl.IsOpen = true := hopen
  obtain ⟨attrs, acq, calls, script⟩ := d
  cases s <;>
  rcases script with _ | ⟨a0, _ | ⟨a1, rest⟩⟩
  all_goals first
    | (simp [SerialPort.SetNumOfStopBits, SerialPortImpl.SetNumOfStopBits,
        SerialPortImpl.SetNumOfStopBitsBody,
        hopen2, tcgetattr, tcsetattr, Device.answer, Device.advance,
        Answer.failure, throwSpec]; done)
    | (by_cases h0 : a0.ret < 0 <;>
        simp [SerialPort.SetNumOfStopBits, SerialPortImpl.SetNumOfStopBits,
          SerialPortImpl.SetNumOfStopBitsBody, hopen2, tcgetattr, tcsetattr,
          Device.answer, Device.advance, Answer.failure, throwSpec, h0]; done)
    | (by_cases h0 : a0.ret < 0 <;> by_cases h1 : a1.ret < 0 <;>
        simp [SerialPort.SetNumOfStopBits, SerialPortImpl.SetNumOfStopBits,
          SerialPortImpl.SetNumOfStopBitsBody, hopen2, tcgetattr, tcsetattr,
          Device.answer, Device.advance, Answer.failure, throwSpec, h0, h1])

/-- The frame of `SerialPort::SetFlowControl` on an open port. -/
theorem SetFlowControl_frame (port : SerialPort) (f : FlowControl) (d : Device)
    (hopen : port.IsOpen = true) :
    (port.SetFlowControl f d).dev.acquired = d.acquired ∧
    ((port.SetFlowControl f d).result ≠ Result.ok () →
      (port.SetFlowControl f d).dev.attrs = d.attrs) ∧
    (∀ e, (port.SetFlowControl f d).result = Result.raise e →
      e = Exn.UnsupportedBaudRate ∨ e = Exn.invalid_argument) := by
  obtain ⟨impl⟩ := port
  have hopen2 : impl.IsOpen = true := hopen
  obtain ⟨attrs, acq, calls, script⟩ := d
  cases f <;>
  rcases script with _ | ⟨a0, _ | ⟨a1, rest⟩⟩
  all_goals first
    | (simp [SerialPort.SetFlowControl, SerialPortImpl.SetFlowControl,
        SerialPortImpl.SetFlowControlBody,
        hopen2, tcgetattr, tcsetattr, Device.answer, Device.advance,
        Answer.failure, throwSpec]; done)
    | (by_cases h0 : a0.ret < 0 <;>
        simp [SerialPort.SetFlowControl, SerialPortImpl.SetFlowControl,
          SerialPortImpl.SetFlowControlBody, hopen2, tcgetattr, tcsetattr,
          Device.answer, Device.advance, Answer.failure, throwSpec, h0]; done)
    | (by_cases h0 : a0.ret < 0 <;> by_cases h1 : a1.ret < 0 <;>
        simp [SerialPort.SetFlowControl, SerialPortImpl.SetFlowControl,
          SerialPortImpl.SetFlowControlBody, hopen2, tcgetattr, tcsetattr,
          Device.answer, Device.advance, Answer.failure, throwSpec, h0, h1])

/-- The frame of each of the five setters that `Open` calls on an open port. -/
theorem openSetters_frame (port : SerialPort) (b : BaudRate) (c : CharacterSize) (p : Parity)
    (s : StopBits) (f : FlowControl) (hopen : port.IsOpen = true)
    (g : Device → Ret Unit) (hg : g ∈ port.openSetters b c p s f) (d : Device) :
    (g d).dev.acquired = d.acquired ∧
    ((g d).result ≠ Result.ok () → (g d).dev.attrs = d.attrs) ∧
    (∀ e, (g d).result = Result.raise e →
      e = Exn.UnsupportedBaudRate ∨ e = Exn.invalid_argument) := by
  simp only [SerialPort.openSetters, List.mem_cons, List.mem_singleton, List.not_mem_nil,
    or_false] at hg
  rcases hg with h | h | h | h | h <;> subst h
  · exact SetBaudRate_frame port b d hopen
  · exact SetCharSize_frame port c d hopen
  · exact SetParity_frame port p d hopen
  · exact SetNumOfStopBits_frame port s d hopen
  · exact SetFlowControl_frame port f d hopen

/-- A sequence of calls that acquire and release no descriptor acquires and
releases none. -/
theorem runSetters_acquired (gs : List (Device → Ret Unit)) :
    (∀ g ∈ gs, ∀ d : Device, (g d).dev.acquired = d.acquired) →
    ∀ d : Device, (runSetters gs d).dev.acquired = d.acquired := by
  induction gs with
  | nil => intro _ d; rfl
  | cons g rest ih =>
    intro h d
    have hg := h g (by simp) d
    have hrest := ih (fun g2 hg2 => h g2 (by simp [hg2]))
    simp only [runSetters, Ret.andThen]
    cases hr : (g d).result with
    | ok u => simp only; rw [hrest, hg]
    | raise e => exact hg
    | terminate => exact hg

/-! ## Lemmas on the bits of the control flags -/

/-- The bits of the complement of a `tcflag_t`. -/
theorem testBit_tcflagNot (m i : Nat) :
    (tcflagNot m).testBit i = (decide (i < 32) && !m.testBit i) := by
  have h : (0xFFFFFFFF : Nat) = 2 ^ 32 - 1 := by decide
  unfold tcflagNot
  rw [h, Nat.testBit_xor, Nat.testBit_two_pow_sub_one, Nat.testBit_mod_two_pow]
  cases decide (i < 32) <;> cases m.testBit i <;> rfl

/-- The one bit of `PARENB`. -/
theorem testBit_PARENB (i : Nat) : PARENB.testBit i = decide (8 = i) := by
  have h : PARENB = 2 ^ 8 := by decide
  rw [h, Nat.testBit_two_pow]

/-- The one bit of `PARODD`. -/
theorem testBit_PARODD (i : Nat) : PARODD.testBit i = decide (9 = i) := by
  have h : PARODD = 2 ^ 9 := by decide
  rw [h, Nat.testBit_two_pow]

/-- The one bit of `CSTOPB`. -/
theorem testBit_CSTOPB (i : Nat) : CSTOPB.testBit i = decide (6 = i) := by
  have h : CSTOPB = 2 ^ 6 := by decide
  rw [h, Nat.testBit_two_pow]

/-- The one bit of `CRTSCTS`. -/
theorem testBit_CRTSCTS (i : Nat) : CRTSCTS.testBit i = decide (31 = i) := by
  have h : CRTSCTS = 2 ^ 31 := by decide
  rw [h, Nat.testBit_two_pow]

/-- The two bits of `CSIZE`. -/
theorem testBit_CSIZE (i : Nat) : CSIZE.testBit i = (decide (4 = i) || decide (5 = i)) := by
  have h : CSIZE = 2 ^ 4 ||| 2 ^ 5 := by decide
  rw [h, Nat.testBit_or, Nat.testBit_two_pow, Nat.testBit_two_pow]

/-- A value has a bit in common with a one-bit mask exactly when it has that
bit. -/
theorem and_two_pow_ne_zero_iff (c k : Nat) : c &&& 2 ^ k ≠ 0 ↔ c.testBit k = true := by
  rw [Nat.and_comm, Nat.two_pow_and]
  cases h : c.testBit k
  · simp
  · simp

/-- The parity mapping changes no bit of a `tcflag_t` other than bits 8 and 9. -/
theorem withParity_testBit (p : Parity) (c i : Nat) (hi : i < 32) (h8 : i ≠ 8) (h9 : i ≠ 9) :
    (withParity p c).testBit i = c.testBit i := by
  have h8' : ¬ 8 = i := fun e => h8 e.symm
  have h9' : ¬ 9 = i := fun e => h9 e.symm
  cases p <;>
    simp [withParity, Nat.testBit_and, Nat.testBit_or, testBit_tcflagNot, testBit_PARENB,
      testBit_PARODD, hi, h8', h9']

/-- The stop bits mapping changes no bit of a `tcflag_t` other than bit 6. -/
theorem withStopBits_testBit (s : StopBits) (c i : Nat) (hi : i < 32) (h6 : i ≠ 6) :
    (withStopBits s c).testBit i = c.testBit i := by
  have h6' : ¬ 6 = i := fun e => h6 e.symm
  cases s <;>
    simp [withStopBits, Nat.testBit_and, Nat.testBit_or, testBit_tcflagNot, testBit_CSTOPB,
      hi, h6']

/-- The flow control mapping changes no bit of a `tcflag_t` other than bit 31. -/
theorem withFlowControl_testBit (f : FlowControl) (c i : Nat) (hi : i < 32) (h31 : i ≠ 31) :
    (withFlowControl f c).testBit i = c.testBit i := by
  have h31' : ¬ 31 = i := fun e => h31 e.symm
  cases f <;>
    simp [withFlowControl, Nat.testBit_and, Nat.testBit_or, testBit_tcflagNot, testBit_CRTSCTS,
      hi, h31']

/-- The character size mapping with one of the four encodings changes no bit
of a `tcflag_t` other than bits 4 and 5. -/
theorem withCharSize_testBit (cs : CharacterSize) (c i : Nat)
    (hcs : cs = CHAR_SIZE_5 ∨ cs = CHAR_SIZE_6 ∨ cs = CHAR_SIZE_7 ∨ cs = CHAR_SIZE_8)
    (hi : i < 32) (h4 : i ≠ 4) (h5 : i ≠ 5) :
    (withCharSize cs c).testBit i = c.testBit i := by
  have h4' : ¬ 4 = i := fun e => h4 e.symm
  have h5' : ¬ 5 = i := fun e => h5 e.symm
  have hand : toTcflag cs &&& CSIZE = toTcflag cs := by
    rcases hcs with h | h | h | h <;> rw [h] <;> decide
  have hbit : (toTcflag cs).testBit i = false := by
    rw [← hand, Nat.testBit_and, testBit_CSIZE]
    simp [h4', h5']
  simp [withCharSize, Nat.testBit_and, Nat.testBit_or, testBit_tcflagNot, testBit_CSIZE, hi,
    h4', h5', hbit]

/-- The parity read from the control flags depends on bits 8 and 9 only. -/
theorem parityOf_congr (c c2 : Nat) (h8 : c2.testBit 8 = c.testBit 8)
    (h9 : c2.testBit 9 = c.testBit 9) : parityOf c2 = parityOf c := by
  have e8 : PARENB = 2 ^ 8 := by decide
  have e9 : PARODD = 2 ^ 9 := by decide
  have ha : (c2 &&& PARENB ≠ 0) ↔ (c &&& PARENB ≠ 0) := by
    rw [e8, and_two_pow_ne_zero_iff, and_two_pow_ne_zero_iff, h8]
  have hb : (c2 &&& PARODD ≠ 0) ↔ (c &&& PARODD ≠ 0) := by
    rw [e9, and_two_pow_ne_zero_iff, and_two_pow_ne_zero_iff, h9]
  unfold parityOf
  by_cases h1 : c &&& PARENB ≠ 0 <;> by_cases h2 : c &&& PARODD ≠ 0 <;>
    simp only [ha, hb, h1, h2, if_true, if_false]

/-- The stop bits read from the control flags depend on bit 6 only. -/
theorem stopBitsOf_congr (c c2 : Nat) (h6 : c2.testBit 6 = c.testBit 6) :
    stopBitsOf c2 = stopBitsOf c := by
  have e6 : CSTOPB = 2 ^ 6 := by decide
  have ha : (c2 &&& CSTOPB ≠ 0) ↔ (c &&& CSTOPB ≠ 0) := by
    rw [e6, and_two_pow_ne_zero_iff, and_two_pow_ne_zero_iff, h6]
  unfold stopBitsOf
  by_cases h1 : c &&& CSTOPB ≠ 0 <;> simp only [ha, h1, if_true, if_false]

/-- The flow control read from the control flags depends on bit 31 only. -/
theorem flowControlOf_congr (c c2 : Nat) (h31 : c2.testBit 31 = c.testBit 31) :
    flowControlOf c2 = flowControlOf c := by
  have e31 : CRTSCTS = 2 ^ 31 := by decide
  have ha : (c2 &&& CRTSCTS ≠ 0) ↔ (c &&& CRTSCTS ≠ 0) := by
    rw [e31, and_two_pow_ne_zero_iff, and_two_pow_ne_zero_iff, h31]
  unfold flowControlOf
  by_cases h1 : c &&& CRTSCTS ≠ 0 <;> simp only [ha, h1, if_true, if_false]

/-- The size field of the control flags depends on bits 4 and 5 only. -/
theorem charSize_congr (c c2 : Nat) (h4 : c2.testBit 4 = c.testBit 4)
    (h5 : c2.testBit 5 = c.testBit 5) : c2 &&& CSIZE = c &&& CSIZE := by
  apply Nat.eq_of_testBit_eq
  intro i
  rw [Nat.testBit_and, Nat.testBit_and, testBit_CSIZE]
  by_cases e4 : 4 = i
  · subst e4; simp [h4]
  · by_cases e5 : 5 = i
    · subst e5; simp [h5]
    · simp [e4, e5]

/-- The answer of a device to its next call is the first of its script. -/
theorem answer_eq_getD (d : Device) : d.answer = d.script.getD 0 Answer.failure := by
  obtain ⟨attrs, acq, calls, script⟩ := d
  cases script <;> simp [Device.answer]

/-- On an open port the four getters of the facade, when the device answers,
return what they read from the control flags of the device. -/
theorem facade_getters_answered (port : SerialPort) (e : Device) (hopen : port.IsOpen = true)
    (h0 : 0 ≤ e.answer.ret) :
    (port.GetCharSize e).result = Result.ok (e.attrs.c_cflag &&& CSIZE) ∧
    (port.GetParity e).result = Result.ok (parityOf e.attrs.c_cflag) ∧
    (port.GetNumOfStopBits e).result = Result.ok (stopBitsOf e.attrs.c_cflag) ∧
    (port.GetFlowControl e).result = Result.ok (flowControlOf e.attrs.c_cflag) := by
  obtain ⟨impl⟩ := port
  have hopen2 : impl.IsOpen = true := hopen
  refine ⟨?_, ?_, ?_, ?_⟩
  · simp [SerialPort.GetCharSize, GetCharSize_answered impl e hopen2 h0, throwSpec]
  · simp [SerialPort.GetParity, GetParity_answered impl e hopen2 h0, throwSpec]
  · simp [SerialPort.GetNumOfStopBits, GetNumOfStopBits_answered impl e hopen2 h0, throwSpec]
  · simp [SerialPort.GetFlowControl, GetFlowControl_answered impl e hopen2 h0, throwSpec]

/-- After an accepted rewrite of the control flags alone, every other field of
the attribute block is what it was, and a getter whose bits are what they were
returns what it returned before. -/
theorem frame_of_rewrite (port : SerialPort) (d : Device) (c2 : Nat)
    (hopen : port.IsOpen = true)
    (h0 : 0 ≤ (d.script.getD 0 Answer.failure).ret)
    (h2 : 0 ≤ (d.script.getD 2 Answer.failure).ret) :
    ({ (d.afterRewrite port.mSerialPortImpl.mFileDescriptor
          { d.attrs with c_cflag := c2 }).attrs with c_cflag := d.attrs.c_cflag } = d.attrs) ∧
    (c2.testBit 4 = d.attrs.c_cflag.testBit 4 → c2.testBit 5 = d.attrs.c_cflag.testBit 5 →
      (port.GetCharSize (d.afterRewrite port.mSerialPortImpl.mFileDescriptor
        { d.attrs with c_cflag := c2 })).result = (port.GetCharSize d).result) ∧
    (c2.testBit 8 = d.attrs.c_cflag.testBit 8 → c2.testBit 9 = d.attrs.c_cflag.testBit 9 →
      (port.GetParity (d.afterRewrite port.mSerialPortImpl.mFileDescriptor
        { d.attrs with c_cflag := c2 })).result = (port.GetParity d).result) ∧
    (c2.testBit 6 = d.attrs.c_cflag.testBit 6 →
      (port.GetNumOfStopBits (d.afterRewrite port.mSerialPortImpl.mFileDescriptor
        { d.attrs with c_cflag := c2 })).result = (port.GetNumOfStopBits d).result) ∧
    (c2.testBit 31 = d.attrs.c_cflag.testBit 31 →
      (port.GetFlowControl (d.afterRewrite port.mSerialPortImpl.mFileDescriptor
        { d.attrs with c_cflag := c2 })).result = (port.GetFlowControl d).result) := by
  have hb := facade_getters_answered port d hopen (by rw [answer_eq_getD]; exact h0)
  have ha := facade_getters_answered port
    (d.afterRewrite port.mSerialPortImpl.mFileDescriptor { d.attrs with c_cflag := c2 }) hopen
    (by rw [afterRewrite_answer]; exact h2)
  have hattrs : (d.afterRewrite port.mSerialPortImpl.mFileDescriptor
      { d.attrs with c_cflag := c2 }).attrs.c_cflag = c2 := rfl
  rw [hattrs] at ha
  refine ⟨rfl, ?_, ?_, ?_, ?_⟩
  · intro h4 h5
    rw [ha.1, hb.1, charSize_congr _ _ h4 h5]
  · intro h8 h9
    rw [ha.2.1, hb.2.1, parityOf_congr _ _ h8 h9]
  · intro h6
    rw [ha.2.2.1, hb.2.2.1, stopBitsOf_congr _ _ h6]
  · intro h31
    rw [ha.2.2.2, hb.2.2.2, flowControlOf_congr _ _ h31]

/-- On an open port the four setters of the facade, when the device accepts
the attribute read and write and the value is one of the enumeration (or any
character size), return after a rewrite of the control flags. -/
theorem facade_setters_accepted (port : SerialPort) (d : Device) (hopen : port.IsOpen = true)
    (h0 : 0 ≤ (d.script.getD 0 Answer.failure).ret)
    (h1 : 0 ≤ (d.script.getD 1 Answer.failure).ret) :
    (∀ cs, port.SetCharSize cs d = ⟨Result.ok (),
      d.afterRewrite port.mSerialPortImpl.mFileDescriptor
        { d.attrs with c_cflag := withCharSize cs d.attrs.c_cflag }⟩) ∧
    (∀ p, (∀ r, p ≠ Parity.other r) → port.SetParity p d = ⟨Result.ok (),
      d.afterRewrite port.mSerialPortImpl.mFileDescriptor
        { d.attrs with c_cflag := withParity p d.attrs.c_cflag }⟩) ∧
    (∀ s, (∀ r, s ≠ StopBits.other r) → port.SetNumOfStopBits s d = ⟨Result.ok (),
      d.afterRewrite port.mSerialPortImpl.mFileDescriptor
        { d.attrs with c_cflag := withStopBits s d.attrs.c_cflag }⟩) ∧
    (∀ f, (∀ r, f ≠ FlowControl.other r) → port.SetFlowControl f d = ⟨Result.ok (),
      d.afterRewrite port.mSerialPortImpl.mFileDescriptor
        { d.attrs with c_cflag := withFlowControl f d.attrs.c_cflag }⟩) := by
  obtain ⟨impl⟩ := port
  have hopen2 : impl.IsOpen = true := hopen
  refine ⟨?_, ?_, ?_, ?_⟩
  · intro cs
    simp [SerialPort.SetCharSize, SetCharSize_accepted impl d cs hopen2 h0 h1, throwSpec]
  · intro p hp
    simp [SerialPort.SetParity, SetParity_accepted impl d p hopen2 hp h0 h1, throwSpec]
  · intro s hs
    simp [SerialPort.SetNumOfStopBits, SetNumOfStopBits_accepted impl d s hopen2 hs h0 h1,
      throwSpec]
  · intro f hf
    simp [SerialPort.SetFlowControl, SetFlowControl_accepted impl d f hopen2 hf h0 h1, throwSpec]

/-! ## Claims C21 to C27 -/

/-- Claim C21: on an open port whose device has accepted the timeout
adjustment, when the answers to the reads are would-block answers and fewer
bytes than the count, followed by a hard error (a negative value, `errno`
different from `EAGAIN`), `Read` throws `std::runtime_error`, neither
`ReadTimeout` nor a return, whatever the buffer of the caller held and however
many bytes came before the error. -/
theorem C21_hard_error_is_runtime_error (port : SerialPort) (buf : DataBuffer) (n ms : Nat)
    (d : Device) (pre rest : List Answer) (a : Answer) (hopen : port.IsOpen = true)
    (h0 : 0 ≤ (d.script.getD 0 Answer.failure).ret)
    (h1 : 0 ≤ (d.script.getD 1 Answer.failure).ret)
    (hs : d.script.drop 2 = pre ++ a :: rest)
    (hpre : ∀ x ∈ pre, x.isWouldBlock = true ∨ x.ret = 1)
    (hcount : pre.countP (fun x => decide (x.ret = 1)) < n)
    (ha : a.ret < 0) (hna : a.eagain = false) :
    (port.Read buf n ms d).result = Result.raise Exn.runtime_error ∧
    (port.mSerialPortImpl.Read buf n ms d).result = Result.raise Exn.runtime_error ∧
    (port.Read buf n ms d).result ≠ Result.raise Exn.ReadTimeout ∧
    (port.Read buf n ms d).result ≠ Result.ok () := by
  have hn : 0 < n := by omega
  have hacc := (Read_accepted port.mSerialPortImpl buf n ms d hopen hn h0 h1).1
  have hfail := readsFail_of_hard_error a rest ha hna pre n hpre hcount
  rw [← hs] at hfail
  have hres : (port.mSerialPortImpl.Read buf n ms d).result = Result.raise Exn.runtime_error := by
    rw [hacc, readOutcome, if_pos hfail]
  rw [facade_Read_eq, hres]
  simp

/-- Witness of C21: the buffer holds a stale byte, three bytes are asked for,
and the device delivers one byte, answers would-block and then fails hard. -/
theorem C21_hard_error_witness :
    exampleOpenPort.IsOpen = true ∧
    (exampleOpenPort.Read [0x58] 3 100
      (exampleDevice [Answer.success, Answer.success, Answer.byte 0x41, Answer.wouldBlock,
        Answer.failure, Answer.byte 0x42])).result = Result.raise Exn.runtime_error :=
  ⟨rfl, (C21_hard_error_is_runtime_error exampleOpenPort [0x58] 3 100
    (exampleDevice [Answer.success, Answer.success, Answer.byte 0x41, Answer.wouldBlock,
      Answer.failure, Answer.byte 0x42])
    [Answer.byte 0x41, Answer.wouldBlock] [Answer.byte 0x42] Answer.failure rfl
    (by decide) (by decide) rfl (by decide) (by decide) (by decide) rfl).1⟩

/-- Claim C23: on an open port and for a count above zero, two devices that
give the same answers to the timeout adjustment and whose answers to the reads
differ in would-block answers only give `Read` the same outcome and leave the
same bytes in the buffer: a would-block answer is retried in place, is never
the outcome of the call and never counts as a byte. -/
theorem C23_would_block_is_transparent (port : SerialPort) (buf : DataBuffer) (n ms : Nat)
    (d d2 : Device) (hopen : port.IsOpen = true) (hn : 0 < n)
    (hadj0 : d.script.getD 0 Answer.failure = d2.script.getD 0 Answer.failure)
    (hadj1 : d.script.getD 1 Answer.failure = d2.script.getD 1 Answer.failure)
    (hreads : withoutWouldBlock (d.script.drop 2) = withoutWouldBlock (d2.script.drop 2)) :
    (port.Read buf n ms d).result = (port.Read buf n ms d2).result ∧
    (port.Read buf n ms d).dataBuffer = (port.Read buf n ms d2).dataBuffer := by
  rw [facade_Read_eq, facade_Read_eq]
  have hopen2 : port.mSerialPortImpl.IsOpen = true := hopen
  by_cases h0 : (d.script.getD 0 Answer.failure).ret < 0
  · have ha := (Read_not_accepted port.mSerialPortImpl buf n ms d hopen2 hn).1 h0
    have hb := (Read_not_accepted port.mSerialPortImpl buf n ms d2 hopen2 hn).1
      (by rw [← hadj0]; exact h0)
    rw [ha.1, ha.2, hb.1, hb.2]
    exact ⟨rfl, rfl⟩
  · have h0p : 0 ≤ (d.script.getD 0 Answer.failure).ret := by omega
    by_cases h1 : (d.script.getD 1 Answer.failure).ret < 0
    · have ha := (Read_not_accepted port.mSerialPortImpl buf n ms d hopen2 hn).2 h0p h1
      have hb := (Read_not_accepted port.mSerialPortImpl buf n ms d2 hopen2 hn).2
        (by rw [← hadj0]; exact h0p) (by rw [← hadj1]; exact h1)
      rw [ha.1, ha.2, hb.1, hb.2]
      exact ⟨rfl, rfl⟩
    · have h1p : 0 ≤ (d.script.getD 1 Answer.failure).ret := by omega
      have ha := Read_accepted port.mSerialPortImpl buf n ms d hopen2 hn h0p h1p
      have hb := Read_accepted port.mSerialPortImpl buf n ms d2 hopen2 hn
        (by rw [← hadj0]; exact h0p) (by rw [← hadj1]; exact h1p)
      have hf : readsFail n (d.script.drop 2) = readsFail n (d2.script.drop 2) := by
        rw [← readsFail_withoutWouldBlock (d.script.drop 2),
          ← readsFail_withoutWouldBlock (d2.script.drop 2), hreads]
      have hd : deliveredBytes n (d.script.drop 2) = deliveredBytes n (d2.script.drop 2) := by
        rw [← deliveredBytes_withoutWouldBlock (d.script.drop 2),
          ← deliveredBytes_withoutWouldBlock (d2.script.drop 2), hreads]
      rw [ha.1, ha.2, hb.1, hb.2, readOutcome, readOutcome, hf, hd]
      exact ⟨rfl, rfl⟩

/-- Witness of C23: two bytes are asked for; one device delivers a byte and
then times out, the other gives the same answers with three would-block
answers in between.  Both calls throw `ReadTimeout` with the one byte in the
buffer. -/
theorem C23_would_block_witness :
    exampleOpenPort.IsOpen = true ∧ 0 < 2 ∧
    (exampleOpenPort.Read [] 2 100
      (exampleDevice [Answer.success, Answer.success, Answer.wouldBlock, Answer.wouldBlock,
        Answer.byte 0x41, Answer.wouldBlock, Answer.timeout])).result
      = (exampleOpenPort.Read [] 2 100
          (exampleDevice [Answer.success, Answer.success, Answer.byte 0x41,
            Answer.timeout])).result ∧
    (exampleOpenPort.Read [] 2 100
      (exampleDevice [Answer.success, Answer.success, Answer.wouldBlock, Answer.wouldBlock,
        Answer.byte 0x41, Answer.wouldBlock, Answer.timeout])).dataBuffer
      = (exampleOpenPort.Read [] 2 100
          (exampleDevice [Answer.success, Answer.success, Answer.byte 0x41,
            Answer.timeout])).dataBuffer ∧
    (exampleOpenPort.Read [] 2 100
      (exampleDevice [Answer.success, Answer.success, Answer.wouldBlock, Answer.wouldBlock,
        Answer.byte 0x41, Answer.wouldBlock, Answer.timeout])).result
      = Result.raise Exn.ReadTimeout :=
  ⟨rfl, by decide,
    (C23_would_block_is_transparent exampleOpenPort [] 2 100
      (exampleDevice [Answer.success, Answer.success, Answer.wouldBlock, Answer.wouldBlock,
        Answer.byte 0x41, Answer.wouldBlock, Answer.timeout])
      (exampleDevice [Answer.success, Answer.success, Answer.byte 0x41, Answer.timeout])
      rfl (by decide) rfl rfl (by decide)).1,
    (C23_would_block_is_transparent exampleOpenPort [] 2 100
      (exampleDevice [Answer.success, Answer.success, Answer.wouldBlock, Answer.wouldBlock,
        Answer.byte 0x41, Answer.wouldBlock, Answer.timeout])
      (exampleDevice [Answer.success, Answer.success, Answer.byte 0x41, Answer.timeout])
      rfl (by decide) rfl rfl (by decide)).2,
    by decide⟩

/-- Claim C24, evaluated on the code at a failing input.  On an open port
`Read( buffer, 1, 100 )` is answered with a success by `tcgetattr` and with a
failure by `tcsetattr`.  `SetReadTimeout` throws `std::invalid_argument`, which
the exception specification of `Read` does not list, so the call does not
throw `std::runtime_error` as the claim says: `std::unexpected()` ends the
process.  The same happens in `ReadByte` and `ReadLine`.  A failure of
`tcgetattr` is thrown as `std::runtime_error`. -/
theorem C24_failed_tcsetattr_is_not_runtime_error :
    (exampleOpenImpl.SetReadTimeout 100 0
        (exampleDevice [Answer.success, Answer.failure])).result
      = Result.raise Exn.invalid_argument ∧
    (exampleOpenImpl.Read [] 1 100 (exampleDevice [Answer.success, Answer.failure])).result
      = Result.terminate ∧
    (exampleOpenPort.Read [] 1 100 (exampleDevice [Answer.success, Answer.failure])).result
      = Result.terminate ∧
    (exampleOpenPort.ReadByte 100 (exampleDevice [Answer.success, Answer.failure])).result
      = Result.terminate ∧
    (exampleOpenPort.ReadLine 100 0x0A (exampleDevice [Answer.success, Answer.failure])).result
      = Result.terminate ∧
    (exampleOpenImpl.Read [] 1 100 (exampleDevice [Answer.failure])).result
      = Result.raise Exn.runtime_error := by
  decide

/-- Claim C27: on an open port, whenever the `Read( data_buffer, 1, msTimeout )`
of `ReadByte` returns without an exception, the local buffer holds exactly one
element, the byte the device delivered to the read of that call, and
`ReadByte` returns that byte; and `ReadByte` ends the process only when that
`Read` does, so the assertion `1 == data_buffer.size()` never fails. -/
theorem C27_read_byte_assertion_holds (self : SerialPortImpl) (ms : Nat) (d : Device)
    (hopen : self.IsOpen = true)
    (hok : (self.Read [] 1 ms d).result = Result.ok ()) :
    (self.Read [] 1 ms d).dataBuffer.length = 1 ∧
    (self.Read [] 1 ms d).dataBuffer = deliveredBytes 1 (readAnswers d) ∧
    (∃ b, (self.Read [] 1 ms d).dataBuffer = [b] ∧
      self.ReadByte ms d = ⟨Result.ok b, (self.Read [] 1 ms d).dev⟩) ∧
    (∀ e : Device, (self.ReadByte ms e).result = Result.terminate →
      (self.Read [] 1 ms e).result = Result.terminate) := by
  have hr := Read_ok_of_empty self 1 ms d hopen (by decide) hok
  refine ⟨hr.2, hr.1, ?_, ?_⟩
  · have hlen := hr.2
    cases hbuf : (self.Read [] 1 ms d).dataBuffer with
    | nil => rw [hbuf] at hlen; simp at hlen
    | cons b tl =>
      cases tl with
      | cons c tl2 => rw [hbuf] at hlen; simp at hlen
      | nil =>
        refine ⟨b, rfl, ?_⟩
        have heq := Read_eq_ReadNonzero self [] 1 ms d (by decide)
        rw [heq] at hok hbuf ⊢
        simp [SerialPortImpl.ReadByte, SerialPortImpl.ReadByteBody, hok, hbuf, throwSpec]
  · intro e hterm
    have heq := Read_eq_ReadNonzero self [] 1 ms e (by decide)
    cases hres : (self.Read [] 1 ms e).result with
    | terminate => rfl
    | raise x =>
      exfalso
      rw [heq] at hres
      simp only [SerialPortImpl.ReadByte, SerialPortImpl.ReadByteBody, hres] at hterm
      have hx : x ∈ [Exn.NotOpen, Exn.ReadTimeout, Exn.runtime_error] := by
        simp only [SerialPortImpl.ReadNonzero] at hres
        by_contra hx
        cases hb : (if ¬self.IsOpen = true then
            (⟨Result.raise Exn.NotOpen, [], e⟩ : RetBuf)
          else self.ReadElse [] 1 ms e).result with
        | ok u => rw [hb] at hres; simp [throwSpec] at hres
        | terminate => rw [hb] at hres; simp [throwSpec] at hres
        | raise y =>
          rw [hb] at hres
          by_cases hy : y ∈ [Exn.NotOpen, Exn.ReadTimeout, Exn.runtime_error]
          · simp only [throwSpec, hy, if_true, Result.raise.injEq] at hres
            exact hx (hres ▸ hy)
          · simp [throwSpec, hy] at hres
      simp [throwSpec, hx] at hterm
    | ok u =>
      exfalso
      have hr2 := Read_ok_of_empty self 1 ms e hopen (by decide) hres
      have hlen := hr2.2
      rw [heq] at hres hlen
      cases hbuf : (self.ReadNonzero [] 1 ms e).dataBuffer with
      | nil => rw [hbuf] at hlen; simp at hlen
      | cons b tl =>
        cases tl with
        | cons c tl2 => rw [hbuf] at hlen; simp at hlen
        | nil =>
          simp [SerialPortImpl.ReadByte, SerialPortImpl.ReadByteBody, hres, hbuf, throwSpec]
            at hterm

/-- Witness of C27: the device accepts the timeout adjustment and delivers the
byte 0x41. -/
theorem C27_read_byte_witness :
    exampleOpenImpl.IsOpen = true ∧
    (exampleOpenImpl.Read [] 1 100
      (exampleDevice [Answer.success, Answer.success, Answer.byte 0x41])).dataBuffer.length
      = 1 ∧
    exampleOpenImpl.ReadByte 100
        (exampleDevice [Answer.success, Answer.success, Answer.byte 0x41])
      = ⟨Result.ok 0x41, (exampleDevice []).afterByte 3 100⟩ :=
  ⟨rfl,
    (C27_read_byte_assertion_holds exampleOpenImpl 100
      (exampleDevice [Answer.success, Answer.success, Answer.byte 0x41]) rfl (by decide)).1,
    by decide⟩

/-- Claim C22: after a `SerialPortImpl::Open` that returns on a closed handle,
the saved settings are the attribute block the device had before, and the
attribute block of the device is that block with the input, output and local
flags zero, the bits `CREAD` (bit 7) and `CLOCAL` (bit 11) of the control
flags set and every other bit of the control flags as it was, `VMIN` and
`VTIME` zero, and the other entries and the speeds as they were.  After a
five-argument `SerialPort::Open` that returns, the saved settings are the
block the device had before as well. -/
theorem C22_open_saves_and_applies_baseline (self : SerialPortImpl) (d : Device)
    (b : BaudRate) (c : CharacterSize) (p : Parity) (s : StopBits) (f : FlowControl)
    (hclosed : self.IsOpen = false) :
    ((self.Open d).result = Result.ok () →
      (self.Open d).self.mOldPortSettings = d.attrs ∧
      (self.Open d).dev.attrs.c_iflag = 0 ∧
      (self.Open d).dev.attrs.c_oflag = 0 ∧
      (self.Open d).dev.attrs.c_lflag = 0 ∧
      (self.Open d).dev.attrs.c_cflag = d.attrs.c_cflag ||| (CREAD ||| CLOCAL) ∧
      (self.Open d).dev.attrs.c_cflag.testBit 7 = true ∧
      (self.Open d).dev.attrs.c_cflag.testBit 11 = true ∧
      (∀ i, i ≠ 7 → i ≠ 11 →
        (self.Open d).dev.attrs.c_cflag.testBit i = d.attrs.c_cflag.testBit i) ∧
      (self.Open d).dev.attrs.c_cc_VMIN = 0 ∧
      (self.Open d).dev.attrs.c_cc_VTIME = 0 ∧
      (self.Open d).dev.attrs.c_cc_other = d.attrs.c_cc_other ∧
      (self.Open d).dev.attrs.c_ispeed = d.attrs.c_ispeed ∧
      (self.Open d).dev.attrs.c_ospeed = d.attrs.c_ospeed) ∧
    ((SerialPort.Open ⟨self⟩ b c p s f d).result = Result.ok () →
      (SerialPort.Open ⟨self⟩ b c p s f d).self.mSerialPortImpl.mOldPortSettings = d.attrs) := by
  have hbits : (CREAD ||| CLOCAL) = 2 ^ 7 ||| 2 ^ 11 := by decide
  have hc : ∀ i, (CREAD ||| CLOCAL).testBit i = (decide (7 = i) || decide (11 = i)) := by
    intro i
    rw [hbits, Nat.testBit_or, Nat.testBit_two_pow, Nat.testBit_two_pow]
  constructor
  · intro hok
    have h := Open_acquires self d hclosed hok
    rw [h.2.2.2]
    refine ⟨h.2.2.1, rfl, rfl, rfl, rfl, ?_, ?_, ?_, rfl, rfl, rfl, rfl, rfl⟩
    · simp only [SerialPortImpl.baseline, Nat.testBit_or, hc]
      simp
    · simp only [SerialPortImpl.baseline, Nat.testBit_or, hc]
      simp
    · intro i h7 h11
      have h7' : ¬ 7 = i := fun e => h7 e.symm
      have h11' : ¬ 11 = i := fun e => h11 e.symm
      simp only [SerialPortImpl.baseline, Nat.testBit_or, hc]
      simp [h7', h11']
  · intro hok
    have hself : (SerialPort.Open ⟨self⟩ b c p s f d).self = ⟨(self.Open d).self⟩ := rfl
    rw [hself]
    cases hr : (self.Open d).result with
    | ok u => exact (Open_acquires self d hclosed hr).2.2.1
    | terminate =>
      simp [SerialPort.Open, SerialPort.OpenBody, Ret.andThen, hr, throwSpec] at hok
    | raise e =>
      exfalso
      by_cases he : e ∈ [Exn.OpenFailed, Exn.AlreadyOpen, Exn.UnsupportedBaudRate,
          Exn.invalid_argument]
      · simp [SerialPort.Open, SerialPort.OpenBody, Ret.andThen, hr, throwSpec, he] at hok
      · simp [SerialPort.Open, SerialPort.OpenBody, Ret.andThen, hr, throwSpec, he] at hok

/-- Witness of C22: a fresh handle and a device that accepts the four calls of
`Open`; its control flags hold `CS7 | PARENB` and its local flags are not
zero before. -/
theorem C22_open_witness :
    (SerialPortImpl.new "/dev/ttyS0").IsOpen = false ∧
    ((SerialPortImpl.new "/dev/ttyS0").Open
      { exampleIdleDevice exampleOpenAnswers with
        attrs := { exampleAttrs with c_cflag := 0x120, c_lflag := 0x8A3B } }).dev.attrs
      = { exampleAttrs with c_cflag := 0x9A0 } ∧
    ((SerialPortImpl.new "/dev/ttyS0").Open
      { exampleIdleDevice exampleOpenAnswers with
        attrs := { exampleAttrs with
          c_cflag := 0x120, c_lflag := 0x8A3B } }).self.mOldPortSettings
      = { exampleAttrs with c_cflag := 0x120, c_lflag := 0x8A3B } :=
  ⟨rfl, by decide,
    ((C22_open_saves_and_applies_baseline (SerialPortImpl.new "/dev/ttyS0")
      { exampleIdleDevice exampleOpenAnswers with
        attrs := { exampleAttrs with c_cflag := 0x120, c_lflag := 0x8A3B } }
      13 CHAR_SIZE_8 Parity.PARITY_NONE StopBits.STOP_BITS_1 FlowControl.FLOW_CONTROL_NONE
      rfl).1 (by decide)).1⟩

/-- Claim C26: in the five-argument `Open` on a closed handle, when the
implementation is opened and, after the setters `done` have returned, the next
setter `failing` throws `e`, `Open` throws `e`, `IsOpen()` is true, the
descriptor of the handle is still acquired on the device, and the attribute
block of the device is the one the setters `done` have left. -/
theorem C26_open_stays_open_when_a_setter_throws (port : SerialPort) (d : Device)
    (b : BaudRate) (c : CharacterSize) (p : Parity) (s : StopBits) (f : FlowControl)
    (done todo : List (Device → Ret Unit)) (failing : Device → Ret Unit) (e : Exn)
    (hclosed : port.IsOpen = false)
    (hopened : (port.mSerialPortImpl.Open d).result = Result.ok ())
    (hsplit : SerialPort.openSetters ⟨(port.mSerialPortImpl.Open d).self⟩ b c p s f
      = done ++ failing :: todo)
    (hdone : (runSetters done (port.mSerialPortImpl.Open d).dev).result = Result.ok ())
    (hfail : (failing (runSetters done (port.mSerialPortImpl.Open d).dev).dev).result
      = Result.raise e) :
    (port.Open b c p s f d).result = Result.raise e ∧
    (port.Open b c p s f d).self.IsOpen = true ∧
    (port.Open b c p s f d).self.mSerialPortImpl.mFileDescriptor
      ∈ (port.Open b c p s f d).dev.acquired ∧
    (port.Open b c p s f d).dev.attrs
      = (runSetters done (port.mSerialPortImpl.Open d).dev).dev.attrs := by
  have hacq := Open_acquires port.mSerialPortImpl d hclosed hopened
  have hopen1 : SerialPort.IsOpen ⟨(port.mSerialPortImpl.Open d).self⟩ = true := hacq.1
  have hframe := openSetters_frame ⟨(port.mSerialPortImpl.Open d).self⟩ b c p s f hopen1
  have hrun := runSetters_failing failing todo e done _ hdone hfail
  rw [← hsplit] at hrun
  have hfmem : failing ∈ SerialPort.openSetters ⟨(port.mSerialPortImpl.Open d).self⟩ b c p s f := by
    rw [hsplit]; simp
  have hdmem : ∀ g ∈ done,
      g ∈ SerialPort.openSetters ⟨(port.mSerialPortImpl.Open d).self⟩ b c p s f := by
    intro g hg; rw [hsplit]; simp [hg]
  have hff := hframe failing hfmem (runSetters done (port.mSerialPortImpl.Open d).dev).dev
  have he := hff.2.2 e hfail
  have hattrs := hff.2.1 (by rw [hfail]; simp)
  have hdacq := runSetters_acquired done (fun g hg d2 => (hframe g (hdmem g hg) d2).1)
    (port.mSerialPortImpl.Open d).dev
  have hopen : port.Open b c p s f d =
      ⟨Result.raise e, ⟨(port.mSerialPortImpl.Open d).self⟩,
        (failing (runSetters done (port.mSerialPortImpl.Open d).dev).dev).dev⟩ := by
    simp only [SerialPort.Open, OpenBody_eq_runSetters, hopened, Ret.andThen, hrun]
    rcases he with he | he <;> subst he <;> simp [throwSpec]
  rw [hopen]
  refine ⟨rfl, hacq.1, ?_, hattrs⟩
  simp only
  rw [hff.1, hdacq]
  exact hacq.2.1

/-- Witness of C26: a fresh handle is opened with a parity outside the
enumeration.  The device hands out the descriptor 3 and accepts the baud rate
and seven bits per character; `SetParity` throws `std::invalid_argument`.
`Open` throws it, the handle is open, the descriptor 3 is acquired and the
size field of the device holds seven bits. -/
theorem C26_open_witness :
    (SerialPort.new "/dev/ttyS0").IsOpen = false ∧
    ((SerialPort.new "/dev/ttyS0").Open 13 CHAR_SIZE_7 (Parity.other 7) StopBits.STOP_BITS_1
      FlowControl.FLOW_CONTROL_NONE (exampleIdleDevice exampleOpenThenParityAnswers)).result
      = Result.raise Exn.invalid_argument ∧
    ((SerialPort.new "/dev/ttyS0").Open 13 CHAR_SIZE_7 (Parity.other 7) StopBits.STOP_BITS_1
      FlowControl.FLOW_CONTROL_NONE (exampleIdleDevice exampleOpenThenParityAnswers)).self.IsOpen
      = true ∧
    ((SerialPort.new "/dev/ttyS0").Open 13 CHAR_SIZE_7 (Parity.other 7) StopBits.STOP_BITS_1
      FlowControl.FLOW_CONTROL_NONE (exampleIdleDevice exampleOpenThenParityAnswers)).dev.acquired
      = [3] ∧
    ((SerialPort.new "/dev/ttyS0").Open 13 CHAR_SIZE_7 (Parity.other 7) StopBits.STOP_BITS_1
      FlowControl.FLOW_CONTROL_NONE
      (exampleIdleDevice exampleOpenThenParityAnswers)).dev.attrs.c_cflag &&& CSIZE
      = CHAR_SIZE_7 :=
  ⟨rfl,
    (C26_open_stays_open_when_a_setter_throws (SerialPort.new "/dev/ttyS0")
      (exampleIdleDevice exampleOpenThenParityAnswers) 13 CHAR_SIZE_7 (Parity.other 7)
      StopBits.STOP_BITS_1 FlowControl.FLOW_CONTROL_NONE
      [SerialPort.SetBaudRate ⟨exampleOpenImpl⟩ 13, SerialPort.SetCharSize ⟨exampleOpenImpl⟩ CHAR_SIZE_7]
      [SerialPort.SetNumOfStopBits ⟨exampleOpenImpl⟩ StopBits.STOP_BITS_1,
        SerialPort.SetFlowControl ⟨exampleOpenImpl⟩ FlowControl.FLOW_CONTROL_NONE]
      (SerialPort.SetParity ⟨exampleOpenImpl⟩ (Parity.other 7)) Exn.invalid_argument
      rfl (by decide) rfl (by decide) (by decide)).1,
    by decide, by decide, by decide⟩

/-- Claim C25: on an open port whose device accepts the attribute reads and
the attribute write, `SetCharSize` with one of the four encodings,
`SetParity`, `SetNumOfStopBits` and `SetFlowControl` with a value of their
enumeration each return, and afterwards: the getters of the other three
parameters return what they return on the device before; every field of the
attribute block other than the control flags is what it was; of the 32 bits of
the control flags only those of the parameter (bits 4 and 5 for the size, 8
and 9 for the parity, 6 for the stop bits, 31 for the flow control) can have
changed; and the handle is what it was. -/
theorem C25_setters_change_only_their_bits (port : SerialPort) (d : Device)
    (cs : CharacterSize) (p : Parity) (s : StopBits) (f : FlowControl)
    (hopen : port.IsOpen = true)
    (hcs : cs = CHAR_SIZE_5 ∨ cs = CHAR_SIZE_6 ∨ cs = CHAR_SIZE_7 ∨ cs = CHAR_SIZE_8)
    (hp : p = Parity.PARITY_NONE ∨ p = Parity.PARITY_ODD ∨ p = Parity.PARITY_EVEN)
    (hs : s = StopBits.STOP_BITS_1 ∨ s = StopBits.STOP_BITS_2)
    (hf : f = FlowControl.FLOW_CONTROL_NONE ∨ f = FlowControl.FLOW_CONTROL_HARD)
    (h0 : 0 ≤ (d.script.getD 0 Answer.failure).ret)
    (h1 : 0 ≤ (d.script.getD 1 Answer.failure).ret)
    (h2 : 0 ≤ (d.script.getD 2 Answer.failure).ret) :
    ((port.SetCharSize cs d).result = Result.ok () ∧
      (port.GetParity (port.SetCharSize cs d).dev).result = (port.GetParity d).result ∧
      (port.GetNumOfStopBits (port.SetCharSize cs d).dev).result
        = (port.GetNumOfStopBits d).result ∧
      (port.GetFlowControl (port.SetCharSize cs d).dev).result
        = (port.GetFlowControl d).result ∧
      { (port.SetCharSize cs d).dev.attrs with c_cflag := d.attrs.c_cflag } = d.attrs ∧
      (∀ i, i < 32 → i ≠ 4 → i ≠ 5 →
        (port.SetCharSize cs d).dev.attrs.c_cflag.testBit i = d.attrs.c_cflag.testBit i) ∧
      ((Op.SetCharSize cs).apply port d).self = port) ∧
    ((port.SetParity p d).result = Result.ok () ∧
      (port.GetCharSize (port.SetParity p d).dev).result = (port.GetCharSize d).result ∧
      (port.GetNumOfStopBits (port.SetParity p d).dev).result
        = (port.GetNumOfStopBits d).result ∧
      (port.GetFlowControl (port.SetParity p d).dev).result = (port.GetFlowControl d).result ∧
      { (port.SetParity p d).dev.attrs with c_cflag := d.attrs.c_cflag } = d.attrs ∧
      (∀ i, i < 32 → i ≠ 8 → i ≠ 9 →
        (port.SetParity p d).dev.attrs.c_cflag.testBit i = d.attrs.c_cflag.testBit i) ∧
      ((Op.SetParity p).apply port d).self = port) ∧
    ((port.SetNumOfStopBits s d).result = Result.ok () ∧
      (port.GetCharSize (port.SetNumOfStopBits s d).dev).result = (port.GetCharSize d).result ∧
      (port.GetParity (port.SetNumOfStopBits s d).dev).result = (port.GetParity d).result ∧
      (port.GetFlowControl (port.SetNumOfStopBits s d).dev).result
        = (port.GetFlowControl d).result ∧
      { (port.SetNumOfStopBits s d).dev.attrs with c_cflag := d.attrs.c_cflag } = d.attrs ∧
      (∀ i, i < 32 → i ≠ 6 →
        (port.SetNumOfStopBits s d).dev.attrs.c_cflag.testBit i = d.attrs.c_cflag.testBit i) ∧
      ((Op.SetNumOfStopBits s).apply port d).self = port) ∧
    ((port.SetFlowControl f d).result = Result.ok () ∧
      (port.GetCharSize (port.SetFlowControl f d).dev).result = (port.GetCharSize d).result ∧
      (port.GetParity (port.SetFlowControl f d).dev).result = (port.GetParity d).result ∧
      (port.GetNumOfStopBits (port.SetFlowControl f d).dev).result
        = (port.GetNumOfStopBits d).result ∧
      { (port.SetFlowControl f d).dev.attrs with c_cflag := d.attrs.c_cflag } = d.attrs ∧
      (∀ i, i < 32 → i ≠ 31 →
        (port.SetFlowControl f d).dev.attrs.c_cflag.testBit i = d.attrs.c_cflag.testBit i) ∧
      ((Op.SetFlowControl f).apply port d).self = port) := by
  have hp2 : ∀ r, p ≠ Parity.other r := by
    intro r hr
    rcases hp with h | h | h <;> rw [h] at hr <;> cases hr
  have hs2 : ∀ r, s ≠ StopBits.other r := by
    intro r hr
    rcases hs with h | h <;> rw [h] at hr <;> cases hr
  have hf2 : ∀ r, f ≠ FlowControl.other r := by
    intro r hr
    rcases hf with h | h <;> rw [h] at hr <;> cases hr
  have hset := facade_setters_accepted port d hopen h0 h1
  have bcs := fun i hi h4 h5 => withCharSize_testBit cs d.attrs.c_cflag i hcs hi h4 h5
  have bp := fun i hi h8 h9 => withParity_testBit p d.attrs.c_cflag i hi h8 h9
  have bs := fun i hi h6 => withStopBits_testBit s d.attrs.c_cflag i hi h6
  have bf := fun i hi h31 => withFlowControl_testBit f d.attrs.c_cflag i hi h31
  have fcs := frame_of_rewrite port d (withCharSize cs d.attrs.c_cflag) hopen h0 h2
  have fp := frame_of_rewrite port d (withParity p d.attrs.c_cflag) hopen h0 h2
  have fs := frame_of_rewrite port d (withStopBits s d.attrs.c_cflag) hopen h0 h2
  have ff := frame_of_rewrite port d (withFlowControl f d.attrs.c_cflag) hopen h0 h2
  refine ⟨?_, ?_, ?_, ?_⟩
  · rw [hset.1 cs]
    exact ⟨rfl,
      fcs.2.2.1 (bcs 8 (by decide) (by decide) (by decide))
        (bcs 9 (by decide) (by decide) (by decide)),
      fcs.2.2.2.1 (bcs 6 (by decide) (by decide) (by decide)),
      fcs.2.2.2.2 (bcs 31 (by decide) (by decide) (by decide)),
      fcs.1, bcs, rfl⟩
  · rw [hset.2.1 p hp2]
    exact ⟨rfl,
      fp.2.1 (bp 4 (by decide) (by decide) (by decide))
        (bp 5 (by decide) (by decide) (by decide)),
      fp.2.2.2.1 (bp 6 (by decide) (by decide) (by decide)),
      fp.2.2.2.2 (bp 31 (by decide) (by decide) (by decide)),
      fp.1, bp, rfl⟩
  · rw [hset.2.2.1 s hs2]
    exact ⟨rfl,
      fs.2.1 (bs 4 (by decide) (by decide)) (bs 5 (by decide) (by decide)),
      fs.2.2.1 (bs 8 (by decide) (by decide)) (bs 9 (by decide) (by decide)),
      fs.2.2.2.2 (bs 31 (by decide) (by decide)),
      fs.1, bs, rfl⟩
  · rw [hset.2.2.2 f hf2]
    exact ⟨rfl,
      ff.2.1 (bf 4 (by decide) (by decide)) (bf 5 (by decide) (by decide)),
      ff.2.2.1 (bf 8 (by decide) (by decide)) (bf 9 (by decide) (by decide)),
      ff.2.2.2.1 (bf 6 (by decide) (by decide)),
      ff.1, bf, rfl⟩

/-- Witness of C25: on a device with seven bits, odd parity, two stop bits and
hardware flow control (control flags 0x80000BE0), even parity is set; the
character size read afterwards is the one read before. -/
theorem C25_setters_witness :
    exampleOpenPort.IsOpen = true ∧
    (exampleOpenPort.GetCharSize (exampleOpenPort.SetParity Parity.PARITY_EVEN
      { exampleDevice [Answer.success, Answer.success, Answer.success] with
        attrs := { exampleAttrs with c_cflag := 0x80000BE0 } }).dev).result
      = (exampleOpenPort.GetCharSize
          { exampleDevice [Answer.success, Answer.success, Answer.success] with
            attrs := { exampleAttrs with c_cflag := 0x80000BE0 } }).result ∧
    (exampleOpenPort.GetCharSize
      { exampleDevice [Answer.success, Answer.success, Answer.success] with
        attrs := { exampleAttrs with c_cflag := 0x80000BE0 } }).result = Result.ok CHAR_SIZE_7 ∧
    (exampleOpenPort.SetParity Parity.PARITY_EVEN
      { exampleDevice [Answer.success, Answer.success, Answer.success] with
        attrs := { exampleAttrs with c_cflag := 0x80000BE0 } }).dev.attrs.c_cflag
      = 0x800009E0 :=
  ⟨rfl,
    (C25_setters_change_only_their_bits exampleOpenPort
      { exampleDevice [Answer.success, Answer.success, Answer.success] with
        attrs := { exampleAttrs with c_cflag := 0x80000BE0 } }
      CHAR_SIZE_8 Parity.PARITY_EVEN StopBits.STOP_BITS_1 FlowControl.FLOW_CONTROL_NONE rfl
      (Or.inr (Or.inr (Or.inr rfl))) (Or.inr (Or.inr rfl)) (Or.inl rfl) (Or.inl rfl)
      (by decide) (by decide) (by decide)).2.1.2.1,
    by decide, by decide⟩

end LibSerial
